import Mathlib

/-!
# libqi: the PeriodicTask scheduler (src/src/periodictask.cpp)

A shallow embedding of `qi::PeriodicTask` and of the free function `setState`. The service
directory, the directory binary and the functors follow in sections of their own.

The code is written against collaborators that are not part of the embedded file
(`qi::Atomic<int>`, `qi::Future<void>`, the event loop, the clock, the logger).
They are embedded as follows.

* The atomic cell `_state` is a field of the task record; `setIfEquals` is the
  compare-and-set on it. Every call of `setIfEquals` is appended to the task's
  `trace`, with its result, so that the order of attempts and of state changes
  can be read back.
* A future is an identifier (`0` is the default-constructed future). Calls of
  `cancel`, `wait` and `connect` on `_task`, calls of `async`, of the user
  callback, of `yield`, of `msleep`, of the statistics aggregator and of the
  logger (levels info, warning and error; debug and verbose lines are dropped)
  are appended to the `trace` as events. What the event loop does with a
  future afterwards (running `_wrap`, completing it, firing a connected
  handler) is a later call of `_wrap` or `_trigger` on the record.
* Each operation is embedded as one sequential run on a cell that nobody else
  changes during the run. A loop that waits for another thread takes a `fuel`
  bound on the number of its further passes; the result `none` says that the
  loop was still spinning when the fuel ran out.
* What happens to the task while the user callback executes (calls made by the
  callback itself, calls made by other threads) is the field `during` of a
  `CallbackRun`.
-/

/-- TaskState: the enumeration of periodictask.cpp, lines 18-28. -/
inductive TaskState where
  | Task_Stopped
  | Task_Scheduled
  | Task_Running
  | Task_Rescheduling
  | Task_Starting
  | Task_Stopping
  | Task_Triggering
  | Task_TriggerReady
  deriving DecidableEq, Repr

open TaskState

/-- The integer value of each enumerator, as stored in the `qi::Atomic<int>`. -/
def TaskState.toInt : TaskState → Int
  | Task_Stopped => 0
  | Task_Scheduled => 1
  | Task_Running => 2
  | Task_Rescheduling => 3
  | Task_Starting => 4
  | Task_Stopping => 5
  | Task_Triggering => 6
  | Task_TriggerReady => 7

/-- Modelled from the spec: `qi::Duration` is declared outside the embedded
sources; the spec says durations are signed 64-bit microseconds, so a duration
is an integer count of microseconds. -/
abbrev Duration := Int

/-- Modelled from the spec: `qi::MicroSeconds(n)` as a `Duration`. -/
def MicroSeconds (n : Int) : Duration := n

/-- Modelled from the spec: `qi::Seconds(n)` as a `Duration`. -/
def Seconds (n : Int) : Duration := n * 1000000

/-- Observable effects of the task code, in program order. -/
inductive Event where
  /-- one call `_state.setIfEquals(src, dst)` and what it returned -/
  | setIfEquals (src dst : TaskState) (ok : Bool)
  /-- scheduling request: `_scheduleCallback(_wrap, delay)` when a strand is
  set, `getEventLoop()->async(_wrap, delay)` otherwise; `fut` is the returned future -/
  | async (strand : Option Nat) (delay : Duration) (fut : Nat)
  /-- call of `_task.cancel()` -/
  | cancel (fut : Nat)
  /-- call of `_task.wait()` -/
  | wait (fut : Nat)
  /-- call of `_task.connect(&PeriodicTaskPrivate::_trigger, _p, _1, FutureCallbackType_Sync)` -/
  | connect (fut : Nat)
  /-- call of the user callback `_callback()` -/
  | callback (cb : Nat)
  /-- call of `_callStats.push(wall, usr, sys)` -/
  | push (wall usr sys : Int)
  /-- call of `boost::this_thread::yield()` -/
  | yield
  /-- call of `qi::os::msleep(ms)` -/
  | msleep (ms : Nat)
  | logInfo
  | logWarning
  | logError
  deriving DecidableEq, Repr

/-- PeriodicTaskPrivate: the fields of periodictask.cpp, lines 84-101, followed by the
two bookkeeping fields of the embedding (`trace`, `futures`). An empty
`boost::function` is `none`. -/
structure PeriodicTaskPrivate where
  _callStats : List (Int × Int × Int)
  _statsDisplayTime : Int
  _callback : Option Nat
  _scheduleCallback : Option Nat
  _period : Duration
  _state : TaskState
  _task : Nat
  _name : String
  _compensateCallTime : Bool
  _tid : Int
  /-- events issued so far, oldest first -/
  trace : List Event
  /-- number of futures handed out by `async` so far -/
  futures : Nat
  deriving DecidableEq, Repr

/-- Result of an operation that may throw: the task record as the operation left it. -/
inductive Outcome where
  | returned (p : PeriodicTaskPrivate)
  | threw (msg : String) (p : PeriodicTaskPrivate)
  deriving DecidableEq, Repr

/-- Line 102. -/
def invalidThreadId : Int := -1

/-- Append one event to the trace. -/
def emit (p : PeriodicTaskPrivate) (e : Event) : PeriodicTaskPrivate :=
  { p with trace := p.trace ++ [e] }

/-- The compare-and-set `_state.setIfEquals(src, dst)`: the attempt is recorded, and the
cell is written when it holds `src`. -/
def setIfEquals (p : PeriodicTaskPrivate) (src dst : TaskState) : Bool × PeriodicTaskPrivate :=
  if p._state = src then
    (true, emit { p with _state := dst } (Event.setIfEquals src dst true))
  else
    (false, emit p (Event.setIfEquals src dst false))

/-- A chain `setIfEquals(s1, d1) || setIfEquals(s2, d2) || ...`, evaluated left to right
and stopping at the first success, as `||` does. -/
def setIfEqualsAny : PeriodicTaskPrivate → List (TaskState × TaskState) → Bool × PeriodicTaskPrivate
  | p, [] => (false, p)
  | p, (s, d) :: rest =>
    let r := setIfEquals p s d
    if r.1 then r else setIfEqualsAny r.2 rest

/-- The loop `while (*_state == s) boost::this_thread::yield();`. The fuel bounds the
number of yields. -/
def yieldWhile (fuel : Nat) (s : TaskState) (p : PeriodicTaskPrivate) : Option PeriodicTaskPrivate :=
  if p._state = s then
    match fuel with
    | 0 => none
    | n + 1 => yieldWhile n s (emit p Event.yield)
  else some p

/-- The loops of `setState(state, from, to)`, lines 47-62; `i` counts the attempts made so
far. Attempts 0..999 are the first `for` loop; every later failed attempt is followed by
`msleep(1)`, and every thousandth of those by a warning. The fuel bounds the number of
failed attempts. -/
def setStateSpin (fuel : Nat) (i : Nat) (p : PeriodicTaskPrivate) (src dst : TaskState) :
    Option PeriodicTaskPrivate :=
  let r := setIfEquals p src dst
  if r.1 then some r.2
  else
    match fuel with
    | 0 => none
    | n + 1 =>
      let q := if 1000 ≤ i then emit r.2 (Event.msleep 1) else r.2
      let q := if 1000 ≤ i ∧ (i - 1000) % 1000 = 999 then emit q Event.logWarning else q
      setStateSpin n (i + 1) q src dst

/-- Lines 47-62. -/
def setState (fuel : Nat) (p : PeriodicTaskPrivate) (src dst : TaskState) : Option PeriodicTaskPrivate :=
  setStateSpin fuel 0 p src dst

/-- The loops of the two-transition `setState`, lines 64-79, counted as in `setStateSpin`. -/
def setStateSpin2 (fuel : Nat) (i : Nat) (p : PeriodicTaskPrivate) (src dst src2 dst2 : TaskState) :
    Option PeriodicTaskPrivate :=
  let r := setIfEqualsAny p [(src, dst), (src2, dst2)]
  if r.1 then some r.2
  else
    match fuel with
    | 0 => none
    | n + 1 =>
      let q := if 1000 ≤ i then emit r.2 (Event.msleep 1) else r.2
      let q := if 1000 ≤ i ∧ (i - 1000) % 1000 = 999 then emit q Event.logWarning else q
      setStateSpin2 n (i + 1) q src dst src2 dst2

/-- Lines 64-79. -/
def setState2 (fuel : Nat) (p : PeriodicTaskPrivate) (src dst src2 dst2 : TaskState) :
    Option PeriodicTaskPrivate :=
  setStateSpin2 fuel 0 p src dst src2 dst2

/-- How one execution of the user callback ended: normally, with the clock and CPU
readings taken after it (lines 274 and 276), or by an exception. -/
inductive CallbackResult where
  | finished (now : Int) (cpu2 : Int × Int)
  | threw

/-- One execution of the user callback as `_wrap` sees it: the readings taken before it
(lines 269-270), what happens to the task record while it executes, and how it ends. -/
structure CallbackRun where
  start : Int
  cpu : Int × Int
  during : PeriodicTaskPrivate → PeriodicTaskPrivate
  result : CallbackResult

/-- Where the first part of `_wrap` ends: at one of its `return` statements, or at the
call of the user callback with the value of the local `compensate`. -/
inductive Entered where
  | returned (p : PeriodicTaskPrivate)
  | invoking (compensate : Bool) (p : PeriodicTaskPrivate)

namespace PeriodicTask

/-- The constructor, lines 103-111. `name` stands for the string built from the object's
address, `now` for the clock reading. -/
def new (name : String) (now : Int) : PeriodicTaskPrivate :=
  { _callStats := []
    _statsDisplayTime := now
    _callback := none
    _scheduleCallback := none
    _period := -1
    _state := Task_Stopped
    _task := 0
    _name := name
    _compensateCallTime := false
    _tid := invalidThreadId
    trace := []
    futures := 0 }

/-- Lines 119-122. -/
def setName (n : String) (p : PeriodicTaskPrivate) : PeriodicTaskPrivate :=
  { p with _name := n }

/-- Lines 124-129. -/
def setCallback (cb : Option Nat) (p : PeriodicTaskPrivate) : Outcome :=
  if p._callback.isSome then Outcome.threw "Callback already set" p
  else Outcome.returned { p with _callback := cb }

/-- Lines 131-141; `none` is the null strand pointer. -/
def setStrand (strand : Option Nat) (p : PeriodicTaskPrivate) : PeriodicTaskPrivate :=
  match strand with
  | some s => { p with _scheduleCallback := some s }
  | none => { p with _scheduleCallback := none }

/-- Lines 143-148. -/
def setUsPeriod (usp : Int) (p : PeriodicTaskPrivate) : Outcome :=
  if usp < 0 then Outcome.threw "Period cannot be negative" p
  else Outcome.returned { p with _period := MicroSeconds usp }

/-- Lines 150-155. -/
def setPeriod (period : Duration) (p : PeriodicTaskPrivate) : Outcome :=
  if period < 0 then Outcome.threw "Period cannot be negative" p
  else Outcome.returned { p with _period := period }

/-- Lines 391-394. -/
def compensateCallbackTime (enable : Bool) (p : PeriodicTaskPrivate) : PeriodicTaskPrivate :=
  { p with _compensateCallTime := enable }

/-- Lines 396-400. -/
def isRunning (p : PeriodicTaskPrivate) : Bool :=
  p._state != Task_Stopped && p._state != Task_Stopping

/-- Lines 402-406. -/
def isStopping (p : PeriodicTaskPrivate) : Bool :=
  p._state == Task_Stopped || p._state == Task_Stopping

/-- The first statement of `_reschedule(delay)`, lines 339-342: the call of `async` (of the
strand when one is set, of the event loop otherwise) is made, and the future it returns is
assigned to `_task`. The state cell is not touched. -/
def _rescheduleAssign (p : PeriodicTaskPrivate) (delay : Duration) : PeriodicTaskPrivate :=
  let fut := p.futures + 1
  emit { p with _task := fut, futures := fut } (Event.async p._scheduleCallback delay fut)

/-- The second statement of `_reschedule(delay)`, lines 343-344: the compare-and-set from
Rescheduling to Scheduled, and the error logged when it fails. `_task` is not touched. -/
def _rescheduleRelease (p : PeriodicTaskPrivate) : PeriodicTaskPrivate :=
  let r := setIfEquals p Task_Rescheduling Task_Scheduled
  if r.1 then r.2 else emit r.2 Event.logError

/-- The function `PeriodicTaskPrivate::_reschedule(delay)`, lines 336-345: its two statements, in
the order of the source. -/
def _reschedule (p : PeriodicTaskPrivate) (delay : Duration) : PeriodicTaskPrivate :=
  _rescheduleRelease (_rescheduleAssign p delay)

/-- The `while` loop of `asyncStop`, lines 354-358. The fuel bounds the number of yields. -/
def asyncStopSpin (fuel : Nat) (p : PeriodicTaskPrivate) : Option PeriodicTaskPrivate :=
  let r := setIfEqualsAny p
    [(Task_Scheduled, Task_Stopping), (Task_Running, Task_Stopping),
     (Task_Stopped, Task_Stopped), (Task_Stopping, Task_Stopping)]
  if r.1 then some r.2
  else
    match fuel with
    | 0 => none
    | n + 1 => asyncStopSpin n (emit r.2 Event.yield)

/-- The function `PeriodicTask::asyncStop()`, lines 347-368. -/
def asyncStop (fuel : Nat) (p : PeriodicTaskPrivate) : Option PeriodicTaskPrivate :=
  let r := setIfEquals p Task_Stopped Task_Stopped
  if r.1 then some r.2
  else
    match asyncStopSpin fuel r.2 with
    | none => none
    | some q => some (emit q (Event.cancel q._task))

/-- The function `PeriodicTask::stop()`, lines 370-389; `tid` is `os::gettid()` of the caller. -/
def stop (fuel : Nat) (tid : Int) (p : PeriodicTaskPrivate) : Option PeriodicTaskPrivate :=
  match asyncStop fuel p with
  | none => none
  | some q =>
    if tid = q._tid then some q
    else
      let q1 := emit q (Event.wait q._task)
      let r := setIfEqualsAny q1 [(Task_Stopping, Task_Stopped), (Task_Stopped, Task_Stopped)]
      if r.1 then some r.2 else some (emit r.2 Event.logError)

/-- The function `PeriodicTask::start(immediate)`, lines 157-178; `tid` is `os::gettid()` of the caller. -/
def start (fuel : Nat) (tid : Int) (immediate : Bool) (p : PeriodicTaskPrivate) : Option Outcome :=
  if p._callback.isNone then
    some (Outcome.threw "Periodic task cannot start without a setCallback() call first" p)
  else if p._period < 0 then
    some (Outcome.threw "Periodic task cannot start without a setPeriod() call first" p)
  else if tid = p._tid then some (Outcome.returned p)
  else
    match stop fuel tid p with
    | none => none
    | some q =>
      let r := setIfEquals q Task_Stopped Task_Starting
      if r.1 then
        let r2 := setIfEquals r.2 Task_Starting Task_Rescheduling
        let q2 := if r2.1 then r2.2 else emit r2.2 Event.logError
        some (Outcome.returned (_reschedule q2 (if immediate then 0 else q2._period)))
      else some (Outcome.returned r.2)

/-- The function `PeriodicTask::trigger()`, lines 180-209. The fuel bounds the number of further passes
of the `while (true)` loop after the first. -/
def trigger (fuel : Nat) (p : PeriodicTaskPrivate) : Option PeriodicTaskPrivate :=
  let r := setIfEqualsAny p
    [(Task_Stopped, Task_Stopped), (Task_Stopping, Task_Stopping),
     (Task_Starting, Task_Starting), (Task_Running, Task_Running),
     (Task_Rescheduling, Task_Rescheduling), (Task_Triggering, Task_Triggering),
     (Task_TriggerReady, Task_TriggerReady)]
  if r.1 then some r.2
  else
    let r2 := setIfEquals r.2 Task_Scheduled Task_Triggering
    if r2.1 then
      let q1 := emit r2.2 (Event.cancel r2.2._task)
      let q2 := emit q1 (Event.connect q1._task)
      some (setIfEquals q2 Task_Triggering Task_TriggerReady).2
    else
      match fuel with
      | 0 => none
      | n + 1 => trigger n r2.2

/-- The function `PeriodicTaskPrivate::_trigger(future)`, lines 211-230; `canceled` is
`future.isCanceled()`. The call `_reschedule()` takes the default delay `qi::Duration(0)`
of line 98. -/
def _trigger (canceled : Bool) (p : PeriodicTaskPrivate) : PeriodicTaskPrivate :=
  if !canceled then p
  else
    let r := setIfEqualsAny p
      [(Task_Triggering, Task_Rescheduling), (Task_TriggerReady, Task_Rescheduling)]
    if r.1 then _reschedule r.2 0 else r.2

/-- The function `PeriodicTaskPrivate::_wrap()`, lines 234-271: from entry to the assignment of `_tid`
just before the callback is called; `tid` is `os::gettid()` of the executing thread. -/
def _wrapEnter (fuel : Nat) (tid : Int) (p : PeriodicTaskPrivate) : Option Entered :=
  let p0 := if p._state = Task_Stopped then emit p Event.logError else p
  let r := setIfEquals p0 Task_Stopping Task_Stopped
  if r.1 then some (Entered.returned r.2)
  else
    match yieldWhile fuel Task_Rescheduling r.2 with
    | none => none
    | some q =>
      let r2 := setIfEqualsAny q
        [(Task_Scheduled, Task_Running), (Task_Triggering, Task_Triggering),
         (Task_TriggerReady, Task_TriggerReady)]
      if r2.1 then
        some (Entered.invoking r2.2._compensateCallTime { r2.2 with _tid := tid })
      else
        match setState fuel r2.2 Task_Stopping Task_Stopped with
        | none => none
        | some q2 => some (Entered.returned q2)

/-- The function `PeriodicTaskPrivate::_wrap()`, lines 299-319: the sample is pushed into `_callStats`;
when 20 seconds have passed since `_statsDisplayTime`, the statistics are displayed (a
verbose log line) and reset. The sample is kept as the three exact counts of microseconds;
the conversion to `float` seconds of lines 300-302 is not embedded. -/
def pushStats (now : Int) (delta : Duration) (usr sys : Int) (p : PeriodicTaskPrivate) :
    PeriodicTaskPrivate :=
  let p2 := emit { p with _callStats := p._callStats ++ [(delta, usr, sys)] }
    (Event.push delta usr sys)
  if Seconds 20 ≤ now - p2._statsDisplayTime then
    { p2 with _statsDisplayTime := now, _callStats := [] }
  else p2

/-- The function `PeriodicTaskPrivate::_wrap()`, lines 273-333: from the end of the callback to the
return; `compensate`, `start` and `cpu` are the locals set before the call. -/
def _wrapLeave (fuel : Nat) (compensate : Bool) (start : Int) (cpu : Int × Int)
    (res : CallbackResult) (p : PeriodicTaskPrivate) : Option PeriodicTaskPrivate :=
  match res with
  | CallbackResult.threw =>
    setState2 fuel (emit p Event.logInfo) Task_Stopping Task_Stopped Task_Running Task_Stopped
  | CallbackResult.finished now cpu2 =>
    let p1 := { p with _tid := invalidThreadId }
    let delta : Duration := now - start
    let usr := cpu2.1 - cpu.1
    let sys := cpu2.2 - cpu.2
    let p3 := pushStats now delta usr sys p1
    match yieldWhile fuel Task_Triggering p3 with
    | none => none
    | some p4 =>
      let r := setIfEqualsAny p4
        [(Task_Running, Task_Rescheduling), (Task_TriggerReady, Task_Rescheduling)]
      if r.1 then
        some (_reschedule r.2 (max 0 (r.2._period - (if compensate then delta else 0))))
      else setState fuel r.2 Task_Stopping Task_Stopped

/-- The function `PeriodicTaskPrivate::_wrap()`, lines 232-334. Calling an empty `boost::function`
throws `boost::bad_function_call`, which the handler of line 280 catches. -/
def _wrap (fuel : Nat) (tid : Int) (cb : CallbackRun) (p : PeriodicTaskPrivate) :
    Option PeriodicTaskPrivate :=
  match _wrapEnter fuel tid p with
  | none => none
  | some (Entered.returned q) => some q
  | some (Entered.invoking compensate q) =>
    match q._callback with
    | none => _wrapLeave fuel compensate cb.start cb.cpu CallbackResult.threw q
    | some c =>
      _wrapLeave fuel compensate cb.start cb.cpu cb.result (cb.during (emit q (Event.callback c)))

end PeriodicTask

/-! ## Runs that keep the record of a loop that is still spinning

The functions above return `none` when the fuel runs out inside a loop, and the events of
that run are lost with it. The functions of this section are the same functions, line for
line, except that a run that is still spinning when the fuel runs out ends with the task
record as it is at that point, so that the events of a run that never returns can be
inspected, pass after pass. -/

/-- How a run bounded by fuel ended: it returned `a`, or the fuel ran out inside one of the
loops, and `p` is the task record at that point, with every event the run produced. -/
inductive Run (α : Type) where
  | done (a : α)
  | spinning (p : PeriodicTaskPrivate)

/-- The value returned by a run, if it returned. -/
def Run.toOption {α : Type} : Run α → Option α
  | Run.done a => some a
  | Run.spinning _ => none

/-- The task record a run ended with; `task` reads it from a returned value. -/
def Run.record {α : Type} (task : α → PeriodicTaskPrivate) : Run α → PeriodicTaskPrivate
  | Run.done a => task a
  | Run.spinning p => p

/-- The loop `while (*_state == s) boost::this_thread::yield();`, as `yieldWhile`. -/
def yieldWhileRun (fuel : Nat) (s : TaskState) (p : PeriodicTaskPrivate) : Run PeriodicTaskPrivate :=
  if p._state = s then
    match fuel with
    | 0 => Run.spinning p
    | n + 1 => yieldWhileRun n s (emit p Event.yield)
  else Run.done p

/-- The loops of `setState(state, from, to)`, lines 47-62, as `setStateSpin`. -/
def setStateSpinRun (fuel : Nat) (i : Nat) (p : PeriodicTaskPrivate) (src dst : TaskState) :
    Run PeriodicTaskPrivate :=
  let r := setIfEquals p src dst
  if r.1 then Run.done r.2
  else
    match fuel with
    | 0 => Run.spinning r.2
    | n + 1 =>
      let q := if 1000 ≤ i then emit r.2 (Event.msleep 1) else r.2
      let q := if 1000 ≤ i ∧ (i - 1000) % 1000 = 999 then emit q Event.logWarning else q
      setStateSpinRun n (i + 1) q src dst

/-- Lines 47-62, as `setState`. -/
def setStateRun (fuel : Nat) (p : PeriodicTaskPrivate) (src dst : TaskState) :
    Run PeriodicTaskPrivate :=
  setStateSpinRun fuel 0 p src dst

/-- The loops of the two-transition `setState`, lines 64-79, as `setStateSpin2`. -/
def setStateSpin2Run (fuel : Nat) (i : Nat) (p : PeriodicTaskPrivate)
    (src dst src2 dst2 : TaskState) : Run PeriodicTaskPrivate :=
  let r := setIfEqualsAny p [(src, dst), (src2, dst2)]
  if r.1 then Run.done r.2
  else
    match fuel with
    | 0 => Run.spinning r.2
    | n + 1 =>
      let q := if 1000 ≤ i then emit r.2 (Event.msleep 1) else r.2
      let q := if 1000 ≤ i ∧ (i - 1000) % 1000 = 999 then emit q Event.logWarning else q
      setStateSpin2Run n (i + 1) q src dst src2 dst2

/-- Lines 64-79, as `setState2`. -/
def setState2Run (fuel : Nat) (p : PeriodicTaskPrivate) (src dst src2 dst2 : TaskState) :
    Run PeriodicTaskPrivate :=
  setStateSpin2Run fuel 0 p src dst src2 dst2

namespace PeriodicTask

/-- The `while` loop of `asyncStop`, lines 354-358, as `asyncStopSpin`. -/
def asyncStopSpinRun (fuel : Nat) (p : PeriodicTaskPrivate) : Run PeriodicTaskPrivate :=
  let r := setIfEqualsAny p
    [(Task_Scheduled, Task_Stopping), (Task_Running, Task_Stopping),
     (Task_Stopped, Task_Stopped), (Task_Stopping, Task_Stopping)]
  if r.1 then Run.done r.2
  else
    match fuel with
    | 0 => Run.spinning r.2
    | n + 1 => asyncStopSpinRun n (emit r.2 Event.yield)

/-- The function `PeriodicTask::asyncStop()`, lines 347-368, as `asyncStop`. -/
def asyncStopRun (fuel : Nat) (p : PeriodicTaskPrivate) : Run PeriodicTaskPrivate :=
  let r := setIfEquals p Task_Stopped Task_Stopped
  if r.1 then Run.done r.2
  else
    match asyncStopSpinRun fuel r.2 with
    | Run.spinning s => Run.spinning s
    | Run.done q => Run.done (emit q (Event.cancel q._task))

/-- The function `PeriodicTask::stop()`, lines 370-389, as `stop`. -/
def stopRun (fuel : Nat) (tid : Int) (p : PeriodicTaskPrivate) : Run PeriodicTaskPrivate :=
  match asyncStopRun fuel p with
  | Run.spinning s => Run.spinning s
  | Run.done q =>
    if tid = q._tid then Run.done q
    else
      let q1 := emit q (Event.wait q._task)
      let r := setIfEqualsAny q1 [(Task_Stopping, Task_Stopped), (Task_Stopped, Task_Stopped)]
      if r.1 then Run.done r.2 else Run.done (emit r.2 Event.logError)

/-- The function `PeriodicTask::start(immediate)`, lines 157-178, as `start`. -/
def startRun (fuel : Nat) (tid : Int) (immediate : Bool) (p : PeriodicTaskPrivate) : Run Outcome :=
  if p._callback.isNone then
    Run.done (Outcome.threw "Periodic task cannot start without a setCallback() call first" p)
  else if p._period < 0 then
    Run.done (Outcome.threw "Periodic task cannot start without a setPeriod() call first" p)
  else if tid = p._tid then Run.done (Outcome.returned p)
  else
    match stopRun fuel tid p with
    | Run.spinning s => Run.spinning s
    | Run.done q =>
      let r := setIfEquals q Task_Stopped Task_Starting
      if r.1 then
        let r2 := setIfEquals r.2 Task_Starting Task_Rescheduling
        let q2 := if r2.1 then r2.2 else emit r2.2 Event.logError
        Run.done (Outcome.returned (_reschedule q2 (if immediate then 0 else q2._period)))
      else Run.done (Outcome.returned r.2)

/-- The function `PeriodicTask::trigger()`, lines 180-209, as `trigger`. -/
def triggerRun (fuel : Nat) (p : PeriodicTaskPrivate) : Run PeriodicTaskPrivate :=
  let r := setIfEqualsAny p
    [(Task_Stopped, Task_Stopped), (Task_Stopping, Task_Stopping),
     (Task_Starting, Task_Starting), (Task_Running, Task_Running),
     (Task_Rescheduling, Task_Rescheduling), (Task_Triggering, Task_Triggering),
     (Task_TriggerReady, Task_TriggerReady)]
  if r.1 then Run.done r.2
  else
    let r2 := setIfEquals r.2 Task_Scheduled Task_Triggering
    if r2.1 then
      let q1 := emit r2.2 (Event.cancel r2.2._task)
      let q2 := emit q1 (Event.connect q1._task)
      Run.done (setIfEquals q2 Task_Triggering Task_TriggerReady).2
    else
      match fuel with
      | 0 => Run.spinning r2.2
      | n + 1 => triggerRun n r2.2

/-- The function `PeriodicTaskPrivate::_wrap()`, lines 234-271, as `_wrapEnter`. -/
def _wrapEnterRun (fuel : Nat) (tid : Int) (p : PeriodicTaskPrivate) : Run Entered :=
  let p0 := if p._state = Task_Stopped then emit p Event.logError else p
  let r := setIfEquals p0 Task_Stopping Task_Stopped
  if r.1 then Run.done (Entered.returned r.2)
  else
    match yieldWhileRun fuel Task_Rescheduling r.2 with
    | Run.spinning s => Run.spinning s
    | Run.done q =>
      let r2 := setIfEqualsAny q
        [(Task_Scheduled, Task_Running), (Task_Triggering, Task_Triggering),
         (Task_TriggerReady, Task_TriggerReady)]
      if r2.1 then
        Run.done (Entered.invoking r2.2._compensateCallTime { r2.2 with _tid := tid })
      else
        match setStateRun fuel r2.2 Task_Stopping Task_Stopped with
        | Run.spinning s => Run.spinning s
        | Run.done q2 => Run.done (Entered.returned q2)

/-- The function `PeriodicTaskPrivate::_wrap()`, lines 273-333, as `_wrapLeave`. -/
def _wrapLeaveRun (fuel : Nat) (compensate : Bool) (start : Int) (cpu : Int × Int)
    (res : CallbackResult) (p : PeriodicTaskPrivate) : Run PeriodicTaskPrivate :=
  match res with
  | CallbackResult.threw =>
    setState2Run fuel (emit p Event.logInfo) Task_Stopping Task_Stopped Task_Running Task_Stopped
  | CallbackResult.finished now cpu2 =>
    let p1 := { p with _tid := invalidThreadId }
    let delta : Duration := now - start
    let usr := cpu2.1 - cpu.1
    let sys := cpu2.2 - cpu.2
    let p3 := pushStats now delta usr sys p1
    match yieldWhileRun fuel Task_Triggering p3 with
    | Run.spinning s => Run.spinning s
    | Run.done p4 =>
      let r := setIfEqualsAny p4
        [(Task_Running, Task_Rescheduling), (Task_TriggerReady, Task_Rescheduling)]
      if r.1 then
        Run.done (_reschedule r.2 (max 0 (r.2._period - (if compensate then delta else 0))))
      else setStateRun fuel r.2 Task_Stopping Task_Stopped

/-- The function `PeriodicTaskPrivate::_wrap()`, lines 232-334, as `_wrap`. -/
def _wrapRun (fuel : Nat) (tid : Int) (cb : CallbackRun) (p : PeriodicTaskPrivate) :
    Run PeriodicTaskPrivate :=
  match _wrapEnterRun fuel tid p with
  | Run.spinning s => Run.spinning s
  | Run.done (Entered.returned q) => Run.done q
  | Run.done (Entered.invoking compensate q) =>
    match q._callback with
    | none => _wrapLeaveRun fuel compensate cb.start cb.cpu CallbackResult.threw q
    | some c =>
      _wrapLeaveRun fuel compensate cb.start cb.cpu cb.result
        (cb.during (emit q (Event.callback c)))

end PeriodicTask

/-! ## Sample tasks used at concrete inputs -/

/-- A configured task that has not been started: callback set, period 50, state Stopped. -/
def configuredTask : PeriodicTaskPrivate :=
  { PeriodicTask.new "task" 0 with _callback := some 1, _period := 50 }

/-- A configured task with a run pending: state Scheduled, `_task` is future 1. -/
def scheduledTask : PeriodicTaskPrivate :=
  { configuredTask with _state := Task_Scheduled, _task := 1, futures := 1 }

/-- A configured task in a given state, with future 1 in `_task`. -/
def taskIn (s : TaskState) : PeriodicTaskPrivate :=
  { configuredTask with _state := s, _task := 1, futures := 1 }

/-- A callback execution that takes 7 microseconds and returns normally, with nothing else
touching the task meanwhile. -/
def quietRun : CallbackRun :=
  { start := 10, cpu := (0, 0), during := id, result := CallbackResult.finished 17 (1, 1) }

/-- A callback execution that throws, with nothing else touching the task meanwhile. -/
def throwingRun : CallbackRun :=
  { start := 10, cpu := (0, 0), during := id, result := CallbackResult.threw }

/-! ## The transition table -/

/-- The transition table of the spec, section 4.2, row by row ("only these are legal"). -/
def specTransition : TaskState → TaskState → Bool
  | Task_Stopped, Task_Starting => true
  | Task_Starting, Task_Rescheduling => true
  | Task_Rescheduling, Task_Scheduled => true
  | Task_Scheduled, Task_Running => true
  | Task_Running, Task_Rescheduling => true
  | Task_Scheduled, Task_Stopping => true
  | Task_Running, Task_Stopping => true
  | Task_Stopping, Task_Stopped => true
  | Task_Scheduled, Task_Triggering => true
  | Task_Triggering, Task_TriggerReady => true
  | Task_Triggering, Task_Running => true
  | Task_TriggerReady, Task_Running => true
  | Task_Triggering, Task_Rescheduling => true
  | Task_TriggerReady, Task_Rescheduling => true
  | _, _ => false

/-- The spec's table together with the transition Running -> Stopped, which the abort path
of `_wrap` makes (line 294). -/
def codeTransition (s d : TaskState) : Bool :=
  specTransition s d || (s == Task_Running && d == Task_Stopped)

/-- An event respects a table when it is not a change of the state cell (a successful
compare-and-set whose target differs from its source), or is a change listed in the table. -/
def changeWithin (table : TaskState → TaskState → Bool) : Event → Bool
  | Event.setIfEquals s d true => s == d || table s d
  | _ => true

/-- The trace of `q` is the trace of `p` followed by events that respect the table. -/
def ChangesWithin (table : TaskState → TaskState → Bool) (p q : PeriodicTaskPrivate) : Prop :=
  ∃ evs, q.trace = p.trace ++ evs ∧ ∀ e ∈ evs, changeWithin table e = true

/-- The record an `Outcome` carries. -/
def Outcome.task : Outcome → PeriodicTaskPrivate
  | Outcome.returned p => p
  | Outcome.threw _ p => p

/-- The record an `Entered` carries. -/
def Entered.task : Entered → PeriodicTaskPrivate
  | Entered.returned p => p
  | Entered.invoking _ p => p

/-- The outcome with the state cell of its record set to `s`. -/
def Outcome.withState (s : TaskState) : Outcome → Outcome
  | Outcome.returned p => Outcome.returned { p with _state := s }
  | Outcome.threw msg p => Outcome.threw msg { p with _state := s }

/-- The sample task while thread 3 executes its callback: state Running, `_tid` is 3. -/
def taskInCallback : PeriodicTaskPrivate :=
  { taskIn Task_Running with _tid := 3 }

/-! ## The service directory (qi/messaging/detail/master_impl.hpp)

The header declares `MasterImpl` and its registries; the bodies of its member functions,
`MutexedNameLookup`, `EndpointContext`, `MachineContext` and the address manager are not
part of the embedded sources and are modelled from the spec. -/

/-- Modelled from the spec: `MachineContext` (section 3), declared outside the embedded
sources. -/
structure MachineContext where
  machineId : String
  hostName : String
  publicIPv4 : String
  platformId : Int
  deriving DecidableEq, Repr

/-- Modelled from the spec: `EndpointContext` (section 3), declared outside the embedded
sources. -/
structure EndpointContext where
  endpointId : String
  name : String
  type : Int
  contextId : String
  machineId : String
  processId : Int
  port : Int
  addresses : List String
  deriving DecidableEq, Repr

/-- Modelled from the spec: `MutexedNameLookup<T>` (mutexednamelookup.hpp is not among the
sources), the name-keyed map of section 4.6, as the list of its entries. The mutex has no
counterpart in a sequential run. -/
structure MutexedNameLookup (α : Type) where
  entries : List (String × α)
  deriving DecidableEq, Repr

namespace MutexedNameLookup

/-- Modelled from the spec: `get` of section 4.6; `none` when the key is absent. -/
def get {α : Type} (m : MutexedNameLookup α) (key : String) : Option α :=
  m.entries.lookup key

/-- Modelled from the spec: `contains` of section 4.6. -/
def contains {α : Type} (m : MutexedNameLookup α) (key : String) : Bool :=
  (m.get key).isSome

/-- Modelled from the spec: `set` of section 4.6: the value of an existing key is
replaced, a new key is added. -/
def set {α : Type} (m : MutexedNameLookup α) (key : String) (v : α) : MutexedNameLookup α :=
  if m.contains key then
    { entries := m.entries.map (fun e => if e.1 = key then (key, v) else e) }
  else
    { entries := m.entries ++ [(key, v)] }

end MutexedNameLookup

/-- What the directory logs. -/
inductive MasterLog where
  /-- rejected registration of `name` by `endpointID`: already owned by `owner` -/
  | duplicateRegistration (name owner endpointID : String)
  deriving DecidableEq, Repr

/-- MasterImpl: the registries of master_impl.hpp, lines 82-92, and `_address`; `log` is the
bookkeeping field of the embedding. `_server` and `_addressManager` are collaborators
outside the embedded sources. -/
structure MasterImpl where
  _address : String
  _knownServices : MutexedNameLookup String
  _knownMachines : MutexedNameLookup MachineContext
  _knownEndpoints : MutexedNameLookup EndpointContext
  _knownTopics : MutexedNameLookup String
  log : List MasterLog
  deriving DecidableEq, Repr

namespace MasterImpl

/-- Modelled from the spec: the body of `MasterImpl::registerService` (declared at
master_impl.hpp, line 28; master_impl.cpp is not among the sources). Section 4.3: "insert
into `_knownServices`. If already present and owned by a different endpoint, reject (keep
existing) and log. If the endpoint is unknown, reject." Registering a signature again for
the endpoint that owns it succeeds and changes nothing (section 9). -/
def registerService (methodSignature serverID : String) (m : MasterImpl) : MasterImpl :=
  if m._knownEndpoints.contains serverID then
    match m._knownServices.get methodSignature with
    | none => { m with _knownServices := m._knownServices.set methodSignature serverID }
    | some owner =>
      if owner = serverID then m
      else
        { m with
          log := m.log ++ [MasterLog.duplicateRegistration methodSignature owner serverID] }
  else m

/-- Modelled from the spec: the body of `MasterImpl::locateService` (declared at
master_impl.hpp, line 43). Section 4.3: "look up the service's serving endpoint, then
negotiate an address between `clientEndpointId` and the serving endpoint"; the empty
string means not found. The negotiation, `xNegotiateEndpoint` of line 67, whose body and
address manager are not among the sources, is a parameter. -/
def locateService (xNegotiateEndpoint : MasterImpl → String → String → String)
    (methodSignature clientID : String) (m : MasterImpl) : String :=
  match m._knownServices.get methodSignature with
  | none => ""
  | some serverID => xNegotiateEndpoint m clientID serverID

end MasterImpl

/-- An endpoint record with the given id, on machine "m1". -/
def sampleEndpoint (id : String) : EndpointContext :=
  { endpointId := id, name := id, type := 0, contextId := "ctx", machineId := "m1",
    processId := 1, port := 1000, addresses := [] }

/-- A directory with endpoints "a", "b" and "c" registered, in which the signature "svc"
already belongs to "c". -/
def sampleMaster : MasterImpl :=
  { _address := "tcp://0.0.0.0:5555"
    _knownServices := { entries := [("svc", "c")] }
    _knownMachines := { entries := [] }
    _knownEndpoints :=
      { entries := [("a", sampleEndpoint "a"), ("b", sampleEndpoint "b"), ("c", sampleEndpoint "c")] }
    _knownTopics := { entries := [] }
    log := [] }

/-- A negotiation that answers with the id of the serving endpoint. -/
def sampleNegotiate (_m : MasterImpl) (_clientID serverID : String) : String := serverID

/-- A callback execution that returns normally, during which another thread calls
`asyncStop()` on the task. -/
def stoppedRun : CallbackRun :=
  { start := 10, cpu := (0, 0)
    during := fun x => (PeriodicTask.asyncStop 0 x).getD x
    result := CallbackResult.finished 17 (1, 1) }

/-! ## Functors (qi/functors/callfunctor.hpp, qi/functors/detail/voidfunctor.hxx)

`callVoidFunctor` and `Functor_n<..., void>::call` are written out for the arities 0 to 9,
as the sources are. The message, the serializer, the base class `Functor` and the macro
`QI_FUNCTOR_ASSUME_NBR_PARAMS` are declared outside the embedded sources. A function
pointer `void (*)(const P0&, ...)` acts on a world of type `σ`. -/

namespace qi

/-- Modelled from the spec: `qi::serialization::Message`, the carrier of the serialized
arguments (section 6), as the queue of the values written to it and not yet read. -/
structure Message (V : Type) where
  data : List V

/-- Modelled from the spec: `qi::serialization::serialize<T>`, the `encode` and `decode` of
the serialization collaborator (section 6) for the type `T`; decoding an encoded value
gives the value back. -/
class serialize (V : Type) (T : Type) where
  enc : T → V
  dec : V → T
  dec_enc : ∀ t : T, dec (enc t) = t

/-- Modelled from the spec: `serialize<T>::write(msg, t)`: the encoded value is appended
to the message. -/
def serialize.write {V T : Type} [serialize V T] (msg : Message V) (t : T) : Message V :=
  { data := msg.data ++ [serialize.enc t] }

/-- Modelled from the spec: `serialize<T>::read(msg, t)`: the value at the front of the
message is taken off and decoded; `none` when the message is empty. -/
def serialize.read {V : Type} (T : Type) [serialize V T] (msg : Message V) :
    Option (T × Message V) :=
  match msg.data with
  | [] => none
  | v :: rest => some (serialize.dec v, { data := rest })

/-- Functor: the base class of functor.hpp with its virtual `call(params, result)`. A call
acts on the world and on the two messages, which are passed by reference; `none` says
that the call did not complete (the assumption on the number of parameters failed, or a
read found the message empty). -/
structure Functor (V σ : Type) where
  call : Message V → Message V → σ → Option (σ × Message V × Message V)

/-- The class `Functor_0<void>` of voidfunctor.hxx, line 20: its constructor
from `fFunction`, with its `call`. -/
def Functor_0 {V σ : Type}
    (QI_FUNCTOR_ASSUME_NBR_PARAMS : Message V → Nat → Bool) (fFunction : σ → σ) :
    Functor V σ :=
  { call := fun params result w =>
      if QI_FUNCTOR_ASSUME_NBR_PARAMS params 0 then
        some (fFunction w, params, result)
      else none }

/-- The class `Functor_1<P0, void>` of voidfunctor.hxx, line 45: its constructor
from `fFunction`, with its `call`. -/
def Functor_1 {V σ P0 : Type} [serialize V P0]
    (QI_FUNCTOR_ASSUME_NBR_PARAMS : Message V → Nat → Bool) (fFunction : P0 → σ → σ) :
    Functor V σ :=
  { call := fun params result w =>
      if QI_FUNCTOR_ASSUME_NBR_PARAMS params 1 then
        (serialize.read P0 params).bind fun (p0, params) =>
        some (fFunction p0 w, params, result)
      else none }

/-- The class `Functor_2<P0, P1, void>` of voidfunctor.hxx, line 72: its constructor
from `fFunction`, with its `call`. -/
def Functor_2 {V σ P0 P1 : Type} [serialize V P0] [serialize V P1]
    (QI_FUNCTOR_ASSUME_NBR_PARAMS : Message V → Nat → Bool) (fFunction : P0 → P1 → σ → σ) :
    Functor V σ :=
  { call := fun params result w =>
      if QI_FUNCTOR_ASSUME_NBR_PARAMS params 2 then
        (serialize.read P0 params).bind fun (p0, params) =>
        (serialize.read P1 params).bind fun (p1, params) =>
        some (fFunction p0 p1 w, params, result)
      else none }

/-- The class `Functor_3<P0, P1, P2, void>` of voidfunctor.hxx, line 101: its constructor
from `fFunction`, with its `call`. -/
def Functor_3 {V σ P0 P1 P2 : Type} [serialize V P0] [serialize V P1] [serialize V P2]
    (QI_FUNCTOR_ASSUME_NBR_PARAMS : Message V → Nat → Bool) (fFunction : P0 → P1 → P2 → σ → σ) :
    Functor V σ :=
  { call := fun params result w =>
      if QI_FUNCTOR_ASSUME_NBR_PARAMS params 3 then
        (serialize.read P0 params).bind fun (p0, params) =>
        (serialize.read P1 params).bind fun (p1, params) =>
        (serialize.read P2 params).bind fun (p2, params) =>
        some (fFunction p0 p1 p2 w, params, result)
      else none }

/-- The class `Functor_4<P0, P1, P2, P3, void>` of voidfunctor.hxx, line 132: its constructor
from `fFunction`, with its `call`. -/
def Functor_4 {V σ P0 P1 P2 P3 : Type}
    [serialize V P0] [serialize V P1] [serialize V P2] [serialize V P3]
    (QI_FUNCTOR_ASSUME_NBR_PARAMS : Message V → Nat → Bool)
    (fFunction : P0 → P1 → P2 → P3 → σ → σ) :
    Functor V σ :=
  { call := fun params result w =>
      if QI_FUNCTOR_ASSUME_NBR_PARAMS params 4 then
        (serialize.read P0 params).bind fun (p0, params) =>
        (serialize.read P1 params).bind fun (p1, params) =>
        (serialize.read P2 params).bind fun (p2, params) =>
        (serialize.read P3 params).bind fun (p3, params) =>
        some (fFunction p0 p1 p2 p3 w, params, result)
      else none }

/-- The class `Functor_5<P0, P1, P2, P3, P4, void>` of voidfunctor.hxx, line 165: its constructor
from `fFunction`, with its `call`. -/
def Functor_5 {V σ P0 P1 P2 P3 P4 : Type}
    [serialize V P0] [serialize V P1] [serialize V P2] [serialize V P3] [serialize V P4]
    (QI_FUNCTOR_ASSUME_NBR_PARAMS : Message V → Nat → Bool)
    (fFunction : P0 → P1 → P2 → P3 → P4 → σ → σ) :
    Functor V σ :=
  { call := fun params result w =>
      if QI_FUNCTOR_ASSUME_NBR_PARAMS params 5 then
        (serialize.read P0 params).bind fun (p0, params) =>
        (serialize.read P1 params).bind fun (p1, params) =>
        (serialize.read P2 params).bind fun (p2, params) =>
        (serialize.read P3 params).bind fun (p3, params) =>
        (serialize.read P4 params).bind fun (p4, params) =>
        some (fFunction p0 p1 p2 p3 p4 w, params, result)
      else none }

/-- The class `Functor_6<P0, P1, P2, P3, P4, P5, void>`
of voidfunctor.hxx, line 200: its constructor
from `fFunction`, with its `call`. -/
def Functor_6 {V σ P0 P1 P2 P3 P4 P5 : Type}
    [serialize V P0] [serialize V P1] [serialize V P2] [serialize V P3] [serialize V P4]
    [serialize V P5]
    (QI_FUNCTOR_ASSUME_NBR_PARAMS : Message V → Nat → Bool)
    (fFunction : P0 → P1 → P2 → P3 → P4 → P5 → σ → σ) :
    Functor V σ :=
  { call := fun params result w =>
      if QI_FUNCTOR_ASSUME_NBR_PARAMS params 6 then
        (serialize.read P0 params).bind fun (p0, params) =>
        (serialize.read P1 params).bind fun (p1, params) =>
        (serialize.read P2 params).bind fun (p2, params) =>
        (serialize.read P3 params).bind fun (p3, params) =>
        (serialize.read P4 params).bind fun (p4, params) =>
        (serialize.read P5 params).bind fun (p5, params) =>
        some (fFunction p0 p1 p2 p3 p4 p5 w, params, result)
      else none }

/-- The class `Functor_7<P0, P1, P2, P3, P4, P5, P6, void>`
of voidfunctor.hxx, line 237: its constructor
from `fFunction`, with its `call`. -/
def Functor_7 {V σ P0 P1 P2 P3 P4 P5 P6 : Type}
    [serialize V P0] [serialize V P1] [serialize V P2] [serialize V P3] [serialize V P4]
    [serialize V P5] [serialize V P6]
    (QI_FUNCTOR_ASSUME_NBR_PARAMS : Message V → Nat → Bool)
    (fFunction : P0 → P1 → P2 → P3 → P4 → P5 → P6 → σ → σ) :
    Functor V σ :=
  { call := fun params result w =>
      if QI_FUNCTOR_ASSUME_NBR_PARAMS params 7 then
        (serialize.read P0 params).bind fun (p0, params) =>
        (serialize.read P1 params).bind fun (p1, params) =>
        (serialize.read P2 params).bind fun (p2, params) =>
        (serialize.read P3 params).bind fun (p3, params) =>
        (serialize.read P4 params).bind fun (p4, params) =>
        (serialize.read P5 params).bind fun (p5, params) =>
        (serialize.read P6 params).bind fun (p6, params) =>
        some (fFunction p0 p1 p2 p3 p4 p5 p6 w, params, result)
      else none }

/-- The class `Functor_8<P0, P1, P2, P3, P4, P5, P6, P7, void>`
of voidfunctor.hxx, line 276: its constructor
from `fFunction`, with its `call`. -/
def Functor_8 {V σ P0 P1 P2 P3 P4 P5 P6 P7 : Type}
    [serialize V P0] [serialize V P1] [serialize V P2] [serialize V P3] [serialize V P4]
    [serialize V P5] [serialize V P6] [serialize V P7]
    (QI_FUNCTOR_ASSUME_NBR_PARAMS : Message V → Nat → Bool)
    (fFunction : P0 → P1 → P2 → P3 → P4 → P5 → P6 → P7 → σ → σ) :
    Functor V σ :=
  { call := fun params result w =>
      if QI_FUNCTOR_ASSUME_NBR_PARAMS params 8 then
        (serialize.read P0 params).bind fun (p0, params) =>
        (serialize.read P1 params).bind fun (p1, params) =>
        (serialize.read P2 params).bind fun (p2, params) =>
        (serialize.read P3 params).bind fun (p3, params) =>
        (serialize.read P4 params).bind fun (p4, params) =>
        (serialize.read P5 params).bind fun (p5, params) =>
        (serialize.read P6 params).bind fun (p6, params) =>
        (serialize.read P7 params).bind fun (p7, params) =>
        some (fFunction p0 p1 p2 p3 p4 p5 p6 p7 w, params, result)
      else none }

/-- The class `Functor_9<P0, P1, P2, P3, P4, P5, P6, P7, P8, void>`
of voidfunctor.hxx, line 317: its constructor
from `fFunction`, with its `call`. -/
def Functor_9 {V σ P0 P1 P2 P3 P4 P5 P6 P7 P8 : Type}
    [serialize V P0] [serialize V P1] [serialize V P2] [serialize V P3] [serialize V P4]
    [serialize V P5] [serialize V P6] [serialize V P7] [serialize V P8]
    (QI_FUNCTOR_ASSUME_NBR_PARAMS : Message V → Nat → Bool)
    (fFunction : P0 → P1 → P2 → P3 → P4 → P5 → P6 → P7 → P8 → σ → σ) :
    Functor V σ :=
  { call := fun params result w =>
      if QI_FUNCTOR_ASSUME_NBR_PARAMS params 9 then
        (serialize.read P0 params).bind fun (p0, params) =>
        (serialize.read P1 params).bind fun (p1, params) =>
        (serialize.read P2 params).bind fun (p2, params) =>
        (serialize.read P3 params).bind fun (p3, params) =>
        (serialize.read P4 params).bind fun (p4, params) =>
        (serialize.read P5 params).bind fun (p5, params) =>
        (serialize.read P6 params).bind fun (p6, params) =>
        (serialize.read P7 params).bind fun (p7, params) =>
        (serialize.read P8 params).bind fun (p8, params) =>
        some (fFunction p0 p1 p2 p3 p4 p5 p6 p7 p8 w, params, result)
      else none }

/-- The overload `callVoidFunctor(f)` of callfunctor.hpp, line 30. -/
def callVoidFunctor_0 {V σ : Type} (f : Functor V σ)
    (w : σ) : Option (σ × Message V × Message V) :=
  let args : Message V := { data := [] }
  let ret : Message V := { data := [] }
  f.call args ret w

/-- The overload `callVoidFunctor(f, p0)` of callfunctor.hpp, line 50. -/
def callVoidFunctor_1 {V σ P0 : Type} [serialize V P0] (f : Functor V σ) (p0 : P0)
    (w : σ) : Option (σ × Message V × Message V) :=
  let args : Message V := { data := [] }
  let ret : Message V := { data := [] }
  let args := serialize.write args p0
  f.call args ret w

/-- The overload `callVoidFunctor(f, p0, p1)` of callfunctor.hpp, line 73. -/
def callVoidFunctor_2 {V σ P0 P1 : Type}
    [serialize V P0] [serialize V P1] (f : Functor V σ) (p0 : P0) (p1 : P1)
    (w : σ) : Option (σ × Message V × Message V) :=
  let args : Message V := { data := [] }
  let ret : Message V := { data := [] }
  let args := serialize.write args p0
  let args := serialize.write args p1
  f.call args ret w

/-- The overload `callVoidFunctor(f, p0, p1, p2)` of callfunctor.hpp, line 98. -/
def callVoidFunctor_3 {V σ P0 P1 P2 : Type}
    [serialize V P0] [serialize V P1] [serialize V P2] (f : Functor V σ) (p0 : P0) (p1 : P1)
    (p2 : P2)
    (w : σ) : Option (σ × Message V × Message V) :=
  let args : Message V := { data := [] }
  let ret : Message V := { data := [] }
  let args := serialize.write args p0
  let args := serialize.write args p1
  let args := serialize.write args p2
  f.call args ret w

/-- The overload `callVoidFunctor(f, p0, p1, p2, p3)` of callfunctor.hpp, line 125. -/
def callVoidFunctor_4 {V σ P0 P1 P2 P3 : Type}
    [serialize V P0] [serialize V P1] [serialize V P2] [serialize V P3] (f : Functor V σ)
    (p0 : P0) (p1 : P1) (p2 : P2) (p3 : P3)
    (w : σ) : Option (σ × Message V × Message V) :=
  let args : Message V := { data := [] }
  let ret : Message V := { data := [] }
  let args := serialize.write args p0
  let args := serialize.write args p1
  let args := serialize.write args p2
  let args := serialize.write args p3
  f.call args ret w

/-- The overload `callVoidFunctor(f, p0, p1, p2, p3, p4)` of callfunctor.hpp, line 154. -/
def callVoidFunctor_5 {V σ P0 P1 P2 P3 P4 : Type}
    [serialize V P0] [serialize V P1] [serialize V P2] [serialize V P3] [serialize V P4]
    (f : Functor V σ) (p0 : P0) (p1 : P1) (p2 : P2) (p3 : P3) (p4 : P4)
    (w : σ) : Option (σ × Message V × Message V) :=
  let args : Message V := { data := [] }
  let ret : Message V := { data := [] }
  let args := serialize.write args p0
  let args := serialize.write args p1
  let args := serialize.write args p2
  let args := serialize.write args p3
  let args := serialize.write args p4
  f.call args ret w

/-- The overload `callVoidFunctor(f, p0, p1, p2, p3, p4, p5)` of callfunctor.hpp, line 185. -/
def callVoidFunctor_6 {V σ P0 P1 P2 P3 P4 P5 : Type}
    [serialize V P0] [serialize V P1] [serialize V P2] [serialize V P3] [serialize V P4]
    [serialize V P5] (f : Functor V σ) (p0 : P0) (p1 : P1) (p2 : P2) (p3 : P3) (p4 : P4)
    (p5 : P5)
    (w : σ) : Option (σ × Message V × Message V) :=
  let args : Message V := { data := [] }
  let ret : Message V := { data := [] }
  let args := serialize.write args p0
  let args := serialize.write args p1
  let args := serialize.write args p2
  let args := serialize.write args p3
  let args := serialize.write args p4
  let args := serialize.write args p5
  f.call args ret w

/-- The overload `callVoidFunctor(f, p0, p1, p2, p3, p4, p5, p6)` of callfunctor.hpp, line 218. -/
def callVoidFunctor_7 {V σ P0 P1 P2 P3 P4 P5 P6 : Type}
    [serialize V P0] [serialize V P1] [serialize V P2] [serialize V P3] [serialize V P4]
    [serialize V P5] [serialize V P6] (f : Functor V σ) (p0 : P0) (p1 : P1) (p2 : P2) (p3 : P3)
    (p4 : P4) (p5 : P5) (p6 : P6)
    (w : σ) : Option (σ × Message V × Message V) :=
  let args : Message V := { data := [] }
  let ret : Message V := { data := [] }
  let args := serialize.write args p0
  let args := serialize.write args p1
  let args := serialize.write args p2
  let args := serialize.write args p3
  let args := serialize.write args p4
  let args := serialize.write args p5
  let args := serialize.write args p6
  f.call args ret w

/-- The overload `callVoidFunctor(f, p0, p1, p2, p3, p4, p5, p6, p7)` of callfunctor.hpp, line 253. -/
def callVoidFunctor_8 {V σ P0 P1 P2 P3 P4 P5 P6 P7 : Type}
    [serialize V P0] [serialize V P1] [serialize V P2] [serialize V P3] [serialize V P4]
    [serialize V P5] [serialize V P6] [serialize V P7] (f : Functor V σ) (p0 : P0) (p1 : P1)
    (p2 : P2) (p3 : P3) (p4 : P4) (p5 : P5) (p6 : P6) (p7 : P7)
    (w : σ) : Option (σ × Message V × Message V) :=
  let args : Message V := { data := [] }
  let ret : Message V := { data := [] }
  let args := serialize.write args p0
  let args := serialize.write args p1
  let args := serialize.write args p2
  let args := serialize.write args p3
  let args := serialize.write args p4
  let args := serialize.write args p5
  let args := serialize.write args p6
  let args := serialize.write args p7
  f.call args ret w

/-- The overload `callVoidFunctor(f, p0, p1, p2, p3, p4, p5, p6, p7, p8)` of callfunctor.hpp, line 290. -/
def callVoidFunctor_9 {V σ P0 P1 P2 P3 P4 P5 P6 P7 P8 : Type}
    [serialize V P0] [serialize V P1] [serialize V P2] [serialize V P3] [serialize V P4]
    [serialize V P5] [serialize V P6] [serialize V P7] [serialize V P8] (f : Functor V σ)
    (p0 : P0) (p1 : P1) (p2 : P2) (p3 : P3) (p4 : P4) (p5 : P5) (p6 : P6) (p7 : P7) (p8 : P8)
    (w : σ) : Option (σ × Message V × Message V) :=
  let args : Message V := { data := [] }
  let ret : Message V := { data := [] }
  let args := serialize.write args p0
  let args := serialize.write args p1
  let args := serialize.write args p2
  let args := serialize.write args p3
  let args := serialize.write args p4
  let args := serialize.write args p5
  let args := serialize.write args p6
  let args := serialize.write args p7
  let args := serialize.write args p8
  f.call args ret w

end qi

/-- Natural numbers serialized as themselves. -/
instance serializeNat : qi.serialize Nat Nat where
  enc := id
  dec := id
  dec_enc := fun _ => rfl

/-- A check of the number of parameters that accepts a message holding exactly `n` values. -/
def exactCount (msg : qi.Message Nat) (n : Nat) : Bool := msg.data.length == n


/-- A wrapped function of the samples: it appends the list of its arguments to a log. -/
def recordCall (args : List Nat) (w : List (List Nat)) : List (List Nat) := w ++ [args]
/-! ## The service directory: endpoints and topics -/

namespace MutexedNameLookup

/-- Modelled from the spec: `remove` of section 4.6: the entry of the key is dropped. -/
def remove {α : Type} (m : MutexedNameLookup α) (key : String) : MutexedNameLookup α :=
  { entries := m.entries.filter (fun e => e.1 != key) }

/-- Modelled from the spec: `filterRemove(predicate)` of section 4.6: the entries that
satisfy the predicate are dropped. -/
def filterRemove {α : Type} (m : MutexedNameLookup α) (predicate : String → α → Bool) :
    MutexedNameLookup α :=
  { entries := m.entries.filter (fun e => !predicate e.1 e.2) }

/-- Modelled from the spec: `snapshotKeys` of section 4.6. -/
def snapshotKeys {α : Type} (m : MutexedNameLookup α) : List String :=
  m.entries.map (fun e => e.1)

end MutexedNameLookup

namespace MasterImpl

/-- Modelled from the spec: the body of `MasterImpl::registerEndpoint` (declared at
master_impl.hpp, line 36). Section 4.3: "assemble an EndpointContext, compute its candidate
`addresses`, insert in `_knownEndpoints`. Fails if `machineId` is not known". The synthesis
of the addresses by the address manager, which is not among the sources, is a parameter. -/
def registerEndpoint (synthesize : EndpointContext → MachineContext → List String)
    (type : Int) (name endpointID contextID machineID : String) (processID port : Int)
    (m : MasterImpl) : MasterImpl :=
  match m._knownMachines.get machineID with
  | none => m
  | some machine =>
    let endpoint : EndpointContext :=
      { endpointId := endpointID, name := name, type := type, contextId := contextID,
        machineId := machineID, processId := processID, port := port, addresses := [] }
    { m with
      _knownEndpoints := m._knownEndpoints.set endpointID
        { endpoint with addresses := synthesize endpoint machine } }

/-- Modelled from the spec: the body of `MasterImpl::unregisterEndpoint` (declared at
master_impl.hpp, line 41). Section 4.3: "remove the endpoint; for every entry in
`_knownServices` and `_knownTopics` whose value equals that id, remove it." -/
def unregisterEndpoint (id : String) (m : MasterImpl) : MasterImpl :=
  { m with
    _knownEndpoints := m._knownEndpoints.remove id
    _knownServices := m._knownServices.filterRemove (fun _ owner => owner == id)
    _knownTopics := m._knownTopics.filterRemove (fun _ owner => owner == id) }

/-- Modelled from the spec: the body of `MasterImpl::listEndpoints` (declared at
master_impl.hpp, line 48). Section 4.3: "snapshot of identifiers". -/
def listEndpoints (m : MasterImpl) : List String :=
  m._knownEndpoints.snapshotKeys

/-- Modelled from the spec: the body of `MasterImpl::registerTopic` (declared at
master_impl.hpp, line 54). Section 4.3: "like `registerService`, into `_knownTopics`". -/
def registerTopic (topicName endpointID : String) (m : MasterImpl) : MasterImpl :=
  if m._knownEndpoints.contains endpointID then
    match m._knownTopics.get topicName with
    | none => { m with _knownTopics := m._knownTopics.set topicName endpointID }
    | some owner =>
      if owner = endpointID then m
      else
        { m with
          log := m.log ++ [MasterLog.duplicateRegistration topicName owner endpointID] }
  else m

end MasterImpl

/-- A registration made between `registerEndpoint` and `unregisterEndpoint`: a call of
`registerService` or of `registerTopic`. -/
inductive Registration where
  | service (methodSignature serverID : String)
  | topic (topicName endpointID : String)
  deriving DecidableEq, Repr

/-- The directory after one registration. -/
def Registration.apply (m : MasterImpl) : Registration → MasterImpl
  | Registration.service methodSignature serverID =>
    MasterImpl.registerService methodSignature serverID m
  | Registration.topic topicName endpointID => MasterImpl.registerTopic topicName endpointID m

/-- The directory after a sequence of registrations, made in order. -/
def applyRegistrations (regs : List Registration) (m : MasterImpl) : MasterImpl :=
  regs.foldl Registration.apply m

/-- The machine "m1". -/
def sampleMachine : MachineContext :=
  { machineId := "m1", hostName := "host", publicIPv4 := "1.2.3.4", platformId := 0 }

/-- The sample directory with the machine "m1" known. -/
def sampleMasterWithMachine : MasterImpl :=
  { sampleMaster with _knownMachines := { entries := [("m1", sampleMachine)] } }

/-- An address synthesis that yields the public address of the machine. -/
def sampleSynthesize (_e : EndpointContext) (machine : MachineContext) : List String :=
  [machine.publicIPv4]

/-! ## The directory binary (libqimessaging/bin/qimaster/qimastermain.cpp) -/

/-- The variables map `vm` after `po::store` and `po::notify` (lines 37-39), as far as
`main` reads it: `vm.count("help")`, `vm.count("master-address")` and
`vm["master-address"].as<std::string>()`. -/
structure VariablesMap where
  helpCount : Nat
  masterAddressCount : Nat
  masterAddress : String
  deriving DecidableEq, Repr

/-- What `main` does, in program order. -/
inductive MainEvent where
  /-- the statement `std::cout << desc` -/
  | printUsage
  /-- the call `sd.listen(masterAddress)` -/
  | listen (masterAddress : String)
  /-- the statement `std::cout << "ready."` -/
  | printReady
  /-- the call `sd.join()`, which returned -/
  | join
  deriving DecidableEq, Repr

namespace qimaster

/-- The function `main` of qimastermain.cpp, lines 20-73: the exit code and what was done. `parsed` is
the outcome of parsing the command line, `none` when boost::program_options throws a
`po::error`; `listen` is the answer of `qi::ServiceDirectory::listen`. -/
def main (parsed : Option VariablesMap) (listen : String → Bool) : Int × List MainEvent :=
  match parsed with
  | none => (0, [MainEvent.printUsage])
  | some vm =>
    if vm.helpCount ≠ 0 then (0, [MainEvent.printUsage])
    else if vm.masterAddressCount = 1 then
      if !listen vm.masterAddress then (1, [MainEvent.listen vm.masterAddress])
      else
        (0, [MainEvent.listen vm.masterAddress, MainEvent.printReady, MainEvent.join])
    else (0, [MainEvent.printUsage])

end qimaster

/-- The variables map for the default master address, with `--help` given `helpCount` times. -/
def sampleVariables (helpCount : Nat) : VariablesMap :=
  { helpCount := helpCount, masterAddressCount := 1, masterAddress := "tcp://0.0.0.0:5555" }

/-! ## Stepping lemmas for the primitives and the loops -/

theorem setIfEquals_of_eq (p : PeriodicTaskPrivate) (src dst : TaskState) (h : p._state = src) :
    setIfEquals p src dst =
      (true, emit { p with _state := dst } (Event.setIfEquals src dst true)) := by
  simp [setIfEquals, h]

theorem setIfEquals_of_ne (p : PeriodicTaskPrivate) (src dst : TaskState) (h : p._state ≠ src) :
    setIfEquals p src dst = (false, emit p (Event.setIfEquals src dst false)) := by
  simp [setIfEquals, h]

@[simp] theorem emit_state (p : PeriodicTaskPrivate) (e : Event) : (emit p e)._state = p._state := rfl

@[simp] theorem emit_trace (p : PeriodicTaskPrivate) (e : Event) :
    (emit p e).trace = p.trace ++ [e] := rfl

theorem setIfEqualsAny_cons_of_eq (p : PeriodicTaskPrivate) (s d : TaskState)
    (rest : List (TaskState × TaskState)) (h : p._state = s) :
    setIfEqualsAny p ((s, d) :: rest) =
      (true, emit { p with _state := d } (Event.setIfEquals s d true)) := by
  simp [setIfEqualsAny, setIfEquals_of_eq p s d h]

theorem setIfEqualsAny_cons_of_ne (p : PeriodicTaskPrivate) (s d : TaskState)
    (rest : List (TaskState × TaskState)) (h : p._state ≠ s) :
    setIfEqualsAny p ((s, d) :: rest) =
      setIfEqualsAny (emit p (Event.setIfEquals s d false)) rest := by
  simp [setIfEqualsAny, setIfEquals_of_ne p s d h]

theorem yieldWhile_of_ne (fuel : Nat) (s : TaskState) (p : PeriodicTaskPrivate)
    (h : p._state ≠ s) : yieldWhile fuel s p = some p := by
  unfold yieldWhile
  simp [h]

theorem yieldWhile_stuck (fuel : Nat) (s : TaskState) (p : PeriodicTaskPrivate)
    (h : p._state = s) : yieldWhile fuel s p = none := by
  induction fuel generalizing p with
  | zero => unfold yieldWhile; simp [h]
  | succ n ih =>
    unfold yieldWhile
    simp only [h, if_true]
    exact ih _ (by simpa using h)

theorem setStateSpin_of_eq (fuel i : Nat) (p : PeriodicTaskPrivate) (src dst : TaskState)
    (h : p._state = src) :
    setStateSpin fuel i p src dst =
      some (emit { p with _state := dst } (Event.setIfEquals src dst true)) := by
  unfold setStateSpin
  simp [setIfEquals_of_eq p src dst h]

theorem spin_backoff_state (i : Nat) (q : PeriodicTaskPrivate) :
    (if 1000 ≤ i ∧ (i - 1000) % 1000 = 999 then
        emit (if 1000 ≤ i then emit q (Event.msleep 1) else q) Event.logWarning
      else (if 1000 ≤ i then emit q (Event.msleep 1) else q))._state = q._state := by
  by_cases h1 : 1000 ≤ i <;> by_cases h2 : (i - 1000) % 1000 = 999 <;> simp [h1, h2]

theorem setStateSpin_stuck (fuel i : Nat) (p : PeriodicTaskPrivate) (src dst : TaskState)
    (h : p._state ≠ src) : setStateSpin fuel i p src dst = none := by
  induction fuel generalizing i p with
  | zero => unfold setStateSpin; simp [setIfEquals_of_ne p src dst h]
  | succ n ih =>
    unfold setStateSpin
    simp only [setIfEquals_of_ne p src dst h]
    apply ih
    rw [spin_backoff_state]
    simpa using h

theorem setStateSpin2_of_fst (fuel i : Nat) (p : PeriodicTaskPrivate) (src dst src2 dst2 : TaskState)
    (h : p._state = src) :
    setStateSpin2 fuel i p src dst src2 dst2 =
      some (emit { p with _state := dst } (Event.setIfEquals src dst true)) := by
  unfold setStateSpin2
  simp [setIfEqualsAny_cons_of_eq p src dst _ h]

theorem setStateSpin2_of_snd (fuel i : Nat) (p : PeriodicTaskPrivate) (src dst src2 dst2 : TaskState)
    (h : p._state ≠ src) (h2 : p._state = src2) :
    setStateSpin2 fuel i p src dst src2 dst2 =
      some (emit { emit p (Event.setIfEquals src dst false) with _state := dst2 }
        (Event.setIfEquals src2 dst2 true)) := by
  unfold setStateSpin2
  rw [setIfEqualsAny_cons_of_ne p src dst _ h,
    setIfEqualsAny_cons_of_eq _ src2 dst2 _ (by simpa using h2)]
  simp

theorem setStateSpin2_stuck (fuel i : Nat) (p : PeriodicTaskPrivate) (src dst src2 dst2 : TaskState)
    (h : p._state ≠ src) (h2 : p._state ≠ src2) :
    setStateSpin2 fuel i p src dst src2 dst2 = none := by
  induction fuel generalizing i p with
  | zero =>
    unfold setStateSpin2
    rw [setIfEqualsAny_cons_of_ne p src dst _ h,
      setIfEqualsAny_cons_of_ne _ src2 dst2 _ (by simpa using h2)]
    simp [setIfEqualsAny]
  | succ n ih =>
    unfold setStateSpin2
    rw [setIfEqualsAny_cons_of_ne p src dst _ h,
      setIfEqualsAny_cons_of_ne _ src2 dst2 _ (by simpa using h2)]
    simp only [setIfEqualsAny]
    apply ih
    · rw [spin_backoff_state]; simpa using h
    · rw [spin_backoff_state]; simpa using h2

theorem asyncStopSpin_stuck (fuel : Nat) (p : PeriodicTaskPrivate)
    (h : p._state = Task_Rescheduling ∨ p._state = Task_Starting ∨ p._state = Task_Triggering ∨
      p._state = Task_TriggerReady) :
    PeriodicTask.asyncStopSpin fuel p = none := by
  induction fuel generalizing p with
  | zero =>
    unfold PeriodicTask.asyncStopSpin
    rcases h with h | h | h | h <;> simp [setIfEqualsAny, setIfEquals, emit, h]
  | succ n ih =>
    unfold PeriodicTask.asyncStopSpin
    rcases h with h | h | h | h <;> simp [setIfEqualsAny, setIfEquals, emit, h] <;>
      exact ih _ (by simp [h])

theorem asyncStopSpin_of_ok (fuel : Nat) (p : PeriodicTaskPrivate)
    (h : p._state = Task_Scheduled ∨ p._state = Task_Running ∨ p._state = Task_Stopped ∨
      p._state = Task_Stopping) :
    PeriodicTask.asyncStopSpin fuel p = some (setIfEqualsAny p
      [(Task_Scheduled, Task_Stopping), (Task_Running, Task_Stopping),
       (Task_Stopped, Task_Stopped), (Task_Stopping, Task_Stopping)]).2 := by
  unfold PeriodicTask.asyncStopSpin
  rcases h with h | h | h | h <;> simp [setIfEqualsAny, setIfEquals, h]

/-! ## Lemmas on the changes of the state cell -/

theorem changesWithin_refl (T : TaskState → TaskState → Bool) (p : PeriodicTaskPrivate) :
    ChangesWithin T p p := ⟨[], by simp, by simp⟩

theorem changesWithin_of_trace_eq (T : TaskState → TaskState → Bool) {p q : PeriodicTaskPrivate}
    (h : q.trace = p.trace) : ChangesWithin T p q := ⟨[], by simp [h], by simp⟩

theorem changesWithin_trans {T : TaskState → TaskState → Bool} {p q r : PeriodicTaskPrivate}
    (h1 : ChangesWithin T p q) (h2 : ChangesWithin T q r) : ChangesWithin T p r := by
  obtain ⟨e1, t1, a1⟩ := h1
  obtain ⟨e2, t2, a2⟩ := h2
  refine ⟨e1 ++ e2, by rw [t2, t1, List.append_assoc], ?_⟩
  intro e he
  rcases List.mem_append.mp he with h | h
  · exact a1 e h
  · exact a2 e h

theorem changesWithin_emit (T : TaskState → TaskState → Bool) (p : PeriodicTaskPrivate) (e : Event)
    (h : changeWithin T e = true) : ChangesWithin T p (emit p e) :=
  ⟨[e], rfl, by simpa using h⟩

theorem changesWithin_setIfEquals (T : TaskState → TaskState → Bool) (p : PeriodicTaskPrivate)
    (s d : TaskState) (h : (s == d || T s d) = true) :
    ChangesWithin T p (setIfEquals p s d).2 := by
  unfold setIfEquals
  split
  · exact ⟨[Event.setIfEquals s d true], rfl, by simpa [changeWithin] using h⟩
  · exact ⟨[Event.setIfEquals s d false], rfl, by simp [changeWithin]⟩

theorem changesWithin_setIfEqualsAny (T : TaskState → TaskState → Bool)
    (pairs : List (TaskState × TaskState)) :
    ∀ p : PeriodicTaskPrivate, (∀ pr ∈ pairs, (pr.1 == pr.2 || T pr.1 pr.2) = true) →
      ChangesWithin T p (setIfEqualsAny p pairs).2 := by
  induction pairs with
  | nil => intro p _; exact changesWithin_refl T p
  | cons pr rest ih =>
    intro p h
    obtain ⟨s, d⟩ := pr
    have h1 := changesWithin_setIfEquals T p s d (h (s, d) (List.mem_cons_self _ _))
    unfold setIfEqualsAny
    by_cases hr : (setIfEquals p s d).1 = true
    · simpa [hr] using h1
    · simp only [hr]
      exact changesWithin_trans h1 (ih _ (fun pr hpr => h pr (List.mem_cons_of_mem _ hpr)))

theorem changesWithin_yieldWhile (T : TaskState → TaskState → Bool) (fuel : Nat) (s : TaskState)
    (p q : PeriodicTaskPrivate) (h : yieldWhile fuel s p = some q) : ChangesWithin T p q := by
  by_cases hs : p._state = s
  · rw [yieldWhile_stuck fuel s p hs] at h
    cases h
  · rw [yieldWhile_of_ne fuel s p hs] at h
    cases h
    exact changesWithin_refl T p

theorem changesWithin_setStateSpin (T : TaskState → TaskState → Bool) (fuel i : Nat)
    (p q : PeriodicTaskPrivate) (src dst : TaskState) (hT : (src == dst || T src dst) = true)
    (h : setStateSpin fuel i p src dst = some q) : ChangesWithin T p q := by
  by_cases hs : p._state = src
  · rw [setStateSpin_of_eq fuel i p src dst hs] at h
    cases h
    exact ⟨[Event.setIfEquals src dst true], rfl, by simpa [changeWithin] using hT⟩
  · rw [setStateSpin_stuck fuel i p src dst hs] at h
    cases h

theorem changesWithin_setStateSpin2 (T : TaskState → TaskState → Bool) (fuel i : Nat)
    (p q : PeriodicTaskPrivate) (src dst src2 dst2 : TaskState)
    (hT : (src == dst || T src dst) = true) (hT2 : (src2 == dst2 || T src2 dst2) = true)
    (h : setStateSpin2 fuel i p src dst src2 dst2 = some q) : ChangesWithin T p q := by
  by_cases hs : p._state = src
  · rw [setStateSpin2_of_fst fuel i p src dst src2 dst2 hs] at h
    cases h
    exact ⟨[Event.setIfEquals src dst true], rfl, by simpa [changeWithin] using hT⟩
  · by_cases hs2 : p._state = src2
    · rw [setStateSpin2_of_snd fuel i p src dst src2 dst2 hs hs2] at h
      cases h
      refine ⟨[Event.setIfEquals src dst false, Event.setIfEquals src2 dst2 true], by simp, ?_⟩
      intro e he
      simp only [List.mem_cons, List.mem_singleton, List.not_mem_nil, or_false] at he
      rcases he with rfl | rfl
      · simp [changeWithin]
      · simpa [changeWithin] using hT2
    · rw [setStateSpin2_stuck fuel i p src dst src2 dst2 hs hs2] at h
      cases h

theorem changesWithin_reschedule (T : TaskState → TaskState → Bool)
    (hT : T Task_Rescheduling Task_Scheduled = true) (p : PeriodicTaskPrivate) (delay : Duration) :
    ChangesWithin T p (PeriodicTask._reschedule p delay) := by
  unfold PeriodicTask._reschedule PeriodicTask._rescheduleRelease PeriodicTask._rescheduleAssign
  have h1 : ChangesWithin T p
      (emit { p with _task := p.futures + 1, futures := p.futures + 1 }
        (Event.async p._scheduleCallback delay (p.futures + 1))) :=
    ⟨[Event.async p._scheduleCallback delay (p.futures + 1)], rfl, by simp [changeWithin]⟩
  have h2 := changesWithin_setIfEquals T
    (emit { p with _task := p.futures + 1, futures := p.futures + 1 }
        (Event.async p._scheduleCallback delay (p.futures + 1)))
    Task_Rescheduling Task_Scheduled (by simp [hT])
  simp only
  split
  · exact changesWithin_trans h1 h2
  · exact changesWithin_trans h1 (changesWithin_trans h2 (changesWithin_emit T _ _ rfl))

theorem changesWithin_asyncStopSpin (T : TaskState → TaskState → Bool)
    (hT1 : T Task_Scheduled Task_Stopping = true) (hT2 : T Task_Running Task_Stopping = true)
    (fuel : Nat) (p q : PeriodicTaskPrivate) (h : PeriodicTask.asyncStopSpin fuel p = some q) :
    ChangesWithin T p q := by
  have hp := changesWithin_setIfEqualsAny T
    [(Task_Scheduled, Task_Stopping), (Task_Running, Task_Stopping),
     (Task_Stopped, Task_Stopped), (Task_Stopping, Task_Stopping)] p
    (by simp [hT1, hT2])
  have hst : ¬ (p._state = Task_Scheduled ∨ p._state = Task_Running ∨ p._state = Task_Stopped ∨
      p._state = Task_Stopping) → (p._state = Task_Rescheduling ∨ p._state = Task_Starting ∨
      p._state = Task_Triggering ∨ p._state = Task_TriggerReady) := by
    cases p._state <;> simp
  by_cases hs : p._state = Task_Scheduled ∨ p._state = Task_Running ∨ p._state = Task_Stopped ∨
      p._state = Task_Stopping
  · rw [asyncStopSpin_of_ok fuel p hs] at h
    cases h
    exact hp
  · rw [asyncStopSpin_stuck fuel p (hst hs)] at h
    cases h

theorem changesWithin_asyncStop (T : TaskState → TaskState → Bool)
    (hT1 : T Task_Scheduled Task_Stopping = true) (hT2 : T Task_Running Task_Stopping = true)
    (fuel : Nat) (p q : PeriodicTaskPrivate) (h : PeriodicTask.asyncStop fuel p = some q) :
    ChangesWithin T p q := by
  unfold PeriodicTask.asyncStop at h
  have h1 := changesWithin_setIfEquals T p Task_Stopped Task_Stopped (by simp)
  simp only at h
  split at h
  · cases h
    exact h1
  · cases hsp : PeriodicTask.asyncStopSpin fuel (setIfEquals p Task_Stopped Task_Stopped).2 with
    | none => simp [hsp] at h
    | some r =>
      simp only [hsp, Option.some.injEq] at h
      subst h
      exact changesWithin_trans h1 (changesWithin_trans
        (changesWithin_asyncStopSpin T hT1 hT2 fuel _ r hsp) (changesWithin_emit T _ _ rfl))

theorem changesWithin_stop (T : TaskState → TaskState → Bool)
    (hT1 : T Task_Scheduled Task_Stopping = true) (hT2 : T Task_Running Task_Stopping = true)
    (hT3 : T Task_Stopping Task_Stopped = true)
    (fuel : Nat) (tid : Int) (p q : PeriodicTaskPrivate)
    (h : PeriodicTask.stop fuel tid p = some q) : ChangesWithin T p q := by
  unfold PeriodicTask.stop at h
  cases hs : PeriodicTask.asyncStop fuel p with
  | none => simp [hs] at h
  | some r =>
    have h1 := changesWithin_asyncStop T hT1 hT2 fuel p r hs
    have h2 := changesWithin_setIfEqualsAny T
      [(Task_Stopping, Task_Stopped), (Task_Stopped, Task_Stopped)]
      (emit r (Event.wait r._task)) (by simp [hT3])
    have h0 : ChangesWithin T r (emit r (Event.wait r._task)) := changesWithin_emit T _ _ rfl
    simp only [hs] at h
    split at h
    · cases h
      exact h1
    · split at h
      · cases h
        exact changesWithin_trans h1 (changesWithin_trans h0 h2)
      · cases h
        exact changesWithin_trans h1 (changesWithin_trans h0
          (changesWithin_trans h2 (changesWithin_emit T _ _ rfl)))

theorem changesWithin_start (T : TaskState → TaskState → Bool)
    (hT1 : T Task_Scheduled Task_Stopping = true) (hT2 : T Task_Running Task_Stopping = true)
    (hT3 : T Task_Stopping Task_Stopped = true) (hT4 : T Task_Stopped Task_Starting = true)
    (hT5 : T Task_Starting Task_Rescheduling = true)
    (hT6 : T Task_Rescheduling Task_Scheduled = true)
    (fuel : Nat) (tid : Int) (immediate : Bool) (p : PeriodicTaskPrivate) (o : Outcome)
    (h : PeriodicTask.start fuel tid immediate p = some o) : ChangesWithin T p o.task := by
  unfold PeriodicTask.start at h
  split at h
  · cases h
    exact changesWithin_refl T p
  · split at h
    · cases h
      exact changesWithin_refl T p
    · split at h
      · cases h
        exact changesWithin_refl T p
      · cases hs : PeriodicTask.stop fuel tid p with
        | none => simp [hs] at h
        | some r =>
          have h1 := changesWithin_stop T hT1 hT2 hT3 fuel tid p r hs
          have h2 := changesWithin_setIfEquals T r Task_Stopped Task_Starting (by simp [hT4])
          have h3 := changesWithin_setIfEquals T (setIfEquals r Task_Stopped Task_Starting).2
            Task_Starting Task_Rescheduling (by simp [hT5])
          simp only [hs] at h
          split at h
          · cases h
            simp only [Outcome.task]
            refine changesWithin_trans h1 (changesWithin_trans h2 ?_)
            split
            · exact changesWithin_trans h3 (changesWithin_reschedule T hT6 _ _)
            · exact changesWithin_trans h3 (changesWithin_trans (changesWithin_emit T _ _ (by rfl))
                (changesWithin_reschedule T hT6 _ _))
          · cases h
            exact changesWithin_trans h1 h2

theorem changesWithin_trigger (T : TaskState → TaskState → Bool)
    (hT1 : T Task_Scheduled Task_Triggering = true)
    (hT2 : T Task_Triggering Task_TriggerReady = true) (fuel : Nat) :
    ∀ p q : PeriodicTaskPrivate, PeriodicTask.trigger fuel p = some q → ChangesWithin T p q := by
  induction fuel with
  | zero =>
    intro p q h
    unfold PeriodicTask.trigger at h
    have h1 := changesWithin_setIfEqualsAny T
      [(Task_Stopped, Task_Stopped), (Task_Stopping, Task_Stopping),
       (Task_Starting, Task_Starting), (Task_Running, Task_Running),
       (Task_Rescheduling, Task_Rescheduling), (Task_Triggering, Task_Triggering),
       (Task_TriggerReady, Task_TriggerReady)] p (by simp)
    simp only at h
    split at h
    · cases h
      exact h1
    · split at h
      · cases h
        exact changesWithin_trans h1 (changesWithin_trans
          (changesWithin_setIfEquals T _ Task_Scheduled Task_Triggering (by simp [hT1]))
          (changesWithin_trans (changesWithin_emit T _ _ (by rfl))
            (changesWithin_trans (changesWithin_emit T _ _ (by rfl))
              (changesWithin_setIfEquals T _ Task_Triggering Task_TriggerReady
                (by simp [hT2])))))
      · cases h
  | succ n ih =>
    intro p q h
    unfold PeriodicTask.trigger at h
    have h1 := changesWithin_setIfEqualsAny T
      [(Task_Stopped, Task_Stopped), (Task_Stopping, Task_Stopping),
       (Task_Starting, Task_Starting), (Task_Running, Task_Running),
       (Task_Rescheduling, Task_Rescheduling), (Task_Triggering, Task_Triggering),
       (Task_TriggerReady, Task_TriggerReady)] p (by simp)
    simp only at h
    split at h
    · cases h
      exact h1
    · have h2 := changesWithin_setIfEquals T (setIfEqualsAny p
        [(Task_Stopped, Task_Stopped), (Task_Stopping, Task_Stopping),
         (Task_Starting, Task_Starting), (Task_Running, Task_Running),
         (Task_Rescheduling, Task_Rescheduling), (Task_Triggering, Task_Triggering),
         (Task_TriggerReady, Task_TriggerReady)]).2 Task_Scheduled Task_Triggering
        (by simp [hT1])
      split at h
      · cases h
        exact changesWithin_trans h1 (changesWithin_trans h2
          (changesWithin_trans (changesWithin_emit T _ _ (by rfl))
            (changesWithin_trans (changesWithin_emit T _ _ (by rfl))
              (changesWithin_setIfEquals T _ Task_Triggering Task_TriggerReady
                (by simp [hT2])))))
      · exact changesWithin_trans h1 (changesWithin_trans h2 (ih _ _ h))

theorem changesWithin_trigger_handler (T : TaskState → TaskState → Bool)
    (hT1 : T Task_Triggering Task_Rescheduling = true)
    (hT2 : T Task_TriggerReady Task_Rescheduling = true)
    (hT3 : T Task_Rescheduling Task_Scheduled = true)
    (canceled : Bool) (p : PeriodicTaskPrivate) :
    ChangesWithin T p (PeriodicTask._trigger canceled p) := by
  unfold PeriodicTask._trigger
  have h1 := changesWithin_setIfEqualsAny T
    [(Task_Triggering, Task_Rescheduling), (Task_TriggerReady, Task_Rescheduling)] p
    (by simp [hT1, hT2])
  split
  · exact changesWithin_refl T p
  · simp only
    split
    · exact changesWithin_trans h1 (changesWithin_reschedule T hT3 _ _)
    · exact h1

theorem changesWithin_wrapEnter (T : TaskState → TaskState → Bool)
    (hT1 : T Task_Stopping Task_Stopped = true) (hT2 : T Task_Scheduled Task_Running = true)
    (fuel : Nat) (tid : Int) (p : PeriodicTaskPrivate) (r : Entered)
    (h : PeriodicTask._wrapEnter fuel tid p = some r) : ChangesWithin T p r.task := by
  unfold PeriodicTask._wrapEnter at h
  have h0 : ChangesWithin T p (if p._state = Task_Stopped then emit p Event.logError else p) := by
    split
    · exact changesWithin_emit T _ _ (by rfl)
    · exact changesWithin_refl T p
  simp only at h
  generalize (if p._state = Task_Stopped then emit p Event.logError else p) = p0 at h h0
  have h1 := changesWithin_setIfEquals T p0 Task_Stopping Task_Stopped (by simp [hT1])
  split at h
  · cases h
    exact changesWithin_trans h0 h1
  · cases hy : yieldWhile fuel Task_Rescheduling (setIfEquals p0 Task_Stopping Task_Stopped).2 with
    | none => simp [hy] at h
    | some q =>
      have h2 := changesWithin_yieldWhile T fuel _ _ q hy
      have h3 := changesWithin_setIfEqualsAny T
        [(Task_Scheduled, Task_Running), (Task_Triggering, Task_Triggering),
         (Task_TriggerReady, Task_TriggerReady)] q (by simp [hT2])
      simp only [hy] at h
      split at h
      · cases h
        exact changesWithin_trans h0 (changesWithin_trans h1 (changesWithin_trans h2
          (changesWithin_trans h3 (changesWithin_of_trace_eq T rfl))))
      · cases hs : setState fuel (setIfEqualsAny q
            [(Task_Scheduled, Task_Running), (Task_Triggering, Task_Triggering),
             (Task_TriggerReady, Task_TriggerReady)]).2 Task_Stopping Task_Stopped with
        | none => simp [hs] at h
        | some q2 =>
          simp only [hs, Option.some.injEq] at h
          subst h
          exact changesWithin_trans h0 (changesWithin_trans h1 (changesWithin_trans h2
            (changesWithin_trans h3
              (changesWithin_setStateSpin T fuel 0 _ q2 _ _ (by simp [hT1]) hs))))

theorem changesWithin_pushStats (T : TaskState → TaskState → Bool) (now : Int) (delta : Duration)
    (usr sys : Int) (p : PeriodicTaskPrivate) :
    ChangesWithin T p (PeriodicTask.pushStats now delta usr sys p) := by
  unfold PeriodicTask.pushStats
  simp only
  split
  · exact ⟨[Event.push delta usr sys], rfl, by simp [changeWithin]⟩
  · exact ⟨[Event.push delta usr sys], rfl, by simp [changeWithin]⟩

theorem changesWithin_wrapLeave (T : TaskState → TaskState → Bool)
    (hT1 : T Task_Stopping Task_Stopped = true) (hT2 : T Task_Running Task_Stopped = true)
    (hT3 : T Task_Running Task_Rescheduling = true)
    (hT4 : T Task_TriggerReady Task_Rescheduling = true)
    (hT5 : T Task_Rescheduling Task_Scheduled = true)
    (fuel : Nat) (compensate : Bool) (start : Int) (cpu : Int × Int) (res : CallbackResult)
    (p q : PeriodicTaskPrivate)
    (h : PeriodicTask._wrapLeave fuel compensate start cpu res p = some q) :
    ChangesWithin T p q := by
  unfold PeriodicTask._wrapLeave at h
  cases res with
  | threw =>
    simp only at h
    exact changesWithin_trans (changesWithin_emit T p Event.logInfo (by rfl))
      (changesWithin_setStateSpin2 T fuel 0 _ q _ _ _ _ (by simp [hT1]) (by simp [hT2]) h)
  | finished now cpu2 =>
    simp only at h
    have h0 : ChangesWithin T p (PeriodicTask.pushStats now (now - start) (cpu2.1 - cpu.1)
        (cpu2.2 - cpu.2) { p with _tid := invalidThreadId }) :=
      changesWithin_trans (changesWithin_of_trace_eq T (q := { p with _tid := invalidThreadId }) rfl)
        (changesWithin_pushStats T _ _ _ _ _)
    generalize PeriodicTask.pushStats now (now - start) (cpu2.1 - cpu.1)
        (cpu2.2 - cpu.2) { p with _tid := invalidThreadId } = p3 at h h0
    cases hy : yieldWhile fuel Task_Triggering p3 with
    | none => simp [hy] at h
    | some p4 =>
      have h1 := changesWithin_yieldWhile T fuel _ _ p4 hy
      have h2 := changesWithin_setIfEqualsAny T
        [(Task_Running, Task_Rescheduling), (Task_TriggerReady, Task_Rescheduling)] p4
        (by simp [hT3, hT4])
      simp only [hy] at h
      split at h
      · cases h
        exact changesWithin_trans h0 (changesWithin_trans h1 (changesWithin_trans h2
          (changesWithin_reschedule T hT5 _ _)))
      · exact changesWithin_trans h0 (changesWithin_trans h1 (changesWithin_trans h2
          (changesWithin_setStateSpin T fuel 0 _ q _ _ (by simp [hT1]) h)))

theorem changesWithin_wrap (T : TaskState → TaskState → Bool)
    (hT1 : T Task_Stopping Task_Stopped = true) (hT2 : T Task_Running Task_Stopped = true)
    (hT3 : T Task_Running Task_Rescheduling = true)
    (hT4 : T Task_TriggerReady Task_Rescheduling = true)
    (hT5 : T Task_Rescheduling Task_Scheduled = true)
    (hT6 : T Task_Scheduled Task_Running = true)
    (fuel : Nat) (tid : Int) (cb : CallbackRun) (p q : PeriodicTaskPrivate)
    (hcb : ∀ x, ChangesWithin T x (cb.during x))
    (h : PeriodicTask._wrap fuel tid cb p = some q) : ChangesWithin T p q := by
  unfold PeriodicTask._wrap at h
  cases he : PeriodicTask._wrapEnter fuel tid p with
  | none => simp [he] at h
  | some r =>
    have h1 := changesWithin_wrapEnter T hT1 hT6 fuel tid p r he
    cases r with
    | returned x =>
      simp only [he, Option.some.injEq] at h
      subst h
      exact h1
    | invoking c x =>
      simp only [he] at h
      simp only [Entered.task] at h1
      cases hc : x._callback with
      | none =>
        simp only [hc] at h
        exact changesWithin_trans h1
          (changesWithin_wrapLeave T hT1 hT2 hT3 hT4 hT5 fuel c _ _ _ x q h)
      | some k =>
        simp only [hc] at h
        exact changesWithin_trans h1 (changesWithin_trans (changesWithin_emit T x _ (by rfl))
          (changesWithin_trans (hcb _)
            (changesWithin_wrapLeave T hT1 hT2 hT3 hT4 hT5 fuel c _ _ _ _ q h)))

theorem asyncStop_stuck (fuel : Nat) (p : PeriodicTaskPrivate)
    (h : p._state = Task_Rescheduling ∨ p._state = Task_Starting ∨ p._state = Task_Triggering ∨
      p._state = Task_TriggerReady) :
    PeriodicTask.asyncStop fuel p = none := by
  have hne : p._state ≠ Task_Stopped := by
    rcases h with h | h | h | h <;> simp [h]
  unfold PeriodicTask.asyncStop
  rw [setIfEquals_of_ne p _ _ hne]
  simp only [Bool.false_eq_true, if_false]
  rw [asyncStopSpin_stuck fuel _ (by simpa using h)]

theorem asyncStop_of_stopped (fuel : Nat) (p : PeriodicTaskPrivate) (h : p._state = Task_Stopped) :
    PeriodicTask.asyncStop fuel p =
      some { p with trace := p.trace ++ [Event.setIfEquals Task_Stopped Task_Stopped true] } := by
  obtain ⟨cs, sdt, cb, sc, per, st, task, name, comp, ptid, tr, futs⟩ := p
  simp only at h
  subst h
  simp [PeriodicTask.asyncStop, setIfEquals, emit]

theorem asyncStop_of_scheduled (fuel : Nat) (p : PeriodicTaskPrivate)
    (h : p._state = Task_Scheduled) :
    PeriodicTask.asyncStop fuel p =
      some { p with
        _state := Task_Stopping
        trace := p.trace ++
          [Event.setIfEquals Task_Stopped Task_Stopped false,
           Event.setIfEquals Task_Scheduled Task_Stopping true,
           Event.cancel p._task] } := by
  obtain ⟨cs, sdt, cb, sc, per, st, task, name, comp, ptid, tr, futs⟩ := p
  simp only at h
  subst h
  simp [PeriodicTask.asyncStop, asyncStopSpin_of_ok, setIfEquals, setIfEqualsAny, emit]

theorem asyncStop_of_running (fuel : Nat) (p : PeriodicTaskPrivate)
    (h : p._state = Task_Running) :
    PeriodicTask.asyncStop fuel p =
      some { p with
        _state := Task_Stopping
        trace := p.trace ++
          [Event.setIfEquals Task_Stopped Task_Stopped false,
           Event.setIfEquals Task_Scheduled Task_Stopping false,
           Event.setIfEquals Task_Running Task_Stopping true,
           Event.cancel p._task] } := by
  obtain ⟨cs, sdt, cb, sc, per, st, task, name, comp, ptid, tr, futs⟩ := p
  simp only at h
  subst h
  simp [PeriodicTask.asyncStop, asyncStopSpin_of_ok, setIfEquals, setIfEqualsAny, emit]

theorem asyncStop_of_stopping (fuel : Nat) (p : PeriodicTaskPrivate)
    (h : p._state = Task_Stopping) :
    PeriodicTask.asyncStop fuel p =
      some { p with
        trace := p.trace ++
          [Event.setIfEquals Task_Stopped Task_Stopped false,
           Event.setIfEquals Task_Scheduled Task_Stopping false,
           Event.setIfEquals Task_Running Task_Stopping false,
           Event.setIfEquals Task_Stopped Task_Stopped false,
           Event.setIfEquals Task_Stopping Task_Stopping true,
           Event.cancel p._task] } := by
  obtain ⟨cs, sdt, cb, sc, per, st, task, name, comp, ptid, tr, futs⟩ := p
  simp only at h
  subst h
  simp [PeriodicTask.asyncStop, asyncStopSpin_of_ok, setIfEquals, setIfEqualsAny, emit]

/-! ## Lemmas on runs that keep the record -/

theorem yieldWhileRun_toOption (fuel : Nat) (s : TaskState) (p : PeriodicTaskPrivate) :
    (yieldWhileRun fuel s p).toOption = yieldWhile fuel s p := by
  induction fuel generalizing p with
  | zero =>
    unfold yieldWhileRun yieldWhile
    split <;> rfl
  | succ n ih =>
    unfold yieldWhileRun yieldWhile
    split
    · exact ih _
    · rfl

theorem setStateSpinRun_toOption (fuel : Nat) (src dst : TaskState) :
    ∀ (i : Nat) (p : PeriodicTaskPrivate),
      (setStateSpinRun fuel i p src dst).toOption = setStateSpin fuel i p src dst := by
  induction fuel with
  | zero =>
    intro i p
    unfold setStateSpinRun setStateSpin
    by_cases hr : (setIfEquals p src dst).1 = true <;> simp [hr, Run.toOption]
  | succ n ih =>
    intro i p
    unfold setStateSpinRun setStateSpin
    by_cases hr : (setIfEquals p src dst).1 = true
    · simp [hr, Run.toOption]
    · simp only [hr]
      exact ih _ _

theorem setStateSpin2Run_toOption (fuel : Nat) (src dst src2 dst2 : TaskState) :
    ∀ (i : Nat) (p : PeriodicTaskPrivate),
      (setStateSpin2Run fuel i p src dst src2 dst2).toOption =
        setStateSpin2 fuel i p src dst src2 dst2 := by
  induction fuel with
  | zero =>
    intro i p
    unfold setStateSpin2Run setStateSpin2
    by_cases hr : (setIfEqualsAny p [(src, dst), (src2, dst2)]).1 = true <;>
      simp [hr, Run.toOption]
  | succ n ih =>
    intro i p
    unfold setStateSpin2Run setStateSpin2
    by_cases hr : (setIfEqualsAny p [(src, dst), (src2, dst2)]).1 = true
    · simp [hr, Run.toOption]
    · simp only [hr]
      exact ih _ _

theorem asyncStopSpinRun_toOption (fuel : Nat) :
    ∀ p : PeriodicTaskPrivate,
      (PeriodicTask.asyncStopSpinRun fuel p).toOption = PeriodicTask.asyncStopSpin fuel p := by
  induction fuel with
  | zero =>
    intro p
    unfold PeriodicTask.asyncStopSpinRun PeriodicTask.asyncStopSpin
    simp only
    split <;> rfl
  | succ n ih =>
    intro p
    unfold PeriodicTask.asyncStopSpinRun PeriodicTask.asyncStopSpin
    simp only
    split
    · rfl
    · exact ih _

theorem asyncStopRun_toOption (fuel : Nat) (p : PeriodicTaskPrivate) :
    (PeriodicTask.asyncStopRun fuel p).toOption = PeriodicTask.asyncStop fuel p := by
  unfold PeriodicTask.asyncStopRun PeriodicTask.asyncStop
  simp only
  split
  · rfl
  · rw [← asyncStopSpinRun_toOption]
    cases PeriodicTask.asyncStopSpinRun fuel (setIfEquals p Task_Stopped Task_Stopped).2 <;> rfl

theorem stopRun_toOption (fuel : Nat) (tid : Int) (p : PeriodicTaskPrivate) :
    (PeriodicTask.stopRun fuel tid p).toOption = PeriodicTask.stop fuel tid p := by
  unfold PeriodicTask.stopRun PeriodicTask.stop
  rw [← asyncStopRun_toOption]
  cases PeriodicTask.asyncStopRun fuel p with
  | spinning s => rfl
  | done q =>
    simp only [Run.toOption]
    by_cases h1 : tid = q._tid
    · simp [h1, Run.toOption]
    · by_cases h2 : (setIfEqualsAny (emit q (Event.wait q._task))
          [(Task_Stopping, Task_Stopped), (Task_Stopped, Task_Stopped)]).1 = true <;>
        simp [h1, h2, Run.toOption]

theorem startRun_toOption (fuel : Nat) (tid : Int) (immediate : Bool) (p : PeriodicTaskPrivate) :
    (PeriodicTask.startRun fuel tid immediate p).toOption =
      PeriodicTask.start fuel tid immediate p := by
  unfold PeriodicTask.startRun PeriodicTask.start
  rw [← stopRun_toOption]
  split
  · rfl
  · split
    · rfl
    · split
      · rfl
      · cases PeriodicTask.stopRun fuel tid p with
        | spinning s => rfl
        | done q =>
          simp only [Run.toOption]
          by_cases h1 : (setIfEquals q Task_Stopped Task_Starting).1 = true <;>
            simp [h1, Run.toOption]

theorem triggerRun_toOption (fuel : Nat) :
    ∀ p : PeriodicTaskPrivate,
      (PeriodicTask.triggerRun fuel p).toOption = PeriodicTask.trigger fuel p := by
  induction fuel with
  | zero =>
    intro p
    unfold PeriodicTask.triggerRun PeriodicTask.trigger
    simp only
    split
    · rfl
    · split <;> rfl
  | succ n ih =>
    intro p
    unfold PeriodicTask.triggerRun PeriodicTask.trigger
    simp only
    split
    · rfl
    · split
      · rfl
      · exact ih _

theorem wrapEnterRun_toOption (fuel : Nat) (tid : Int) (p : PeriodicTaskPrivate) :
    (PeriodicTask._wrapEnterRun fuel tid p).toOption = PeriodicTask._wrapEnter fuel tid p := by
  unfold PeriodicTask._wrapEnterRun PeriodicTask._wrapEnter
  simp only
  generalize (if p._state = Task_Stopped then emit p Event.logError else p) = p0
  by_cases h1 : (setIfEquals p0 Task_Stopping Task_Stopped).1 = true
  · rw [if_pos h1, if_pos h1]
    rfl
  · rw [if_neg h1, if_neg h1, ← yieldWhileRun_toOption]
    cases yieldWhileRun fuel Task_Rescheduling (setIfEquals p0 Task_Stopping Task_Stopped).2 with
    | spinning s => rfl
    | done q =>
      simp only [Run.toOption]
      by_cases h2 : (setIfEqualsAny q
          [(Task_Scheduled, Task_Running), (Task_Triggering, Task_Triggering),
           (Task_TriggerReady, Task_TriggerReady)]).1 = true
      · rw [if_pos h2, if_pos h2]
      · rw [if_neg h2, if_neg h2]
        unfold setState setStateRun
        rw [← setStateSpinRun_toOption]
        cases setStateSpinRun fuel 0
          (setIfEqualsAny q
            [(Task_Scheduled, Task_Running), (Task_Triggering, Task_Triggering),
             (Task_TriggerReady, Task_TriggerReady)]).2 Task_Stopping Task_Stopped <;> rfl

theorem wrapLeaveRun_toOption (fuel : Nat) (compensate : Bool) (start : Int) (cpu : Int × Int)
    (res : CallbackResult) (p : PeriodicTaskPrivate) :
    (PeriodicTask._wrapLeaveRun fuel compensate start cpu res p).toOption =
      PeriodicTask._wrapLeave fuel compensate start cpu res p := by
  unfold PeriodicTask._wrapLeaveRun PeriodicTask._wrapLeave
  cases res with
  | threw => exact setStateSpin2Run_toOption fuel _ _ _ _ 0 _
  | finished now cpu2 =>
    simp only
    rw [← yieldWhileRun_toOption]
    cases yieldWhileRun fuel Task_Triggering
        (PeriodicTask.pushStats now (now - start) (cpu2.1 - cpu.1) (cpu2.2 - cpu.2)
          { p with _tid := invalidThreadId }) with
    | spinning s => rfl
    | done q =>
      simp only [Run.toOption]
      by_cases h2 : (setIfEqualsAny q
          [(Task_Running, Task_Rescheduling), (Task_TriggerReady, Task_Rescheduling)]).1 = true
      · rw [if_pos h2, if_pos h2]
      · rw [if_neg h2, if_neg h2]
        exact setStateSpinRun_toOption fuel _ _ 0 _

theorem wrapRun_toOption (fuel : Nat) (tid : Int) (cb : CallbackRun) (p : PeriodicTaskPrivate) :
    (PeriodicTask._wrapRun fuel tid cb p).toOption = PeriodicTask._wrap fuel tid cb p := by
  unfold PeriodicTask._wrapRun PeriodicTask._wrap
  rw [← wrapEnterRun_toOption]
  cases PeriodicTask._wrapEnterRun fuel tid p with
  | spinning s => rfl
  | done e =>
    cases e with
    | returned q => rfl
    | invoking compensate q =>
      simp only [Run.toOption]
      cases q._callback with
      | none => exact wrapLeaveRun_toOption _ _ _ _ _ _
      | some c => exact wrapLeaveRun_toOption _ _ _ _ _ _

theorem changesWithin_yieldWhileRun (T : TaskState → TaskState → Bool) (fuel : Nat) (s : TaskState)
    (p : PeriodicTaskPrivate) : ChangesWithin T p ((yieldWhileRun fuel s p).record id) := by
  induction fuel generalizing p with
  | zero =>
    unfold yieldWhileRun
    split <;> exact changesWithin_refl T p
  | succ n ih =>
    unfold yieldWhileRun
    split
    · exact changesWithin_trans (changesWithin_emit T p _ (by rfl)) (ih _)
    · exact changesWithin_refl T p

theorem changesWithin_backoff (T : TaskState → TaskState → Bool) (i : Nat)
    (q : PeriodicTaskPrivate) :
    ChangesWithin T q
      (if 1000 ≤ i ∧ (i - 1000) % 1000 = 999 then
        emit (if 1000 ≤ i then emit q (Event.msleep 1) else q) Event.logWarning
      else (if 1000 ≤ i then emit q (Event.msleep 1) else q)) := by
  have h1 : ChangesWithin T q (if 1000 ≤ i then emit q (Event.msleep 1) else q) := by
    by_cases h : 1000 ≤ i
    · rw [if_pos h]
      exact changesWithin_emit T q _ (by rfl)
    · rw [if_neg h]
      exact changesWithin_refl T q
  by_cases h : 1000 ≤ i ∧ (i - 1000) % 1000 = 999
  · rw [if_pos h]
    exact changesWithin_trans h1 (changesWithin_emit T _ _ (by rfl))
  · rw [if_neg h]
    exact h1

theorem changesWithin_setStateSpinRun (T : TaskState → TaskState → Bool) (src dst : TaskState)
    (hT : (src == dst || T src dst) = true) (fuel : Nat) :
    ∀ (i : Nat) (p : PeriodicTaskPrivate),
      ChangesWithin T p ((setStateSpinRun fuel i p src dst).record id) := by
  induction fuel with
  | zero =>
    intro i p
    have h := changesWithin_setIfEquals T p src dst hT
    unfold setStateSpinRun
    by_cases hr : (setIfEquals p src dst).1 = true <;> simpa [hr, Run.record] using h
  | succ n ih =>
    intro i p
    have h := changesWithin_setIfEquals T p src dst hT
    unfold setStateSpinRun
    by_cases hr : (setIfEquals p src dst).1 = true
    · simpa [hr, Run.record] using h
    · simp only [hr]
      exact changesWithin_trans h (changesWithin_trans (changesWithin_backoff T i _) (ih _ _))

theorem changesWithin_setStateSpin2Run (T : TaskState → TaskState → Bool)
    (src dst src2 dst2 : TaskState) (hT : (src == dst || T src dst) = true)
    (hT2 : (src2 == dst2 || T src2 dst2) = true) (fuel : Nat) :
    ∀ (i : Nat) (p : PeriodicTaskPrivate),
      ChangesWithin T p ((setStateSpin2Run fuel i p src dst src2 dst2).record id) := by
  have hpairs : ∀ pr ∈ [(src, dst), (src2, dst2)], (pr.1 == pr.2 || T pr.1 pr.2) = true := by
    intro pr hpr
    simp only [List.mem_cons, List.mem_singleton, List.not_mem_nil, or_false] at hpr
    rcases hpr with rfl | rfl
    · exact hT
    · exact hT2
  induction fuel with
  | zero =>
    intro i p
    have h := changesWithin_setIfEqualsAny T [(src, dst), (src2, dst2)] p hpairs
    unfold setStateSpin2Run
    by_cases hr : (setIfEqualsAny p [(src, dst), (src2, dst2)]).1 = true <;>
      simpa [hr, Run.record] using h
  | succ n ih =>
    intro i p
    have h := changesWithin_setIfEqualsAny T [(src, dst), (src2, dst2)] p hpairs
    unfold setStateSpin2Run
    by_cases hr : (setIfEqualsAny p [(src, dst), (src2, dst2)]).1 = true
    · simpa [hr, Run.record] using h
    · simp only [hr]
      exact changesWithin_trans h (changesWithin_trans (changesWithin_backoff T i _) (ih _ _))

theorem asyncStop_pairs (T : TaskState → TaskState → Bool)
    (hT1 : T Task_Scheduled Task_Stopping = true) (hT2 : T Task_Running Task_Stopping = true) :
    ∀ pr ∈ [(Task_Scheduled, Task_Stopping), (Task_Running, Task_Stopping),
        (Task_Stopped, Task_Stopped), (Task_Stopping, Task_Stopping)],
      (pr.1 == pr.2 || T pr.1 pr.2) = true := by
  intro pr hpr
  simp only [List.mem_cons, List.mem_singleton, List.not_mem_nil, or_false] at hpr
  rcases hpr with rfl | rfl | rfl | rfl <;> simp [hT1, hT2]

theorem changesWithin_asyncStopSpinRun (T : TaskState → TaskState → Bool)
    (hT1 : T Task_Scheduled Task_Stopping = true) (hT2 : T Task_Running Task_Stopping = true)
    (fuel : Nat) :
    ∀ p : PeriodicTaskPrivate,
      ChangesWithin T p ((PeriodicTask.asyncStopSpinRun fuel p).record id) := by
  induction fuel with
  | zero =>
    intro p
    have h := changesWithin_setIfEqualsAny T _ p (asyncStop_pairs T hT1 hT2)
    unfold PeriodicTask.asyncStopSpinRun
    simp only
    split <;> exact h
  | succ n ih =>
    intro p
    have h := changesWithin_setIfEqualsAny T _ p (asyncStop_pairs T hT1 hT2)
    unfold PeriodicTask.asyncStopSpinRun
    simp only
    split
    · exact h
    · exact changesWithin_trans h (changesWithin_trans (changesWithin_emit T _ _ (by rfl)) (ih _))

theorem changesWithin_asyncStopRun (T : TaskState → TaskState → Bool)
    (hT1 : T Task_Scheduled Task_Stopping = true) (hT2 : T Task_Running Task_Stopping = true)
    (fuel : Nat) (p : PeriodicTaskPrivate) :
    ChangesWithin T p ((PeriodicTask.asyncStopRun fuel p).record id) := by
  have h := changesWithin_setIfEquals T p Task_Stopped Task_Stopped (by simp)
  have h2 := changesWithin_asyncStopSpinRun T hT1 hT2 fuel
    (setIfEquals p Task_Stopped Task_Stopped).2
  unfold PeriodicTask.asyncStopRun
  simp only
  split
  · exact h
  · cases hq : PeriodicTask.asyncStopSpinRun fuel (setIfEquals p Task_Stopped Task_Stopped).2 with
    | spinning s =>
      rw [hq] at h2
      exact changesWithin_trans h h2
    | done q =>
      rw [hq] at h2
      exact changesWithin_trans h (changesWithin_trans h2 (changesWithin_emit T _ _ (by rfl)))

theorem changesWithin_stopRun (T : TaskState → TaskState → Bool)
    (hT1 : T Task_Scheduled Task_Stopping = true) (hT2 : T Task_Running Task_Stopping = true)
    (hT3 : T Task_Stopping Task_Stopped = true)
    (fuel : Nat) (tid : Int) (p : PeriodicTaskPrivate) :
    ChangesWithin T p ((PeriodicTask.stopRun fuel tid p).record id) := by
  have h := changesWithin_asyncStopRun T hT1 hT2 fuel p
  unfold PeriodicTask.stopRun
  cases hq : PeriodicTask.asyncStopRun fuel p with
  | spinning s =>
    rw [hq] at h
    exact h
  | done q =>
    rw [hq] at h
    have h3 := changesWithin_setIfEqualsAny T
      [(Task_Stopping, Task_Stopped), (Task_Stopped, Task_Stopped)]
      (emit q (Event.wait q._task)) (by
        intro pr hpr
        simp only [List.mem_cons, List.mem_singleton, List.not_mem_nil, or_false] at hpr
        rcases hpr with rfl | rfl <;> simp [hT3])
    have h4 := changesWithin_trans h
      (changesWithin_trans (changesWithin_emit T q (Event.wait q._task) (by rfl)) h3)
    simp only
    split
    · exact h
    · split
      · exact h4
      · exact changesWithin_trans h4 (changesWithin_emit T _ _ (by rfl))

theorem changesWithin_startRun (T : TaskState → TaskState → Bool)
    (hT1 : T Task_Scheduled Task_Stopping = true) (hT2 : T Task_Running Task_Stopping = true)
    (hT3 : T Task_Stopping Task_Stopped = true) (hT4 : T Task_Stopped Task_Starting = true)
    (hT5 : T Task_Starting Task_Rescheduling = true)
    (hT6 : T Task_Rescheduling Task_Scheduled = true)
    (fuel : Nat) (tid : Int) (immediate : Bool) (p : PeriodicTaskPrivate) :
    ChangesWithin T p ((PeriodicTask.startRun fuel tid immediate p).record Outcome.task) := by
  have h := changesWithin_stopRun T hT1 hT2 hT3 fuel tid p
  unfold PeriodicTask.startRun
  split
  · exact changesWithin_refl T p
  · split
    · exact changesWithin_refl T p
    · split
      · exact changesWithin_refl T p
      · cases hq : PeriodicTask.stopRun fuel tid p with
        | spinning s =>
          rw [hq] at h
          exact h
        | done q =>
          rw [hq] at h
          have h1 := changesWithin_setIfEquals T q Task_Stopped Task_Starting (by simp [hT4])
          have h2 := changesWithin_setIfEquals T (setIfEquals q Task_Stopped Task_Starting).2
            Task_Starting Task_Rescheduling (by simp [hT5])
          simp only
          split
          · refine changesWithin_trans h (changesWithin_trans h1 ?_)
            simp only [Run.record, Outcome.task]
            split
            · exact changesWithin_trans h2 (changesWithin_reschedule T hT6 _ _)
            · exact changesWithin_trans h2 (changesWithin_trans (changesWithin_emit T _ _ (by rfl))
                (changesWithin_reschedule T hT6 _ _))
          · exact changesWithin_trans h h1

theorem trigger_pairs (T : TaskState → TaskState → Bool) :
    ∀ pr ∈ [(Task_Stopped, Task_Stopped), (Task_Stopping, Task_Stopping),
        (Task_Starting, Task_Starting), (Task_Running, Task_Running),
        (Task_Rescheduling, Task_Rescheduling), (Task_Triggering, Task_Triggering),
        (Task_TriggerReady, Task_TriggerReady)],
      (pr.1 == pr.2 || T pr.1 pr.2) = true := by
  intro pr hpr
  simp only [List.mem_cons, List.mem_singleton, List.not_mem_nil, or_false] at hpr
  rcases hpr with rfl | rfl | rfl | rfl | rfl | rfl | rfl <;> simp

theorem changesWithin_triggerRun (T : TaskState → TaskState → Bool)
    (hT1 : T Task_Scheduled Task_Triggering = true)
    (hT2 : T Task_Triggering Task_TriggerReady = true) (fuel : Nat) :
    ∀ p : PeriodicTaskPrivate,
      ChangesWithin T p ((PeriodicTask.triggerRun fuel p).record id) := by
  have key : ∀ p : PeriodicTaskPrivate,
      ChangesWithin T p (setIfEquals (setIfEqualsAny p
        [(Task_Stopped, Task_Stopped), (Task_Stopping, Task_Stopping),
         (Task_Starting, Task_Starting), (Task_Running, Task_Running),
         (Task_Rescheduling, Task_Rescheduling), (Task_Triggering, Task_Triggering),
         (Task_TriggerReady, Task_TriggerReady)]).2 Task_Scheduled Task_Triggering).2 :=
    fun p => changesWithin_trans (changesWithin_setIfEqualsAny T _ p (trigger_pairs T))
      (changesWithin_setIfEquals T _ _ _ (by simp [hT1]))
  have fin : ∀ q : PeriodicTaskPrivate,
      ChangesWithin T q (setIfEquals (emit (emit q (Event.cancel q._task))
        (Event.connect (emit q (Event.cancel q._task))._task))
        Task_Triggering Task_TriggerReady).2 :=
    fun q => changesWithin_trans (changesWithin_emit T q _ (by rfl))
      (changesWithin_trans (changesWithin_emit T _ _ (by rfl))
        (changesWithin_setIfEquals T _ _ _ (by simp [hT2])))
  induction fuel with
  | zero =>
    intro p
    unfold PeriodicTask.triggerRun
    simp only
    split
    · exact changesWithin_setIfEqualsAny T _ p (trigger_pairs T)
    · split
      · exact changesWithin_trans (key p) (fin _)
      · exact key p
  | succ n ih =>
    intro p
    unfold PeriodicTask.triggerRun
    simp only
    split
    · exact changesWithin_setIfEqualsAny T _ p (trigger_pairs T)
    · split
      · exact changesWithin_trans (key p) (fin _)
      · exact changesWithin_trans (key p) (ih _)

theorem changesWithin_wrapEnterRun (T : TaskState → TaskState → Bool)
    (hT1 : T Task_Stopping Task_Stopped = true) (hT2 : T Task_Scheduled Task_Running = true)
    (fuel : Nat) (tid : Int) (p : PeriodicTaskPrivate) :
    ChangesWithin T p ((PeriodicTask._wrapEnterRun fuel tid p).record Entered.task) := by
  have h0 : ChangesWithin T p (if p._state = Task_Stopped then emit p Event.logError else p) := by
    split
    · exact changesWithin_emit T p _ (by rfl)
    · exact changesWithin_refl T p
  unfold PeriodicTask._wrapEnterRun
  simp only
  generalize (if p._state = Task_Stopped then emit p Event.logError else p) = p0 at h0
  have h1 := changesWithin_trans h0
    (changesWithin_setIfEquals T p0 Task_Stopping Task_Stopped (by simp [hT1]))
  have h2 := changesWithin_yieldWhileRun T fuel Task_Rescheduling
    (setIfEquals p0 Task_Stopping Task_Stopped).2
  by_cases hr : (setIfEquals p0 Task_Stopping Task_Stopped).1 = true
  · rw [if_pos hr]
    exact h1
  · rw [if_neg hr]
    cases hq : yieldWhileRun fuel Task_Rescheduling
        (setIfEquals p0 Task_Stopping Task_Stopped).2 with
    | spinning s =>
      rw [hq] at h2
      exact changesWithin_trans h1 h2
    | done q =>
      rw [hq] at h2
      have h3 := changesWithin_setIfEqualsAny T
        [(Task_Scheduled, Task_Running), (Task_Triggering, Task_Triggering),
         (Task_TriggerReady, Task_TriggerReady)] q (by simp [hT2])
      have h4 := changesWithin_trans h1 (changesWithin_trans h2 h3)
      simp only
      by_cases hr2 : (setIfEqualsAny q
          [(Task_Scheduled, Task_Running), (Task_Triggering, Task_Triggering),
           (Task_TriggerReady, Task_TriggerReady)]).1 = true
      · rw [if_pos hr2]
        exact changesWithin_trans h4 (changesWithin_of_trace_eq T rfl)
      · rw [if_neg hr2]
        have h5 := changesWithin_setStateSpinRun T Task_Stopping Task_Stopped (by simp [hT1])
          fuel 0 (setIfEqualsAny q
            [(Task_Scheduled, Task_Running), (Task_Triggering, Task_Triggering),
             (Task_TriggerReady, Task_TriggerReady)]).2
        unfold setStateRun
        cases hq2 : setStateSpinRun fuel 0 (setIfEqualsAny q
            [(Task_Scheduled, Task_Running), (Task_Triggering, Task_Triggering),
             (Task_TriggerReady, Task_TriggerReady)]).2 Task_Stopping Task_Stopped with
        | spinning s =>
          rw [hq2] at h5
          exact changesWithin_trans h4 h5
        | done q2 =>
          rw [hq2] at h5
          exact changesWithin_trans h4 h5

theorem changesWithin_wrapLeaveRun (T : TaskState → TaskState → Bool)
    (hT1 : T Task_Stopping Task_Stopped = true) (hT2 : T Task_Running Task_Stopped = true)
    (hT3 : T Task_Running Task_Rescheduling = true)
    (hT4 : T Task_TriggerReady Task_Rescheduling = true)
    (hT5 : T Task_Rescheduling Task_Scheduled = true)
    (fuel : Nat) (compensate : Bool) (start : Int) (cpu : Int × Int)
    (res : CallbackResult) (p : PeriodicTaskPrivate) :
    ChangesWithin T p
      ((PeriodicTask._wrapLeaveRun fuel compensate start cpu res p).record id) := by
  unfold PeriodicTask._wrapLeaveRun
  cases res with
  | threw =>
    exact changesWithin_trans (changesWithin_emit T p _ (by rfl))
      (changesWithin_setStateSpin2Run T _ _ _ _ (by simp [hT1]) (by simp [hT2]) fuel 0 _)
  | finished now cpu2 =>
    have h1 : ChangesWithin T p
        (PeriodicTask.pushStats now (now - start) (cpu2.1 - cpu.1) (cpu2.2 - cpu.2)
          { p with _tid := invalidThreadId }) :=
      changesWithin_trans (changesWithin_of_trace_eq T
        (show ({ p with _tid := invalidThreadId } : PeriodicTaskPrivate).trace = p.trace from rfl))
        (changesWithin_pushStats T _ _ _ _ _)
    have h2 := changesWithin_yieldWhileRun T fuel Task_Triggering
      (PeriodicTask.pushStats now (now - start) (cpu2.1 - cpu.1) (cpu2.2 - cpu.2)
          { p with _tid := invalidThreadId })
    simp only
    cases hq : yieldWhileRun fuel Task_Triggering
        (PeriodicTask.pushStats now (now - start) (cpu2.1 - cpu.1) (cpu2.2 - cpu.2)
          { p with _tid := invalidThreadId }) with
    | spinning s =>
      rw [hq] at h2
      exact changesWithin_trans h1 h2
    | done q =>
      rw [hq] at h2
      have h3 := changesWithin_setIfEqualsAny T
        [(Task_Running, Task_Rescheduling), (Task_TriggerReady, Task_Rescheduling)] q (by
          intro pr hpr
          simp only [List.mem_cons, List.mem_singleton, List.not_mem_nil, or_false] at hpr
          rcases hpr with rfl | rfl <;> simp [hT3, hT4])
      have h4 := changesWithin_trans h1 (changesWithin_trans h2 h3)
      simp only
      split
      · exact changesWithin_trans h4 (changesWithin_reschedule T hT5 _ _)
      · exact changesWithin_trans h4
          (changesWithin_setStateSpinRun T _ _ (by simp [hT1]) fuel 0 _)

theorem changesWithin_wrapRun (T : TaskState → TaskState → Bool)
    (hT1 : T Task_Stopping Task_Stopped = true) (hT2 : T Task_Scheduled Task_Running = true)
    (hT3 : T Task_Running Task_Stopped = true) (hT4 : T Task_Running Task_Rescheduling = true)
    (hT5 : T Task_TriggerReady Task_Rescheduling = true)
    (hT6 : T Task_Rescheduling Task_Scheduled = true)
    (fuel : Nat) (tid : Int) (cb : CallbackRun) (p : PeriodicTaskPrivate)
    (hcb : ∀ x, ChangesWithin T x (cb.during x)) :
    ChangesWithin T p ((PeriodicTask._wrapRun fuel tid cb p).record id) := by
  have h := changesWithin_wrapEnterRun T hT1 hT2 fuel tid p
  unfold PeriodicTask._wrapRun
  cases hq : PeriodicTask._wrapEnterRun fuel tid p with
  | spinning s =>
    rw [hq] at h
    exact h
  | done e =>
    rw [hq] at h
    cases e with
    | returned q => exact h
    | invoking compensate q =>
      simp only
      cases hc : q._callback with
      | none =>
        exact changesWithin_trans h
          (changesWithin_wrapLeaveRun T hT1 hT3 hT4 hT5 hT6 fuel _ _ _ _ _)
      | some c =>
        exact changesWithin_trans h (changesWithin_trans (changesWithin_emit T q _ (by rfl))
          (changesWithin_trans (hcb _)
            (changesWithin_wrapLeaveRun T hT1 hT3 hT4 hT5 hT6 fuel _ _ _ _ _)))

/-! ## Lemmas on the name-keyed map -/

theorem lookup_append_of_none {α : Type} (key : String) (v : α) :
    ∀ l : List (String × α), l.lookup key = none → (l ++ [(key, v)]).lookup key = some v := by
  intro l
  induction l with
  | nil => intro _; simp [List.lookup]
  | cons e rest ih =>
    intro h
    obtain ⟨k, w⟩ := e
    by_cases hk : key = k
    · subst hk
      simp [List.lookup] at h
    · have hb : (key == k) = false := by simpa using hk
      simp only [List.cons_append, List.lookup, hb] at h ⊢
      exact ih h

theorem MutexedNameLookup.get_set_of_absent {α : Type} (m : MutexedNameLookup α) (key : String)
    (v : α) (h : m.get key = none) : (m.set key v).get key = some v := by
  unfold MutexedNameLookup.set MutexedNameLookup.contains
  simp only [h, Option.isSome_none, Bool.false_eq_true, if_false]
  exact lookup_append_of_none key v m.entries h

theorem registerService_of_owned (sig id owner : String) (m : MasterImpl)
    (h : m._knownServices.get sig = some owner) :
    (MasterImpl.registerService sig id m)._knownServices = m._knownServices := by
  unfold MasterImpl.registerService
  split
  · simp only [h]
    split <;> rfl
  · rfl

theorem registerService_of_free (sig id : String) (m : MasterImpl)
    (hid : m._knownEndpoints.contains id = true) (h : m._knownServices.get sig = none) :
    (MasterImpl.registerService sig id m)._knownServices.get sig = some id := by
  unfold MasterImpl.registerService
  simp only [hid, if_true, h]
  exact MutexedNameLookup.get_set_of_absent _ sig id h

theorem registerService_endpoints (sig id : String) (m : MasterImpl) :
    (MasterImpl.registerService sig id m)._knownEndpoints = m._knownEndpoints := by
  unfold MasterImpl.registerService
  split
  · split
    · rfl
    · split <;> rfl
  · rfl

theorem trigger_of_scheduled (fuel : Nat) (p : PeriodicTaskPrivate)
    (hst : p._state = Task_Scheduled) :
    PeriodicTask.trigger fuel p = some
      { p with
        _state := Task_TriggerReady
        trace := p.trace ++
          [Event.setIfEquals Task_Stopped Task_Stopped false,
           Event.setIfEquals Task_Stopping Task_Stopping false,
           Event.setIfEquals Task_Starting Task_Starting false,
           Event.setIfEquals Task_Running Task_Running false,
           Event.setIfEquals Task_Rescheduling Task_Rescheduling false,
           Event.setIfEquals Task_Triggering Task_Triggering false,
           Event.setIfEquals Task_TriggerReady Task_TriggerReady false,
           Event.setIfEquals Task_Scheduled Task_Triggering true,
           Event.cancel p._task,
           Event.connect p._task,
           Event.setIfEquals Task_Triggering Task_TriggerReady true] } := by
  obtain ⟨cs, sdt, cb, sc, per, st, task, name, comp, ptid, tr, futs⟩ := p
  simp only at hst
  subst hst
  unfold PeriodicTask.trigger
  simp [setIfEquals, setIfEqualsAny, emit]

theorem trigger_of_other (fuel : Nat) (p : PeriodicTaskPrivate)
    (hst : p._state ≠ Task_Scheduled) :
    ∃ evs, PeriodicTask.trigger fuel p = some { p with trace := p.trace ++ evs } ∧
      evs.length ≤ 7 ∧ ∀ e ∈ evs, ∃ s ok, e = Event.setIfEquals s s ok := by
  obtain ⟨cs, sdt, cb, sc, per, st, task, name, comp, ptid, tr, futs⟩ := p
  simp only at hst
  have key : ∀ n : Nat, n < 7 →
      (([Task_Stopped, Task_Stopping, Task_Starting, Task_Running, Task_Rescheduling,
          Task_Triggering, Task_TriggerReady].take n).map (fun s => Event.setIfEquals s s false)
          ++ [Event.setIfEquals st st true]).length ≤ 7 ∧
      ∀ e ∈ ([Task_Stopped, Task_Stopping, Task_Starting, Task_Running, Task_Rescheduling,
          Task_Triggering, Task_TriggerReady].take n).map (fun s => Event.setIfEquals s s false)
          ++ [Event.setIfEquals st st true], ∃ s ok, e = Event.setIfEquals s s ok := by
    intro n hn
    constructor
    · simp only [List.length_append, List.length_map, List.length_take, List.length_cons,
        List.length_nil]
      omega
    · intro e he
      rcases List.mem_append.mp he with h | h
      · obtain ⟨s, _, rfl⟩ := List.mem_map.mp h
        exact ⟨s, false, rfl⟩
      · exact ⟨st, true, by simpa using h⟩
  cases st
  case Task_Scheduled => exact absurd rfl hst
  case Task_Stopped =>
    exact ⟨_, by unfold PeriodicTask.trigger; simp [setIfEquals, setIfEqualsAny, emit],
      key 0 (by decide)⟩
  case Task_Stopping =>
    exact ⟨_, by unfold PeriodicTask.trigger; simp [setIfEquals, setIfEqualsAny, emit],
      key 1 (by decide)⟩
  case Task_Starting =>
    exact ⟨_, by unfold PeriodicTask.trigger; simp [setIfEquals, setIfEqualsAny, emit],
      key 2 (by decide)⟩
  case Task_Running =>
    exact ⟨_, by unfold PeriodicTask.trigger; simp [setIfEquals, setIfEqualsAny, emit],
      key 3 (by decide)⟩
  case Task_Rescheduling =>
    exact ⟨_, by unfold PeriodicTask.trigger; simp [setIfEquals, setIfEqualsAny, emit],
      key 4 (by decide)⟩
  case Task_Triggering =>
    exact ⟨_, by unfold PeriodicTask.trigger; simp [setIfEquals, setIfEqualsAny, emit],
      key 5 (by decide)⟩
  case Task_TriggerReady =>
    exact ⟨_, by unfold PeriodicTask.trigger; simp [setIfEquals, setIfEqualsAny, emit],
      key 6 (by decide)⟩

theorem pushStats_state (now : Int) (delta : Duration) (usr sys : Int) (p : PeriodicTaskPrivate) :
    (PeriodicTask.pushStats now delta usr sys p)._state = p._state := by
  unfold PeriodicTask.pushStats
  simp only
  split <;> rfl

theorem pushStats_trace (now : Int) (delta : Duration) (usr sys : Int) (p : PeriodicTaskPrivate) :
    (PeriodicTask.pushStats now delta usr sys p).trace = p.trace ++ [Event.push delta usr sys] := by
  unfold PeriodicTask.pushStats
  simp only
  split <;> rfl

theorem trigger_fuel_irrelevant (fuel : Nat) (p : PeriodicTaskPrivate) :
    PeriodicTask.trigger fuel p = PeriodicTask.trigger 0 p := by
  obtain ⟨cs, sdt, cb, sc, per, st, task, name, comp, ptid, tr, futs⟩ := p
  cases st <;> unfold PeriodicTask.trigger <;> simp [setIfEquals, setIfEqualsAny, emit]

/-! ## Lemmas on messages and functors -/

theorem read_cons {V T : Type} [qi.serialize V T] (t : T) (rest : List V) :
    qi.serialize.read T { data := qi.serialize.enc t :: rest } = some (t, { data := rest }) := by
  simp [qi.serialize.read, qi.serialize.dec_enc]

theorem Functor_0_call {V σ : Type}
    (QI_FUNCTOR_ASSUME_NBR_PARAMS : qi.Message V → Nat → Bool)
    (hassume : ∀ (msg : qi.Message V) (n : Nat), msg.data.length = n →
      QI_FUNCTOR_ASSUME_NBR_PARAMS msg n = true)
    (fFunction : σ → σ)
    (result : qi.Message V) (w : σ) :
    (qi.Functor_0 QI_FUNCTOR_ASSUME_NBR_PARAMS fFunction).call
        { data := [] } result w =
      some (fFunction w, { data := [] }, result) := by
  have h := hassume { data := [] } 0 rfl
  simp only [qi.Functor_0, h, if_true, read_cons, Option.some_bind]

theorem Functor_1_call {V σ P0 : Type}
    [qi.serialize V P0]
    (QI_FUNCTOR_ASSUME_NBR_PARAMS : qi.Message V → Nat → Bool)
    (hassume : ∀ (msg : qi.Message V) (n : Nat), msg.data.length = n →
      QI_FUNCTOR_ASSUME_NBR_PARAMS msg n = true)
    (fFunction : P0 → σ → σ)
    (result : qi.Message V) (w : σ) (p0 : P0) :
    (qi.Functor_1 QI_FUNCTOR_ASSUME_NBR_PARAMS fFunction).call
        { data := [qi.serialize.enc p0] } result w =
      some (fFunction p0 w, { data := [] }, result) := by
  have h := hassume { data := [qi.serialize.enc p0] } 1 rfl
  simp only [qi.Functor_1, h, if_true, read_cons, Option.some_bind]

theorem Functor_2_call {V σ P0 P1 : Type}
    [qi.serialize V P0] [qi.serialize V P1]
    (QI_FUNCTOR_ASSUME_NBR_PARAMS : qi.Message V → Nat → Bool)
    (hassume : ∀ (msg : qi.Message V) (n : Nat), msg.data.length = n →
      QI_FUNCTOR_ASSUME_NBR_PARAMS msg n = true)
    (fFunction : P0 → P1 → σ → σ)
    (result : qi.Message V) (w : σ) (p0 : P0) (p1 : P1) :
    (qi.Functor_2 QI_FUNCTOR_ASSUME_NBR_PARAMS fFunction).call
        { data := [qi.serialize.enc p0, qi.serialize.enc p1] } result w =
      some (fFunction p0 p1 w, { data := [] }, result) := by
  have h := hassume { data := [qi.serialize.enc p0, qi.serialize.enc p1] } 2 rfl
  simp only [qi.Functor_2, h, if_true, read_cons, Option.some_bind]

theorem Functor_3_call {V σ P0 P1 P2 : Type}
    [qi.serialize V P0] [qi.serialize V P1] [qi.serialize V P2]
    (QI_FUNCTOR_ASSUME_NBR_PARAMS : qi.Message V → Nat → Bool)
    (hassume : ∀ (msg : qi.Message V) (n : Nat), msg.data.length = n →
      QI_FUNCTOR_ASSUME_NBR_PARAMS msg n = true)
    (fFunction : P0 → P1 → P2 → σ → σ)
    (result : qi.Message V) (w : σ) (p0 : P0) (p1 : P1) (p2 : P2) :
    (qi.Functor_3 QI_FUNCTOR_ASSUME_NBR_PARAMS fFunction).call
        { data := [qi.serialize.enc p0, qi.serialize.enc p1, qi.serialize.enc p2] } result w =
      some (fFunction p0 p1 p2 w, { data := [] }, result) := by
  have h := hassume { data := [qi.serialize.enc p0, qi.serialize.enc p1, qi.serialize.enc p2] } 3 rfl
  simp only [qi.Functor_3, h, if_true, read_cons, Option.some_bind]

theorem Functor_4_call {V σ P0 P1 P2 P3 : Type}
    [qi.serialize V P0] [qi.serialize V P1] [qi.serialize V P2] [qi.serialize V P3]
    (QI_FUNCTOR_ASSUME_NBR_PARAMS : qi.Message V → Nat → Bool)
    (hassume : ∀ (msg : qi.Message V) (n : Nat), msg.data.length = n →
      QI_FUNCTOR_ASSUME_NBR_PARAMS msg n = true)
    (fFunction : P0 → P1 → P2 → P3 → σ → σ)
    (result : qi.Message V) (w : σ) (p0 : P0) (p1 : P1) (p2 : P2) (p3 : P3) :
    (qi.Functor_4 QI_FUNCTOR_ASSUME_NBR_PARAMS fFunction).call
        { data := [qi.serialize.enc p0, qi.serialize.enc p1, qi.serialize.enc p2,
          qi.serialize.enc p3] } result w =
      some (fFunction p0 p1 p2 p3 w, { data := [] }, result) := by
  have h := hassume { data := [qi.serialize.enc p0, qi.serialize.enc p1, qi.serialize.enc p2,
    qi.serialize.enc p3] } 4 rfl
  simp only [qi.Functor_4, h, if_true, read_cons, Option.some_bind]

theorem Functor_5_call {V σ P0 P1 P2 P3 P4 : Type}
    [qi.serialize V P0] [qi.serialize V P1] [qi.serialize V P2] [qi.serialize V P3]
    [qi.serialize V P4]
    (QI_FUNCTOR_ASSUME_NBR_PARAMS : qi.Message V → Nat → Bool)
    (hassume : ∀ (msg : qi.Message V) (n : Nat), msg.data.length = n →
      QI_FUNCTOR_ASSUME_NBR_PARAMS msg n = true)
    (fFunction : P0 → P1 → P2 → P3 → P4 → σ → σ)
    (result : qi.Message V) (w : σ) (p0 : P0) (p1 : P1) (p2 : P2) (p3 : P3) (p4 : P4) :
    (qi.Functor_5 QI_FUNCTOR_ASSUME_NBR_PARAMS fFunction).call
        { data := [qi.serialize.enc p0, qi.serialize.enc p1, qi.serialize.enc p2,
          qi.serialize.enc p3, qi.serialize.enc p4] } result w =
      some (fFunction p0 p1 p2 p3 p4 w, { data := [] }, result) := by
  have h := hassume { data := [qi.serialize.enc p0, qi.serialize.enc p1, qi.serialize.enc p2,
    qi.serialize.enc p3, qi.serialize.enc p4] } 5 rfl
  simp only [qi.Functor_5, h, if_true, read_cons, Option.some_bind]

theorem Functor_6_call {V σ P0 P1 P2 P3 P4 P5 : Type}
    [qi.serialize V P0] [qi.serialize V P1] [qi.serialize V P2] [qi.serialize V P3]
    [qi.serialize V P4] [qi.serialize V P5]
    (QI_FUNCTOR_ASSUME_NBR_PARAMS : qi.Message V → Nat → Bool)
    (hassume : ∀ (msg : qi.Message V) (n : Nat), msg.data.length = n →
      QI_FUNCTOR_ASSUME_NBR_PARAMS msg n = true)
    (fFunction : P0 → P1 → P2 → P3 → P4 → P5 → σ → σ)
    (result : qi.Message V) (w : σ) (p0 : P0) (p1 : P1) (p2 : P2) (p3 : P3) (p4 : P4) (p5 : P5) :
    (qi.Functor_6 QI_FUNCTOR_ASSUME_NBR_PARAMS fFunction).call
        { data := [qi.serialize.enc p0, qi.serialize.enc p1, qi.serialize.enc p2,
          qi.serialize.enc p3, qi.serialize.enc p4, qi.serialize.enc p5] } result w =
      some (fFunction p0 p1 p2 p3 p4 p5 w, { data := [] }, result) := by
  have h := hassume { data := [qi.serialize.enc p0, qi.serialize.enc p1, qi.serialize.enc p2,
    qi.serialize.enc p3, qi.serialize.enc p4, qi.serialize.enc p5] } 6 rfl
  simp only [qi.Functor_6, h, if_true, read_cons, Option.some_bind]

theorem Functor_7_call {V σ P0 P1 P2 P3 P4 P5 P6 : Type}
    [qi.serialize V P0] [qi.serialize V P1] [qi.serialize V P2] [qi.serialize V P3]
    [qi.serialize V P4] [qi.serialize V P5] [qi.serialize V P6]
    (QI_FUNCTOR_ASSUME_NBR_PARAMS : qi.Message V → Nat → Bool)
    (hassume : ∀ (msg : qi.Message V) (n : Nat), msg.data.length = n →
      QI_FUNCTOR_ASSUME_NBR_PARAMS msg n = true)
    (fFunction : P0 → P1 → P2 → P3 → P4 → P5 → P6 → σ → σ)
    (result : qi.Message V) (w : σ) (p0 : P0) (p1 : P1) (p2 : P2) (p3 : P3) (p4 : P4) (p5 : P5) (p6 : P6) :
    (qi.Functor_7 QI_FUNCTOR_ASSUME_NBR_PARAMS fFunction).call
        { data := [qi.serialize.enc p0, qi.serialize.enc p1, qi.serialize.enc p2,
          qi.serialize.enc p3, qi.serialize.enc p4, qi.serialize.enc p5,
          qi.serialize.enc p6] } result w =
      some (fFunction p0 p1 p2 p3 p4 p5 p6 w, { data := [] }, result) := by
  have h := hassume { data := [qi.serialize.enc p0, qi.serialize.enc p1, qi.serialize.enc p2,
    qi.serialize.enc p3, qi.serialize.enc p4, qi.serialize.enc p5,
    qi.serialize.enc p6] } 7 rfl
  simp only [qi.Functor_7, h, if_true, read_cons, Option.some_bind]

theorem Functor_8_call {V σ P0 P1 P2 P3 P4 P5 P6 P7 : Type}
    [qi.serialize V P0] [qi.serialize V P1] [qi.serialize V P2] [qi.serialize V P3]
    [qi.serialize V P4] [qi.serialize V P5] [qi.serialize V P6] [qi.serialize V P7]
    (QI_FUNCTOR_ASSUME_NBR_PARAMS : qi.Message V → Nat → Bool)
    (hassume : ∀ (msg : qi.Message V) (n : Nat), msg.data.length = n →
      QI_FUNCTOR_ASSUME_NBR_PARAMS msg n = true)
    (fFunction : P0 → P1 → P2 → P3 → P4 → P5 → P6 → P7 → σ → σ)
    (result : qi.Message V) (w : σ) (p0 : P0) (p1 : P1) (p2 : P2) (p3 : P3) (p4 : P4) (p5 : P5) (p6 : P6) (p7 : P7) :
    (qi.Functor_8 QI_FUNCTOR_ASSUME_NBR_PARAMS fFunction).call
        { data := [qi.serialize.enc p0, qi.serialize.enc p1, qi.serialize.enc p2,
          qi.serialize.enc p3, qi.serialize.enc p4, qi.serialize.enc p5,
          qi.serialize.enc p6, qi.serialize.enc p7] } result w =
      some (fFunction p0 p1 p2 p3 p4 p5 p6 p7 w, { data := [] }, result) := by
  have h := hassume { data := [qi.serialize.enc p0, qi.serialize.enc p1, qi.serialize.enc p2,
    qi.serialize.enc p3, qi.serialize.enc p4, qi.serialize.enc p5,
    qi.serialize.enc p6, qi.serialize.enc p7] } 8 rfl
  simp only [qi.Functor_8, h, if_true, read_cons, Option.some_bind]

theorem Functor_9_call {V σ P0 P1 P2 P3 P4 P5 P6 P7 P8 : Type}
    [qi.serialize V P0] [qi.serialize V P1] [qi.serialize V P2] [qi.serialize V P3]
    [qi.serialize V P4] [qi.serialize V P5] [qi.serialize V P6] [qi.serialize V P7]
    [qi.serialize V P8]
    (QI_FUNCTOR_ASSUME_NBR_PARAMS : qi.Message V → Nat → Bool)
    (hassume : ∀ (msg : qi.Message V) (n : Nat), msg.data.length = n →
      QI_FUNCTOR_ASSUME_NBR_PARAMS msg n = true)
    (fFunction : P0 → P1 → P2 → P3 → P4 → P5 → P6 → P7 → P8 → σ → σ)
    (result : qi.Message V) (w : σ) (p0 : P0) (p1 : P1) (p2 : P2) (p3 : P3) (p4 : P4) (p5 : P5) (p6 : P6) (p7 : P7) (p8 : P8) :
    (qi.Functor_9 QI_FUNCTOR_ASSUME_NBR_PARAMS fFunction).call
        { data := [qi.serialize.enc p0, qi.serialize.enc p1, qi.serialize.enc p2,
          qi.serialize.enc p3, qi.serialize.enc p4, qi.serialize.enc p5,
          qi.serialize.enc p6, qi.serialize.enc p7, qi.serialize.enc p8] } result w =
      some (fFunction p0 p1 p2 p3 p4 p5 p6 p7 p8 w, { data := [] }, result) := by
  have h := hassume { data := [qi.serialize.enc p0, qi.serialize.enc p1, qi.serialize.enc p2,
    qi.serialize.enc p3, qi.serialize.enc p4, qi.serialize.enc p5,
    qi.serialize.enc p6, qi.serialize.enc p7, qi.serialize.enc p8] } 9 rfl
  simp only [qi.Functor_9, h, if_true, read_cons, Option.some_bind]

/-! ## Lemmas on endpoints and registrations -/

theorem lookup_none_filter {α : Type} (key : String) :
    ∀ l : List (String × α), l.lookup key = none → l.filter (fun e => e.1 != key) = l := by
  intro l
  induction l with
  | nil => intro _; rfl
  | cons e rest ih =>
    intro h
    obtain ⟨k, w⟩ := e
    by_cases hk : key = k
    · subst hk
      simp [List.lookup] at h
    · have hb : (key == k) = false := by simpa using hk
      simp only [List.lookup, hb] at h
      have hk2 : (k != key) = true := by
        simp only [bne_iff_ne, ne_eq]
        exact fun h2 => hk h2.symm
      simp only [List.filter, hk2]
      rw [ih h]

theorem remove_set_of_absent {α : Type} (m : MutexedNameLookup α) (key : String) (v : α)
    (h : m.get key = none) : (m.set key v).remove key = m := by
  unfold MutexedNameLookup.set MutexedNameLookup.contains MutexedNameLookup.remove
  simp only [h, Option.isSome_none, Bool.false_eq_true, if_false]
  have h2 := lookup_none_filter key m.entries h
  simp only [List.filter_append, h2]
  simp

theorem remove_of_absent {α : Type} (m : MutexedNameLookup α) (key : String)
    (h : m.get key = none) : m.remove key = m := by
  unfold MutexedNameLookup.remove
  rw [lookup_none_filter key m.entries h]

theorem registerTopic_endpoints (topicName id : String) (m : MasterImpl) :
    (MasterImpl.registerTopic topicName id m)._knownEndpoints = m._knownEndpoints := by
  unfold MasterImpl.registerTopic
  split
  · split
    · rfl
    · split <;> rfl
  · rfl

theorem applyRegistrations_endpoints (regs : List Registration) :
    ∀ m : MasterImpl, (applyRegistrations regs m)._knownEndpoints = m._knownEndpoints := by
  induction regs with
  | nil => intro m; rfl
  | cons r rest ih =>
    intro m
    have h : applyRegistrations (r :: rest) m = applyRegistrations rest (r.apply m) := rfl
    rw [h, ih]
    cases r with
    | service s e => exact registerService_endpoints s e m
    | topic t e => exact registerTopic_endpoints t e m

theorem filterRemove_no_owner (m : MutexedNameLookup String) (id : String) :
    ∀ e ∈ (m.filterRemove (fun _ owner => owner == id)).entries, e.2 ≠ id := by
  intro e he
  unfold MutexedNameLookup.filterRemove at he
  simp only [List.mem_filter] at he
  simpa using he.2

/-! ## start, stop and trigger -/

/-- C1: for a task with a callback set, a period `P >= 0` and state Stopped, `start(immediate)`
called from a thread other than the callback's returns for every fuel; the state passes
through Starting and Rescheduling, exactly one scheduling request is issued, with delay `0`
when `immediate` and `P` otherwise, and the state is left Scheduled. -/
theorem C1_start_from_stopped (fuel : Nat) (tid : Int) (immediate : Bool)
    (p : PeriodicTaskPrivate) (hcb : p._callback.isSome = true) (hper : 0 ≤ p._period)
    (hst : p._state = Task_Stopped) (htid : tid ≠ p._tid) :
    PeriodicTask.start fuel tid immediate p = some (Outcome.returned
      { p with
        _state := Task_Scheduled
        _task := p.futures + 1
        futures := p.futures + 1
        trace := p.trace ++
          [Event.setIfEquals Task_Stopped Task_Stopped true,
           Event.wait p._task,
           Event.setIfEquals Task_Stopping Task_Stopped false,
           Event.setIfEquals Task_Stopped Task_Stopped true,
           Event.setIfEquals Task_Stopped Task_Starting true,
           Event.setIfEquals Task_Starting Task_Rescheduling true,
           Event.async p._scheduleCallback (if immediate then 0 else p._period) (p.futures + 1),
           Event.setIfEquals Task_Rescheduling Task_Scheduled true] }) := by
  obtain ⟨cs, sdt, cb, sc, per, st, task, name, comp, ptid, tr, futs⟩ := p
  simp only at hcb hper hst htid
  subst hst
  have hper2 : ¬ per < 0 := not_lt.mpr hper
  cases cb with
  | none => simp at hcb
  | some c =>
    simp [PeriodicTask.start, PeriodicTask.stop, PeriodicTask.asyncStop, setIfEquals,
      setIfEqualsAny, emit, PeriodicTask._reschedule, PeriodicTask._rescheduleRelease,
      PeriodicTask._rescheduleAssign, hper2, htid]

/-- C1 at a concrete input: the configured sample task, started without `immediate` from
thread 7, ends Scheduled with one request of delay 50. -/
theorem C1_start_from_stopped_witness :
    ∃ q, PeriodicTask.start 0 7 false configuredTask = some (Outcome.returned q) ∧
      q._state = Task_Scheduled ∧
      q.trace.filter (fun e => e matches Event.async _ _ _) = [Event.async none 50 1] :=
  ⟨_, C1_start_from_stopped 0 7 false configuredTask (by decide) (by decide) rfl (by decide),
    rfl, by decide⟩

/-- C2: `stop()` called from a thread other than the callback's on a task whose state is
Stopped, Scheduled or Stopping returns with the state Stopped; from Scheduled the state
first becomes Stopping, then the pending future is cancelled, then it is waited on. -/
theorem C2_stop_reaches_stopped (fuel : Nat) (tid : Int) (p : PeriodicTaskPrivate)
    (htid : tid ≠ p._tid)
    (hst : p._state = Task_Stopped ∨ p._state = Task_Scheduled ∨ p._state = Task_Stopping) :
    ∃ q, PeriodicTask.stop fuel tid p = some q ∧ q._state = Task_Stopped ∧
      (p._state = Task_Scheduled →
        q.trace = p.trace ++
          [Event.setIfEquals Task_Stopped Task_Stopped false,
           Event.setIfEquals Task_Scheduled Task_Stopping true,
           Event.cancel p._task,
           Event.wait p._task,
           Event.setIfEquals Task_Stopping Task_Stopped true]) := by
  obtain ⟨cs, sdt, cb, sc, per, st, task, name, comp, ptid, tr, futs⟩ := p
  simp only at htid hst
  rcases hst with h | h | h <;> subst h
  · simp [PeriodicTask.stop, PeriodicTask.asyncStop, setIfEquals, setIfEqualsAny, emit, htid]
  · simp [PeriodicTask.stop, PeriodicTask.asyncStop, asyncStopSpin_of_ok, setIfEquals,
      setIfEqualsAny, emit, htid]
  · simp [PeriodicTask.stop, PeriodicTask.asyncStop, asyncStopSpin_of_ok, setIfEquals,
      setIfEqualsAny, emit, htid]

/-- C2 at a concrete input: stopping the scheduled sample task from thread 7. -/
theorem C2_stop_reaches_stopped_witness :
    ∃ q, PeriodicTask.stop 0 7 scheduledTask = some q ∧ q._state = Task_Stopped ∧
      q.trace =
        [Event.setIfEquals Task_Stopped Task_Stopped false,
         Event.setIfEquals Task_Scheduled Task_Stopping true,
         Event.cancel 1,
         Event.wait 1,
         Event.setIfEquals Task_Stopping Task_Stopped true] := by
  obtain ⟨q, h1, h2, h3⟩ :=
    C2_stop_reaches_stopped 0 7 scheduledTask (by decide) (Or.inr (Or.inl rfl))
  exact ⟨q, h1, h2, h3 rfl⟩

/-- C3: evaluation of `start()` on a configured task that is already running (state
Scheduled), called from a thread other than the callback's: the call of `stop()` at line
169 takes the state to Stopping and Stopped and cancels the pending future, after which
the task is started again, so that `_task` is replaced by a newly scheduled future. -/
theorem C3_start_on_scheduled_restarts (fuel : Nat) (tid : Int) (immediate : Bool)
    (p : PeriodicTaskPrivate) (hcb : p._callback.isSome = true) (hper : 0 ≤ p._period)
    (hst : p._state = Task_Scheduled) (htid : tid ≠ p._tid) :
    PeriodicTask.start fuel tid immediate p = some (Outcome.returned
      { p with
        _state := Task_Scheduled
        _task := p.futures + 1
        futures := p.futures + 1
        trace := p.trace ++
          [Event.setIfEquals Task_Stopped Task_Stopped false,
           Event.setIfEquals Task_Scheduled Task_Stopping true,
           Event.cancel p._task,
           Event.wait p._task,
           Event.setIfEquals Task_Stopping Task_Stopped true,
           Event.setIfEquals Task_Stopped Task_Starting true,
           Event.setIfEquals Task_Starting Task_Rescheduling true,
           Event.async p._scheduleCallback (if immediate then 0 else p._period) (p.futures + 1),
           Event.setIfEquals Task_Rescheduling Task_Scheduled true] }) := by
  obtain ⟨cs, sdt, cb, sc, per, st, task, name, comp, ptid, tr, futs⟩ := p
  simp only at hcb hper hst htid
  subst hst
  have hper2 : ¬ per < 0 := not_lt.mpr hper
  cases cb with
  | none => simp at hcb
  | some c =>
    simp [PeriodicTask.start, PeriodicTask.stop, PeriodicTask.asyncStop, asyncStopSpin_of_ok,
      setIfEquals, setIfEqualsAny, emit, PeriodicTask._reschedule, PeriodicTask._rescheduleRelease,
      PeriodicTask._rescheduleAssign, hper2, htid]

/-- C3 at a concrete input: `start()` from thread 7 on the scheduled sample task cancels
future 1, issues a new scheduling request and leaves future 2 in `_task`. -/
theorem C3_start_on_scheduled_restarts_witness :
    ∃ q, PeriodicTask.start 0 7 false scheduledTask = some (Outcome.returned q) ∧
      scheduledTask._task = 1 ∧ q._task = 2 ∧
      Event.cancel 1 ∈ q.trace ∧ Event.async none 50 2 ∈ q.trace :=
  ⟨_, C3_start_on_scheduled_restarts 0 7 false scheduledTask (by decide) (by decide) rfl
    (by decide), rfl, rfl, by decide, by decide⟩

/-- C4: in every state other than Scheduled, `trigger()` returns for every fuel and is a
no-op: the record is unchanged apart from the recorded compare-and-set attempts, each of
which has its target equal to its source; no cancel is issued and no handler is connected. -/
theorem C4_trigger_noop (fuel : Nat) (p : PeriodicTaskPrivate) (hst : p._state ≠ Task_Scheduled) :
    ∃ evs, PeriodicTask.trigger fuel p = some { p with trace := p.trace ++ evs } ∧
      ∀ e ∈ evs, ∃ s ok, e = Event.setIfEquals s s ok := by
  obtain ⟨cs, sdt, cb, sc, per, st, task, name, comp, ptid, tr, futs⟩ := p
  simp only at hst
  have key : ∀ n : Nat, n < 7 →
      ∀ e ∈ ([Task_Stopped, Task_Stopping, Task_Starting, Task_Running, Task_Rescheduling,
          Task_Triggering, Task_TriggerReady].take n).map (fun s => Event.setIfEquals s s false)
          ++ [Event.setIfEquals st st true], ∃ s ok, e = Event.setIfEquals s s ok := by
    intro n _ e he
    rcases List.mem_append.mp he with h | h
    · obtain ⟨s, _, rfl⟩ := List.mem_map.mp h
      exact ⟨s, false, rfl⟩
    · exact ⟨st, true, by simpa using h⟩
  cases st
  case Task_Scheduled => exact absurd rfl hst
  case Task_Stopped =>
    exact ⟨_, by unfold PeriodicTask.trigger; simp [setIfEquals, setIfEqualsAny, emit],
      key 0 (by decide)⟩
  case Task_Stopping =>
    exact ⟨_, by unfold PeriodicTask.trigger; simp [setIfEquals, setIfEqualsAny, emit],
      key 1 (by decide)⟩
  case Task_Starting =>
    exact ⟨_, by unfold PeriodicTask.trigger; simp [setIfEquals, setIfEqualsAny, emit],
      key 2 (by decide)⟩
  case Task_Running =>
    exact ⟨_, by unfold PeriodicTask.trigger; simp [setIfEquals, setIfEqualsAny, emit],
      key 3 (by decide)⟩
  case Task_Rescheduling =>
    exact ⟨_, by unfold PeriodicTask.trigger; simp [setIfEquals, setIfEqualsAny, emit],
      key 4 (by decide)⟩
  case Task_Triggering =>
    exact ⟨_, by unfold PeriodicTask.trigger; simp [setIfEquals, setIfEqualsAny, emit],
      key 5 (by decide)⟩
  case Task_TriggerReady =>
    exact ⟨_, by unfold PeriodicTask.trigger; simp [setIfEquals, setIfEqualsAny, emit],
      key 6 (by decide)⟩

/-- C4 at a concrete input: `trigger()` on the sample task in state Running. -/
theorem C4_trigger_noop_witness :
    ∃ evs, PeriodicTask.trigger 0 (taskIn Task_Running) =
        some { taskIn Task_Running with trace := (taskIn Task_Running).trace ++ evs } ∧
      ∀ e ∈ evs, ∃ s ok, e = Event.setIfEquals s s ok :=
  C4_trigger_noop 0 (taskIn Task_Running) (by decide)

/-- C5: on a task whose state is Scheduled, `trigger()` returns for every fuel, having in
this order set the state to Triggering, cancelled the pending future, connected the
`_trigger` handler to it and set the state to TriggerReady, which is the state on return. -/
theorem C5_trigger_from_scheduled (fuel : Nat) (p : PeriodicTaskPrivate)
    (hst : p._state = Task_Scheduled) :
    PeriodicTask.trigger fuel p = some
      { p with
        _state := Task_TriggerReady
        trace := p.trace ++
          [Event.setIfEquals Task_Stopped Task_Stopped false,
           Event.setIfEquals Task_Stopping Task_Stopping false,
           Event.setIfEquals Task_Starting Task_Starting false,
           Event.setIfEquals Task_Running Task_Running false,
           Event.setIfEquals Task_Rescheduling Task_Rescheduling false,
           Event.setIfEquals Task_Triggering Task_Triggering false,
           Event.setIfEquals Task_TriggerReady Task_TriggerReady false,
           Event.setIfEquals Task_Scheduled Task_Triggering true,
           Event.cancel p._task,
           Event.connect p._task,
           Event.setIfEquals Task_Triggering Task_TriggerReady true] } := by
  obtain ⟨cs, sdt, cb, sc, per, st, task, name, comp, ptid, tr, futs⟩ := p
  simp only at hst
  subst hst
  unfold PeriodicTask.trigger
  simp [setIfEquals, setIfEqualsAny, emit]

/-- C5 at a concrete input: `trigger()` on the scheduled sample task. -/
theorem C5_trigger_from_scheduled_witness :
    ∃ q, PeriodicTask.trigger 0 scheduledTask = some q ∧ q._state = Task_TriggerReady ∧
      q.trace.filter (fun e => e matches Event.setIfEquals _ _ true
          | Event.cancel _ | Event.connect _) =
        [Event.setIfEquals Task_Scheduled Task_Triggering true, Event.cancel 1,
         Event.connect 1, Event.setIfEquals Task_Triggering Task_TriggerReady true] :=
  ⟨_, C5_trigger_from_scheduled 0 scheduledTask rfl, rfl, by decide⟩

/-! ## The transition table and the wrapper -/

/-- C6, as amended: every change of the state cell made by `start`, `stop`, `asyncStop`,
`trigger`, `_trigger` and `_reschedule` is a transition of the spec's table; every change
made by `_wrap` and by the `setState` calls it makes is a transition of the table or the
transition Running -> Stopped of the abort path. For `_wrap` the changes made while the
callback executes are assumed to be of that kind as well. The first nine parts are about the
runs that return. The last seven are about every run, returning or not: whatever the fuel,
the events of the run up to its return, or up to the point where the fuel ran out inside a
loop, contain no other change; and the run that keeps the record returns what the
operation returns. -/
theorem C6_changes_in_table_or_abort (fuel : Nat) (tid : Int) (immediate canceled : Bool)
    (delay : Duration) (cb : CallbackRun) (p : PeriodicTaskPrivate) :
    (∀ o, PeriodicTask.start fuel tid immediate p = some o →
      ChangesWithin specTransition p o.task) ∧
    (∀ q, PeriodicTask.stop fuel tid p = some q → ChangesWithin specTransition p q) ∧
    (∀ q, PeriodicTask.asyncStop fuel p = some q → ChangesWithin specTransition p q) ∧
    (∀ q, PeriodicTask.trigger fuel p = some q → ChangesWithin specTransition p q) ∧
    ChangesWithin specTransition p (PeriodicTask._trigger canceled p) ∧
    ChangesWithin specTransition p (PeriodicTask._reschedule p delay) ∧
    (∀ q, setState fuel p Task_Stopping Task_Stopped = some q →
      ChangesWithin specTransition p q) ∧
    (∀ q, setState2 fuel p Task_Stopping Task_Stopped Task_Running Task_Stopped = some q →
      ChangesWithin codeTransition p q) ∧
    ((∀ x, ChangesWithin codeTransition x (cb.during x)) →
      ∀ q, PeriodicTask._wrap fuel tid cb p = some q → ChangesWithin codeTransition p q) ∧
    (ChangesWithin specTransition p
        ((PeriodicTask.startRun fuel tid immediate p).record Outcome.task) ∧
      (PeriodicTask.startRun fuel tid immediate p).toOption =
        PeriodicTask.start fuel tid immediate p) ∧
    (ChangesWithin specTransition p ((PeriodicTask.stopRun fuel tid p).record id) ∧
      (PeriodicTask.stopRun fuel tid p).toOption = PeriodicTask.stop fuel tid p) ∧
    (ChangesWithin specTransition p ((PeriodicTask.asyncStopRun fuel p).record id) ∧
      (PeriodicTask.asyncStopRun fuel p).toOption = PeriodicTask.asyncStop fuel p) ∧
    (ChangesWithin specTransition p ((PeriodicTask.triggerRun fuel p).record id) ∧
      (PeriodicTask.triggerRun fuel p).toOption = PeriodicTask.trigger fuel p) ∧
    (ChangesWithin specTransition p
        ((setStateRun fuel p Task_Stopping Task_Stopped).record id) ∧
      (setStateRun fuel p Task_Stopping Task_Stopped).toOption =
        setState fuel p Task_Stopping Task_Stopped) ∧
    (ChangesWithin codeTransition p
        ((setState2Run fuel p Task_Stopping Task_Stopped Task_Running Task_Stopped).record id) ∧
      (setState2Run fuel p Task_Stopping Task_Stopped Task_Running Task_Stopped).toOption =
        setState2 fuel p Task_Stopping Task_Stopped Task_Running Task_Stopped) ∧
    (((∀ x, ChangesWithin codeTransition x (cb.during x)) →
        ChangesWithin codeTransition p ((PeriodicTask._wrapRun fuel tid cb p).record id)) ∧
      (PeriodicTask._wrapRun fuel tid cb p).toOption = PeriodicTask._wrap fuel tid cb p) := by
  refine ⟨?_, ?_, ?_, ?_, ?_, ?_, ?_, ?_, ?_, ⟨?_, ?_⟩, ⟨?_, ?_⟩, ⟨?_, ?_⟩, ⟨?_, ?_⟩, ⟨?_, ?_⟩,
    ⟨?_, ?_⟩, ⟨?_, ?_⟩⟩
  · exact fun o h => changesWithin_start specTransition rfl rfl rfl rfl rfl rfl
      fuel tid immediate p o h
  · exact fun q h => changesWithin_stop specTransition rfl rfl rfl fuel tid p q h
  · exact fun q h => changesWithin_asyncStop specTransition rfl rfl fuel p q h
  · exact fun q h => changesWithin_trigger specTransition rfl rfl fuel p q h
  · exact changesWithin_trigger_handler specTransition rfl rfl rfl canceled p
  · exact changesWithin_reschedule specTransition rfl p delay
  · exact fun q h => changesWithin_setStateSpin specTransition fuel 0 p q
      Task_Stopping Task_Stopped rfl h
  · exact fun q h => changesWithin_setStateSpin2 codeTransition fuel 0 p q
      Task_Stopping Task_Stopped Task_Running Task_Stopped rfl rfl h
  · exact fun hcb q h => changesWithin_wrap codeTransition rfl rfl rfl rfl rfl rfl
      fuel tid cb p q hcb h
  · exact changesWithin_startRun specTransition rfl rfl rfl rfl rfl rfl fuel tid immediate p
  · exact startRun_toOption fuel tid immediate p
  · exact changesWithin_stopRun specTransition rfl rfl rfl fuel tid p
  · exact stopRun_toOption fuel tid p
  · exact changesWithin_asyncStopRun specTransition rfl rfl fuel p
  · exact asyncStopRun_toOption fuel p
  · exact changesWithin_triggerRun specTransition rfl rfl fuel p
  · exact triggerRun_toOption fuel p
  · exact changesWithin_setStateSpinRun specTransition Task_Stopping Task_Stopped rfl fuel 0 p
  · exact setStateSpinRun_toOption fuel Task_Stopping Task_Stopped 0 p
  · exact changesWithin_setStateSpin2Run codeTransition Task_Stopping Task_Stopped
      Task_Running Task_Stopped rfl rfl fuel 0 p
  · exact setStateSpin2Run_toOption fuel Task_Stopping Task_Stopped Task_Running Task_Stopped 0 p
  · exact fun hcb => changesWithin_wrapRun codeTransition rfl rfl rfl rfl rfl rfl
      fuel tid cb p hcb
  · exact wrapRun_toOption fuel tid cb p

/-- C6, as amended, at concrete inputs: the run of `_wrap` on the scheduled sample task
with a throwing callback, which returns; and the run of `_wrap` on the sample task in state
TriggerReady with a throwing callback, which is still spinning in the abort path after
three attempts, having made no change of the state cell. -/
theorem C6_changes_in_table_or_abort_witness :
    (∃ q, PeriodicTask._wrap 0 3 throwingRun scheduledTask = some q ∧
      ChangesWithin codeTransition scheduledTask q) ∧
    (∃ s, PeriodicTask._wrapRun 2 3 throwingRun (taskIn Task_TriggerReady) = Run.spinning s ∧
      s._state = Task_TriggerReady ∧
      ChangesWithin codeTransition (taskIn Task_TriggerReady) s) :=
  ⟨⟨_, rfl, (C6_changes_in_table_or_abort 0 3 false false 0 throwingRun scheduledTask).2.2.2.2.2.2.2.2.1
      (fun x => changesWithin_refl codeTransition x) _ rfl⟩,
   ⟨_, rfl, rfl,
    (C6_changes_in_table_or_abort 2 3 false false 0 throwingRun
      (taskIn Task_TriggerReady)).2.2.2.2.2.2.2.2.2.2.2.2.2.2.2.1
      (fun x => changesWithin_refl codeTransition x)⟩⟩

/-- C6, as stated, fails: when the callback of the scheduled sample task throws, `_wrap`
changes the cell from Running to Stopped, which is not a transition of the spec's table. -/
theorem C6_counterexample :
    ∃ q, PeriodicTask._wrap 0 3 throwingRun scheduledTask = some q ∧
      Event.setIfEquals Task_Running Task_Stopped true ∈ q.trace ∧
      specTransition Task_Running Task_Stopped = false ∧
      ¬ ChangesWithin specTransition scheduledTask q := by
  refine ⟨_, rfl, by decide, rfl, ?_⟩
  rintro ⟨evs, h1, h2⟩
  have hmem : Event.setIfEquals Task_Running Task_Stopped true ∈ evs := by
    have h3 : scheduledTask.trace = [] := rfl
    rw [h3, List.nil_append] at h1
    rw [← h1]
    decide
  have := h2 _ hmem
  simp [changeWithin, specTransition] at this

/-- C7: evaluation of `_wrap` at a triggered run whose callback throws. Entered with the
state TriggerReady or Triggering, `_wrap` calls the callback and then spins in the
two-transition `setState` of line 293, which accepts Stopping and Running only: for every
fuel the call has not returned, so the state Stopped is never reached. -/
theorem C7_throw_in_triggered_run_never_returns (fuel : Nat) :
    PeriodicTask._wrap fuel 3 throwingRun (taskIn Task_TriggerReady) = none ∧
    PeriodicTask._wrap fuel 3 throwingRun (taskIn Task_Triggering) = none := by
  constructor
  · have he : PeriodicTask._wrapEnter fuel 3 (taskIn Task_TriggerReady) =
        some (Entered.invoking false
          { taskIn Task_TriggerReady with
            _tid := 3
            trace := [Event.setIfEquals Task_Stopping Task_Stopped false,
              Event.setIfEquals Task_Scheduled Task_Running false,
              Event.setIfEquals Task_Triggering Task_Triggering false,
              Event.setIfEquals Task_TriggerReady Task_TriggerReady true] }) := by
      unfold PeriodicTask._wrapEnter
      simp [taskIn, configuredTask, PeriodicTask.new, setIfEquals, setIfEqualsAny, emit,
        yieldWhile_of_ne]
    unfold PeriodicTask._wrap
    rw [he]
    simp only [taskIn, configuredTask, PeriodicTask.new, throwingRun, id,
      PeriodicTask._wrapLeave, setState2]
    exact setStateSpin2_stuck fuel 0 _ _ _ _ _ (by simp) (by simp)
  · have he : PeriodicTask._wrapEnter fuel 3 (taskIn Task_Triggering) =
        some (Entered.invoking false
          { taskIn Task_Triggering with
            _tid := 3
            trace := [Event.setIfEquals Task_Stopping Task_Stopped false,
              Event.setIfEquals Task_Scheduled Task_Running false,
              Event.setIfEquals Task_Triggering Task_Triggering true] }) := by
      unfold PeriodicTask._wrapEnter
      simp [taskIn, configuredTask, PeriodicTask.new, setIfEquals, setIfEqualsAny, emit,
        yieldWhile_of_ne]
    unfold PeriodicTask._wrap
    rw [he]
    simp only [taskIn, configuredTask, PeriodicTask.new, throwingRun, id,
      PeriodicTask._wrapLeave, setState2]
    exact setStateSpin2_stuck fuel 0 _ _ _ _ _ (by simp) (by simp)

/-- C8: when `_wrap` begins while the state is Stopping, it returns for every fuel with the
state set to Stopped, having issued nothing but that compare-and-set: the user callback is
not called and no scheduling request is made. -/
theorem C8_wrap_on_stopping (fuel : Nat) (tid : Int) (cb : CallbackRun)
    (p : PeriodicTaskPrivate) (hst : p._state = Task_Stopping) :
    PeriodicTask._wrap fuel tid cb p = some
      { p with
        _state := Task_Stopped
        trace := p.trace ++ [Event.setIfEquals Task_Stopping Task_Stopped true] } := by
  obtain ⟨cs, sdt, cbk, sc, per, st, task, name, comp, ptid, tr, futs⟩ := p
  simp only at hst
  subst hst
  simp [PeriodicTask._wrap, PeriodicTask._wrapEnter, setIfEquals, emit]

/-- C8 at a concrete input: `_wrap` on the sample task in state Stopping. -/
theorem C8_wrap_on_stopping_witness :
    ∃ q, PeriodicTask._wrap 0 3 quietRun (taskIn Task_Stopping) = some q ∧
      q._state = Task_Stopped ∧
      q.trace = [Event.setIfEquals Task_Stopping Task_Stopped true] :=
  ⟨_, C8_wrap_on_stopping 0 3 quietRun (taskIn Task_Stopping) rfl, rfl, rfl⟩

/-- C9: `_wrap` entered on a Scheduled task with a callback; the callback returns normally
after `delta = now - start >= 0`, the state is Running at that point and the period `P` is
not negative. Then `_wrap` returns, having pushed the sample and issued one scheduling
request, whose delay is `max 0 (P - delta)` when `_compensateCallTime` was set on entry and
`P` when it was not, and lies between `0` and `P`; the state is left Scheduled. -/
theorem C9_reschedule_delay (fuel : Nat) (tid : Int) (cb : CallbackRun)
    (p r : PeriodicTaskPrivate) (c : Nat) (now : Int) (cpu2 : Int × Int)
    (hst : p._state = Task_Scheduled) (hcb : p._callback = some c)
    (hres : cb.result = CallbackResult.finished now cpu2)
    (hr : cb.during
      { p with
        _state := Task_Running
        _tid := tid
        trace := p.trace ++
          [Event.setIfEquals Task_Stopping Task_Stopped false,
           Event.setIfEquals Task_Scheduled Task_Running true,
           Event.callback c] } = r)
    (hrun : r._state = Task_Running) (hper : 0 ≤ r._period) (hdelta : cb.start ≤ now) :
    ∃ delay : Duration,
      (PeriodicTask._wrap fuel tid cb p).map (fun q => (q._state, q.trace)) =
        some (Task_Scheduled, r.trace ++
          [Event.push (now - cb.start) (cpu2.1 - cb.cpu.1) (cpu2.2 - cb.cpu.2),
           Event.setIfEquals Task_Running Task_Rescheduling true,
           Event.async r._scheduleCallback delay (r.futures + 1),
           Event.setIfEquals Task_Rescheduling Task_Scheduled true]) ∧
      delay = (if p._compensateCallTime then max 0 (r._period - (now - cb.start))
        else r._period) ∧
      0 ≤ delay ∧ delay ≤ r._period := by
  have he : PeriodicTask._wrapEnter fuel tid p = some (Entered.invoking p._compensateCallTime
      { p with
        _state := Task_Running
        _tid := tid
        trace := p.trace ++
          [Event.setIfEquals Task_Stopping Task_Stopped false,
           Event.setIfEquals Task_Scheduled Task_Running true] }) := by
    obtain ⟨cs, sdt, cbk, sc, per, st, task, name, comp, ptid, tr, futs⟩ := p
    simp only at hst
    subst hst
    unfold PeriodicTask._wrapEnter
    simp [setIfEquals, setIfEqualsAny, emit, yieldWhile_of_ne]
  have hd : max 0 (r._period - (if p._compensateCallTime then now - cb.start else 0)) =
      (if p._compensateCallTime then max 0 (r._period - (now - cb.start)) else r._period) := by
    cases p._compensateCallTime <;> simp [hper]
  refine ⟨if p._compensateCallTime then max 0 (r._period - (now - cb.start)) else r._period,
    ?_, rfl, ?_, ?_⟩
  · rw [← hd]
    unfold PeriodicTask._wrap
    rw [he]
    simp only [hcb, emit, List.append_assoc, List.cons_append, List.nil_append] at hr ⊢
    rw [hr, hres]
    obtain ⟨cs, sdt, cbk, sc, per, st, task, name, comp, ptid, tr, futs⟩ := r
    simp only at hrun
    subst hrun
    unfold PeriodicTask._wrapLeave PeriodicTask.pushStats
    by_cases h20 : Seconds 20 ≤ now - sdt <;>
      simp [h20, emit, yieldWhile_of_ne, setIfEqualsAny, setIfEquals, PeriodicTask._reschedule,
        PeriodicTask._rescheduleRelease, PeriodicTask._rescheduleAssign]
  · cases p._compensateCallTime <;> simp [hper]
  · cases p._compensateCallTime
    · simp
    · simp only [if_true]
      exact max_le hper (by linarith)

/-- C9 at a concrete input: the scheduled sample task (period 50, no compensation) with a
callback that takes 7 microseconds is rescheduled with delay 50. -/
theorem C9_reschedule_delay_witness :
    ∃ delay : Duration,
      (PeriodicTask._wrap 0 3 quietRun scheduledTask).map (fun q => (q._state, q.trace)) =
        some (Task_Scheduled,
          [Event.setIfEquals Task_Stopping Task_Stopped false,
           Event.setIfEquals Task_Scheduled Task_Running true,
           Event.callback 1,
           Event.push 7 1 1,
           Event.setIfEquals Task_Running Task_Rescheduling true,
           Event.async none delay 2,
           Event.setIfEquals Task_Rescheduling Task_Scheduled true]) ∧
      delay = 50 ∧ 0 ≤ delay ∧ delay ≤ 50 :=
  C9_reschedule_delay 0 3 quietRun scheduledTask _ 1 17 (1, 1) rfl rfl rfl rfl rfl
    (by decide) (by decide)

/-- C10: `start()` on a task without a callback, or whose period still is the constructor's
`-1`, throws and leaves the record as it was: the state and the trace are unchanged, so no
scheduling request is issued. -/
theorem C10_start_unconfigured (fuel : Nat) (tid : Int) (immediate : Bool)
    (p : PeriodicTaskPrivate) (name : String) (now : Int)
    (h : p._callback = none ∨ p._period = (PeriodicTask.new name now)._period) :
    ∃ msg, PeriodicTask.start fuel tid immediate p = some (Outcome.threw msg p) := by
  by_cases hc : p._callback = none
  · exact ⟨"Periodic task cannot start without a setCallback() call first",
      by simp [PeriodicTask.start, hc]⟩
  · rcases h with h | h
    · exact absurd h hc
    · have hp : p._period < 0 := by
        rw [h]
        simp [PeriodicTask.new]
      have hc2 : p._callback.isNone = false := by
        cases hcb : p._callback with
        | none => exact absurd hcb hc
        | some c => rfl
      exact ⟨"Periodic task cannot start without a setPeriod() call first",
        by simp [PeriodicTask.start, hc2, hp]⟩

/-- C10 at a concrete input: `start()` on a newly constructed task. -/
theorem C10_start_unconfigured_witness :
    (PeriodicTask.new "task" 0)._state = Task_Stopped ∧
    ∃ msg, PeriodicTask.start 0 7 true (PeriodicTask.new "task" 0) =
      some (Outcome.threw msg (PeriodicTask.new "task" 0)) :=
  ⟨rfl, C10_start_unconfigured 0 7 true (PeriodicTask.new "task" 0) "task" 0 (Or.inl rfl)⟩

/-! ## Configuration -/

/-- C11: `setPeriod` and `setUsPeriod` throw when their argument is negative, leaving the
record (and so the stored period) as it was; for a non-negative argument they return and
the stored period is the argument, `usp` microseconds for `setUsPeriod`. -/
theorem C11_period_setters (d : Duration) (usp : Int) (p : PeriodicTaskPrivate) :
    (d < 0 → ∃ msg, PeriodicTask.setPeriod d p = Outcome.threw msg p) ∧
    (0 ≤ d → PeriodicTask.setPeriod d p = Outcome.returned { p with _period := d }) ∧
    (usp < 0 → ∃ msg, PeriodicTask.setUsPeriod usp p = Outcome.threw msg p) ∧
    (0 ≤ usp →
      PeriodicTask.setUsPeriod usp p = Outcome.returned { p with _period := MicroSeconds usp }) := by
  refine ⟨fun h => ⟨"Period cannot be negative", ?_⟩, fun h => ?_,
    fun h => ⟨"Period cannot be negative", ?_⟩, fun h => ?_⟩
  · simp [PeriodicTask.setPeriod, h]
  · simp [PeriodicTask.setPeriod, not_lt.mpr h]
  · simp [PeriodicTask.setUsPeriod, h]
  · simp [PeriodicTask.setUsPeriod, not_lt.mpr h]

/-- C11 at concrete inputs: the arguments `-1` and `20` on the configured sample task. -/
theorem C11_period_setters_witness :
    (∃ msg, PeriodicTask.setPeriod (-1) configuredTask = Outcome.threw msg configuredTask) ∧
    PeriodicTask.setPeriod 20 configuredTask =
      Outcome.returned { configuredTask with _period := 20 } ∧
    (∃ msg, PeriodicTask.setUsPeriod (-1) configuredTask = Outcome.threw msg configuredTask) ∧
    PeriodicTask.setUsPeriod 20 configuredTask =
      Outcome.returned { configuredTask with _period := 20 } :=
  ⟨(C11_period_setters (-1) (-1) configuredTask).1 (by decide),
   (C11_period_setters 20 20 configuredTask).2.1 (by decide),
   (C11_period_setters (-1) (-1) configuredTask).2.2.1 (by decide),
   (C11_period_setters 20 20 configuredTask).2.2.2 (by decide)⟩

/-- C12: when a callback is already set, `setCallback(cb)` throws and leaves the record,
with the first callback, as it was; when none is set it returns and stores `cb`. -/
theorem C12_setCallback_once (cb : Option Nat) (p : PeriodicTaskPrivate) :
    (p._callback.isSome = true → ∃ msg, PeriodicTask.setCallback cb p = Outcome.threw msg p) ∧
    (p._callback = none →
      PeriodicTask.setCallback cb p = Outcome.returned { p with _callback := cb }) := by
  refine ⟨fun h => ⟨"Callback already set", ?_⟩, fun h => ?_⟩
  · simp [PeriodicTask.setCallback, h]
  · simp [PeriodicTask.setCallback, h]

/-- C12 at concrete inputs: a second callback on the configured sample task, and a first
one on a newly constructed task. -/
theorem C12_setCallback_once_witness :
    (∃ msg, PeriodicTask.setCallback (some 2) configuredTask =
      Outcome.threw msg configuredTask) ∧
    configuredTask._callback = some 1 ∧
    PeriodicTask.setCallback (some 2) (PeriodicTask.new "task" 0) =
      Outcome.returned { PeriodicTask.new "task" 0 with _callback := some 2 } :=
  ⟨(C12_setCallback_once (some 2) configuredTask).1 (by decide), rfl,
   (C12_setCallback_once (some 2) (PeriodicTask.new "task" 0)).2 rfl⟩

/-- C13, as amended: the configuration operations do not look at the task state. In any
state, `setName`, `setStrand` and `compensateCallbackTime` store their argument in the
name, the strand and the flag, and change nothing else; `setCallback` throws, and changes
nothing, when a callback is already set, and stores its argument otherwise; `setPeriod`
throws, and changes nothing, for a negative period, and stores its argument otherwise.
Called on a record whose state is any `s`, each of the five returns or throws, and changes
the configuration, exactly as on the same record in its own state. -/
theorem C13_setters_ignore_state (s : TaskState) (n : String) (cb strand : Option Nat)
    (d : Duration) (enable : Bool) (p : PeriodicTaskPrivate) :
    PeriodicTask.setName n { p with _state := s } =
      { PeriodicTask.setName n p with _state := s } ∧
    PeriodicTask.setStrand strand { p with _state := s } =
      { PeriodicTask.setStrand strand p with _state := s } ∧
    PeriodicTask.compensateCallbackTime enable { p with _state := s } =
      { PeriodicTask.compensateCallbackTime enable p with _state := s } ∧
    PeriodicTask.setCallback cb { p with _state := s } =
      (PeriodicTask.setCallback cb p).withState s ∧
    PeriodicTask.setPeriod d { p with _state := s } =
      (PeriodicTask.setPeriod d p).withState s ∧
    PeriodicTask.setName n p = { p with _name := n } ∧
    PeriodicTask.setStrand strand p = { p with _scheduleCallback := strand } ∧
    PeriodicTask.compensateCallbackTime enable p = { p with _compensateCallTime := enable } ∧
    (p._callback ≠ none →
      PeriodicTask.setCallback cb p = Outcome.threw "Callback already set" p) ∧
    (p._callback = none →
      PeriodicTask.setCallback cb p = Outcome.returned { p with _callback := cb }) ∧
    (d < 0 → PeriodicTask.setPeriod d p = Outcome.threw "Period cannot be negative" p) ∧
    (0 ≤ d → PeriodicTask.setPeriod d p = Outcome.returned { p with _period := d }) := by
  refine ⟨rfl, ?_, rfl, ?_, ?_, rfl, ?_, rfl, ?_, ?_, ?_, ?_⟩
  · cases strand <;> rfl
  · unfold PeriodicTask.setCallback
    split <;> rfl
  · unfold PeriodicTask.setPeriod
    split <;> rfl
  · cases strand <;> rfl
  · intro h
    unfold PeriodicTask.setCallback
    cases hc : p._callback with
    | none => exact absurd hc h
    | some c => rfl
  · intro h
    unfold PeriodicTask.setCallback
    rw [h]
    rfl
  · intro h
    unfold PeriodicTask.setPeriod
    rw [if_pos h]
  · intro h
    unfold PeriodicTask.setPeriod
    rw [if_neg (not_lt.mpr h)]

/-- C13, as amended, at concrete inputs, all in state Running: on the sample task, whose
callback is set, `setCallback` throws and `setPeriod 70` stores the period; on a task in
state Running without a callback, `setCallback` stores the callback and `setPeriod (-1)`
throws. -/
theorem C13_setters_ignore_state_witness :
    (taskIn Task_Running)._state = Task_Running ∧
    PeriodicTask.setCallback (some 2) (taskIn Task_Running) =
      Outcome.threw "Callback already set" (taskIn Task_Running) ∧
    PeriodicTask.setPeriod 70 (taskIn Task_Running) =
      Outcome.returned { taskIn Task_Running with _period := 70 } ∧
    PeriodicTask.setCallback (some 2) { taskIn Task_Running with _callback := none } =
      Outcome.returned { taskIn Task_Running with _callback := some 2 } ∧
    PeriodicTask.setPeriod (-1) { taskIn Task_Running with _callback := none } =
      Outcome.threw "Period cannot be negative"
        { taskIn Task_Running with _callback := none } :=
  ⟨rfl,
   (C13_setters_ignore_state Task_Running "n" (some 2) none 70 true
      (taskIn Task_Running)).2.2.2.2.2.2.2.2.1 (by decide),
   (C13_setters_ignore_state Task_Running "n" (some 2) none 70 true
      (taskIn Task_Running)).2.2.2.2.2.2.2.2.2.2.2 (by decide),
   (C13_setters_ignore_state Task_Running "n" (some 2) none (-1) true
      { taskIn Task_Running with _callback := none }).2.2.2.2.2.2.2.2.2.1 rfl,
   (C13_setters_ignore_state Task_Running "n" (some 2) none (-1) true
      { taskIn Task_Running with _callback := none }).2.2.2.2.2.2.2.2.2.2.1 (by decide)⟩

/-- C13, as stated, fails: on the sample task in state Running, `setName`, `setPeriod` and
`compensateCallbackTime` are accepted and change the name, the period and the flag. -/
theorem C13_counterexample :
    (taskIn Task_Running)._state ≠ Task_Stopped ∧
    (PeriodicTask.setName "renamed" (taskIn Task_Running))._name ≠ (taskIn Task_Running)._name ∧
    PeriodicTask.setPeriod 20 (taskIn Task_Running) =
      Outcome.returned { taskIn Task_Running with _period := 20 } ∧
    (taskIn Task_Running)._period ≠ 20 ∧
    (PeriodicTask.compensateCallbackTime true (taskIn Task_Running))._compensateCallTime ≠
      (taskIn Task_Running)._compensateCallTime := by
  refine ⟨by decide, by decide, rfl, by decide, by decide⟩

/-- C14, as amended: an empty callback is not reported at configuration time. On a task
without a callback, `setCallback` with an empty callback returns and leaves the record as
it was; the missing callback is reported by `start()`, which throws. -/
theorem C14_empty_callback_reported_by_start (fuel : Nat) (tid : Int) (immediate : Bool)
    (p : PeriodicTaskPrivate) (h : p._callback = none) :
    PeriodicTask.setCallback none p = Outcome.returned p ∧
    ∃ msg, PeriodicTask.start fuel tid immediate p = some (Outcome.threw msg p) := by
  constructor
  · obtain ⟨cs, sdt, cb, sc, per, st, task, name, comp, ptid, tr, futs⟩ := p
    simp only at h
    subst h
    simp [PeriodicTask.setCallback]
  · exact ⟨"Periodic task cannot start without a setCallback() call first",
      by simp [PeriodicTask.start, h]⟩

/-- C14, as amended, at a concrete input: a newly constructed task. -/
theorem C14_empty_callback_reported_by_start_witness :
    PeriodicTask.setCallback none (PeriodicTask.new "task" 0) =
      Outcome.returned (PeriodicTask.new "task" 0) ∧
    ∃ msg, PeriodicTask.start 0 7 true (PeriodicTask.new "task" 0) =
      some (Outcome.threw msg (PeriodicTask.new "task" 0)) :=
  C14_empty_callback_reported_by_start 0 7 true (PeriodicTask.new "task" 0) rfl

/-- C14, as stated, fails: `setCallback` with an empty callback on a newly constructed task
does not throw, it returns. -/
theorem C14_counterexample :
    PeriodicTask.setCallback none (PeriodicTask.new "task" 0) =
      Outcome.returned (PeriodicTask.new "task" 0) ∧
    ¬ ∃ msg q, PeriodicTask.setCallback none (PeriodicTask.new "task" 0) = Outcome.threw msg q := by
  refine ⟨rfl, ?_⟩
  rintro ⟨msg, q, h⟩
  simp [PeriodicTask.setCallback, PeriodicTask.new] at h

/-! ## Calls from inside the callback, asyncStop, restart after an exception -/

/-- C15: `start()` on a configured task, called by the thread recorded in `_tid` (the one
executing the callback), returns at once and leaves the record as it was: state, `_task`
and trace are unchanged, so nothing is scheduled or cancelled and `stop()` is not called. -/
theorem C15_start_from_callback (fuel : Nat) (tid : Int) (immediate : Bool)
    (p : PeriodicTaskPrivate) (hcb : p._callback.isSome = true) (hper : 0 ≤ p._period)
    (htid : tid = p._tid) :
    PeriodicTask.start fuel tid immediate p = some (Outcome.returned p) := by
  cases hc : p._callback with
  | none => simp [hc] at hcb
  | some c => simp [PeriodicTask.start, hc, not_lt.mpr hper, htid]

/-- C15 at a concrete input: thread 3 calls `start()` while it executes the callback of the
sample task. -/
theorem C15_start_from_callback_witness :
    taskInCallback._tid = 3 ∧
    PeriodicTask.start 0 3 true taskInCallback = some (Outcome.returned taskInCallback) :=
  ⟨rfl, C15_start_from_callback 0 3 true taskInCallback (by decide) (by decide) rfl⟩

/-- C16: `stop()` called by the thread recorded in `_tid` while the state is Running
returns for every fuel with the state Stopping; after the change Running -> Stopping the
only further event is the cancel of `_task`: the future is not waited on and the state is
not set to Stopped. -/
theorem C16_stop_from_callback (fuel : Nat) (tid : Int) (p : PeriodicTaskPrivate)
    (htid : tid = p._tid) (hst : p._state = Task_Running) :
    PeriodicTask.stop fuel tid p = some
      { p with
        _state := Task_Stopping
        trace := p.trace ++
          [Event.setIfEquals Task_Stopped Task_Stopped false,
           Event.setIfEquals Task_Scheduled Task_Stopping false,
           Event.setIfEquals Task_Running Task_Stopping true,
           Event.cancel p._task] } := by
  unfold PeriodicTask.stop
  rw [asyncStop_of_running fuel p hst]
  simp [htid]

/-- C16 at a concrete input: thread 3 calls `stop()` while it executes the callback of the
sample task. -/
theorem C16_stop_from_callback_witness :
    ∃ q, PeriodicTask.stop 0 3 taskInCallback = some q ∧ q._state = Task_Stopping ∧
      q.trace =
        [Event.setIfEquals Task_Stopped Task_Stopped false,
         Event.setIfEquals Task_Scheduled Task_Stopping false,
         Event.setIfEquals Task_Running Task_Stopping true,
         Event.cancel 1] :=
  ⟨_, C16_stop_from_callback 0 3 taskInCallback rfl rfl, rfl, rfl⟩

/-- C17: on a Scheduled or Running task `asyncStop()` returns for every fuel, having set
the state to Stopping and then cancelled `_task`; on a Stopped task it returns with the
record unchanged apart from its one recorded compare-and-set (Stopped, Stopped), and no
cancel. Whenever it returns, it has neither waited on a future nor changed the state to
Stopped. -/
theorem C17_asyncStop_without_join (fuel : Nat) (p : PeriodicTaskPrivate) :
    (p._state = Task_Scheduled →
      PeriodicTask.asyncStop fuel p = some
        { p with
          _state := Task_Stopping
          trace := p.trace ++
            [Event.setIfEquals Task_Stopped Task_Stopped false,
             Event.setIfEquals Task_Scheduled Task_Stopping true,
             Event.cancel p._task] }) ∧
    (p._state = Task_Running →
      PeriodicTask.asyncStop fuel p = some
        { p with
          _state := Task_Stopping
          trace := p.trace ++
            [Event.setIfEquals Task_Stopped Task_Stopped false,
             Event.setIfEquals Task_Scheduled Task_Stopping false,
             Event.setIfEquals Task_Running Task_Stopping true,
             Event.cancel p._task] }) ∧
    (p._state = Task_Stopped →
      PeriodicTask.asyncStop fuel p = some
        { p with trace := p.trace ++ [Event.setIfEquals Task_Stopped Task_Stopped true] }) ∧
    (∀ q, PeriodicTask.asyncStop fuel p = some q →
      ∃ evs, q.trace = p.trace ++ evs ∧
        ∀ e ∈ evs, (∀ fut, e ≠ Event.wait fut) ∧
          (∀ s, s ≠ Task_Stopped → e ≠ Event.setIfEquals s Task_Stopped true)) := by
  refine ⟨asyncStop_of_scheduled fuel p, asyncStop_of_running fuel p,
    asyncStop_of_stopped fuel p, ?_⟩
  intro q hq
  cases hs : p._state
  case Task_Stopped =>
    rw [asyncStop_of_stopped fuel p hs] at hq
    cases hq
    exact ⟨_, rfl, by simp [eq_comm]⟩
  case Task_Scheduled =>
    rw [asyncStop_of_scheduled fuel p hs] at hq
    cases hq
    exact ⟨_, rfl, by simp⟩
  case Task_Running =>
    rw [asyncStop_of_running fuel p hs] at hq
    cases hq
    exact ⟨_, rfl, by simp⟩
  case Task_Stopping =>
    rw [asyncStop_of_stopping fuel p hs] at hq
    cases hq
    exact ⟨_, rfl, by simp⟩
  case Task_Rescheduling =>
    rw [asyncStop_stuck fuel p (by simp [hs])] at hq
    cases hq
  case Task_Starting =>
    rw [asyncStop_stuck fuel p (by simp [hs])] at hq
    cases hq
  case Task_Triggering =>
    rw [asyncStop_stuck fuel p (by simp [hs])] at hq
    cases hq
  case Task_TriggerReady =>
    rw [asyncStop_stuck fuel p (by simp [hs])] at hq
    cases hq

/-- C17 at concrete inputs: `asyncStop()` on the scheduled sample task and on the
configured sample task, which is Stopped. -/
theorem C17_asyncStop_without_join_witness :
    (∃ q, PeriodicTask.asyncStop 0 scheduledTask = some q ∧ q._state = Task_Stopping ∧
      q.trace =
        [Event.setIfEquals Task_Stopped Task_Stopped false,
         Event.setIfEquals Task_Scheduled Task_Stopping true,
         Event.cancel 1]) ∧
    PeriodicTask.asyncStop 0 configuredTask = some
      { configuredTask with
        trace := configuredTask.trace ++ [Event.setIfEquals Task_Stopped Task_Stopped true] } :=
  ⟨⟨_, (C17_asyncStop_without_join 0 scheduledTask).1 rfl, rfl, rfl⟩,
   (C17_asyncStop_without_join 0 configuredTask).2.2.1 rfl⟩

/-- C18, as amended: on a cell that nobody else changes, `asyncStop()` returns exactly when
the state is Stopped, Scheduled, Running or Stopping, and then for every fuel; in the
states Rescheduling, Starting, Triggering and TriggerReady it is still in its yield loop
when the fuel runs out, whatever the fuel. -/
theorem C18_asyncStop_returns_iff (fuel : Nat) (p : PeriodicTaskPrivate) :
    (PeriodicTask.asyncStop fuel p).isSome = true ↔
      (p._state = Task_Stopped ∨ p._state = Task_Scheduled ∨ p._state = Task_Running ∨
        p._state = Task_Stopping) := by
  cases hs : p._state
  case Task_Stopped => simp [asyncStop_of_stopped fuel p hs]
  case Task_Scheduled => simp [asyncStop_of_scheduled fuel p hs]
  case Task_Running => simp [asyncStop_of_running fuel p hs]
  case Task_Stopping => simp [asyncStop_of_stopping fuel p hs]
  case Task_Rescheduling => simp [asyncStop_stuck fuel p (by simp [hs])]
  case Task_Starting => simp [asyncStop_stuck fuel p (by simp [hs])]
  case Task_Triggering => simp [asyncStop_stuck fuel p (by simp [hs])]
  case Task_TriggerReady => simp [asyncStop_stuck fuel p (by simp [hs])]

/-- C18, as stated, fails: on the sample task in state Rescheduling, with nobody changing
the cell, `asyncStop()` returns for no fuel. -/
theorem C18_counterexample :
    ¬ ∃ fuel q, PeriodicTask.asyncStop fuel (taskIn Task_Rescheduling) = some q := by
  rintro ⟨fuel, q, h⟩
  rw [asyncStop_stuck fuel (taskIn Task_Rescheduling) (Or.inl rfl)] at h
  cases h

/-- C19: evaluation of `start()` after a callback exception, called by the thread that ran
the callback. `_wrap`, run by thread 3 on the scheduled sample task with a throwing
callback, leaves the state Stopped and `_tid` still 3 (line 273 is skipped by the throw);
`start()` called by thread 3 then returns at line 165 with the record unchanged: the state
stays Stopped and nothing is scheduled. -/
theorem C19_start_after_exception_same_thread (fuel : Nat) (immediate : Bool) :
    ∃ q, PeriodicTask._wrap 0 3 throwingRun scheduledTask = some q ∧
      q._state = Task_Stopped ∧ q._tid = 3 ∧
      PeriodicTask.start fuel 3 immediate q = some (Outcome.returned q) := by
  refine ⟨{ scheduledTask with
      _state := Task_Stopped
      _tid := 3
      trace :=
        [Event.setIfEquals Task_Stopping Task_Stopped false,
         Event.setIfEquals Task_Scheduled Task_Running true,
         Event.callback 1,
         Event.logInfo,
         Event.setIfEquals Task_Stopping Task_Stopped false,
         Event.setIfEquals Task_Running Task_Stopped true] }, by decide, rfl, rfl, ?_⟩
  simp [PeriodicTask.start, scheduledTask, configuredTask, PeriodicTask.new]

/-! ## The service directory -/

/-- C20, as amended: for distinct registered endpoints `A` and `B` and a signature that,
before the two calls, is not registered or is registered to `A`, after
`registerService(sig, A)` followed by `registerService(sig, B)` the service map maps the
signature to `A`, and `locateService(sig, c)` is the negotiation between `c` and `A`, for
every client `c`. -/
theorem C20_first_registration_wins (xNegotiateEndpoint : MasterImpl → String → String → String)
    (sig A B c : String) (m : MasterImpl) (hAB : A ≠ B)
    (hA : m._knownEndpoints.contains A = true) (hB : m._knownEndpoints.contains B = true)
    (hfree : m._knownServices.get sig = none ∨ m._knownServices.get sig = some A) :
    (MasterImpl.registerService sig B (MasterImpl.registerService sig A m))._knownServices.get sig
      = some A ∧
    MasterImpl.locateService xNegotiateEndpoint sig c
        (MasterImpl.registerService sig B (MasterImpl.registerService sig A m)) =
      xNegotiateEndpoint (MasterImpl.registerService sig B (MasterImpl.registerService sig A m))
        c A := by
  have h1 : (MasterImpl.registerService sig A m)._knownServices.get sig = some A := by
    rcases hfree with h | h
    · exact registerService_of_free sig A m hA h
    · rw [registerService_of_owned sig A A m h]
      exact h
  have h2 : (MasterImpl.registerService sig B
      (MasterImpl.registerService sig A m))._knownServices.get sig = some A := by
    rw [registerService_of_owned sig B A _ h1]
    exact h1
  refine ⟨h2, ?_⟩
  unfold MasterImpl.locateService
  rw [h2]

/-- C20, as amended, at a concrete input: the signature "fresh" registered by "a", then by
"b", in the sample directory. -/
theorem C20_first_registration_wins_witness :
    (MasterImpl.registerService "fresh" "b"
        (MasterImpl.registerService "fresh" "a" sampleMaster))._knownServices.get "fresh"
      = some "a" ∧
    MasterImpl.locateService sampleNegotiate "fresh" "c"
        (MasterImpl.registerService "fresh" "b"
          (MasterImpl.registerService "fresh" "a" sampleMaster)) = "a" :=
  C20_first_registration_wins sampleNegotiate "fresh" "a" "b" "c" sampleMaster (by decide)
    (by decide) (by decide) (Or.inl (by decide))

/-- C20, as stated, fails: "a" and "b" are distinct registered endpoints of the sample
directory, in which "svc" already belongs to "c"; after `registerService("svc", "a")` and
`registerService("svc", "b")` the service map maps "svc" to "c", and `locateService`
resolves against "c". -/
theorem C20_counterexample :
    sampleMaster._knownEndpoints.contains "a" = true ∧
    sampleMaster._knownEndpoints.contains "b" = true ∧
    (MasterImpl.registerService "svc" "b"
        (MasterImpl.registerService "svc" "a" sampleMaster))._knownServices.get "svc"
      = some "c" ∧
    MasterImpl.locateService sampleNegotiate "svc" "a"
        (MasterImpl.registerService "svc" "b"
          (MasterImpl.registerService "svc" "a" sampleMaster)) = "c" := by
  refine ⟨by decide, by decide, by decide, by decide⟩

/-! ## Rescheduling, the trigger handler and the end of a run -/

/-- C24, as amended: on a cell that nobody else changes, `setState(cell, from, to)` returns
exactly when the cell holds `from`, after setting it to `to` at its first attempt; when the
cell holds any other state, Stopped included, it is still spinning when the fuel runs out,
whatever the fuel. -/
theorem C24_setState_returns_iff (fuel : Nat) (p : PeriodicTaskPrivate) (src dst : TaskState) :
    setState fuel p src dst =
      if p._state = src then
        some { p with _state := dst, trace := p.trace ++ [Event.setIfEquals src dst true] }
      else none := by
  unfold setState
  split
  · next h => rw [setStateSpin_of_eq fuel 0 p src dst h]; rfl
  · next h => exact setStateSpin_stuck fuel 0 p src dst h

/-- C24, as stated, fails: on the sample task in state Stopped, with nobody changing the
cell, `setState(cell, Task_Stopping, Task_Stopped)` returns for no fuel. -/
theorem C24_counterexample :
    Task_Stopping ≠ Task_Stopped ∧ (taskIn Task_Stopped)._state = Task_Stopped ∧
    ¬ ∃ fuel q, setState fuel (taskIn Task_Stopped) Task_Stopping Task_Stopped = some q := by
  refine ⟨by decide, rfl, ?_⟩
  rintro ⟨fuel, q, h⟩
  unfold setState at h
  rw [setStateSpin_stuck fuel 0 _ _ _ (by decide)] at h
  cases h

/-- C26: `_trigger(future)` with a cancelled future, in state Triggering or TriggerReady,
changes the state to Rescheduling, issues exactly one scheduling request, with delay `0`,
and leaves the state Scheduled. With a future that is not cancelled it returns the record
unchanged; with a cancelled future in any other state only its two failed compare-and-set
attempts are recorded: the state is unchanged and nothing is scheduled. -/
theorem C26_trigger_handler (p : PeriodicTaskPrivate) :
    (p._state = Task_Triggering →
      PeriodicTask._trigger true p =
        { p with
          _state := Task_Scheduled
          _task := p.futures + 1
          futures := p.futures + 1
          trace := p.trace ++
            [Event.setIfEquals Task_Triggering Task_Rescheduling true,
             Event.async p._scheduleCallback 0 (p.futures + 1),
             Event.setIfEquals Task_Rescheduling Task_Scheduled true] }) ∧
    (p._state = Task_TriggerReady →
      PeriodicTask._trigger true p =
        { p with
          _state := Task_Scheduled
          _task := p.futures + 1
          futures := p.futures + 1
          trace := p.trace ++
            [Event.setIfEquals Task_Triggering Task_Rescheduling false,
             Event.setIfEquals Task_TriggerReady Task_Rescheduling true,
             Event.async p._scheduleCallback 0 (p.futures + 1),
             Event.setIfEquals Task_Rescheduling Task_Scheduled true] }) ∧
    PeriodicTask._trigger false p = p ∧
    (p._state ≠ Task_Triggering → p._state ≠ Task_TriggerReady →
      PeriodicTask._trigger true p =
        { p with
          trace := p.trace ++
            [Event.setIfEquals Task_Triggering Task_Rescheduling false,
             Event.setIfEquals Task_TriggerReady Task_Rescheduling false] }) := by
  refine ⟨fun h => ?_, fun h => ?_, rfl, fun h1 h2 => ?_⟩
  · obtain ⟨cs, sdt, cb, sc, per, st, task, name, comp, ptid, tr, futs⟩ := p
    simp only at h
    subst h
    simp [PeriodicTask._trigger, PeriodicTask._reschedule, PeriodicTask._rescheduleRelease,
      PeriodicTask._rescheduleAssign, setIfEquals, setIfEqualsAny, emit]
  · obtain ⟨cs, sdt, cb, sc, per, st, task, name, comp, ptid, tr, futs⟩ := p
    simp only at h
    subst h
    simp [PeriodicTask._trigger, PeriodicTask._reschedule, PeriodicTask._rescheduleRelease,
      PeriodicTask._rescheduleAssign, setIfEquals, setIfEqualsAny, emit]
  · obtain ⟨cs, sdt, cb, sc, per, st, task, name, comp, ptid, tr, futs⟩ := p
    simp only at h1 h2
    simp [PeriodicTask._trigger, setIfEquals, setIfEqualsAny, emit, h1, h2]

/-- C26 at concrete inputs: the handler on the sample task in state TriggerReady with a
cancelled future, and in state Running with a cancelled future. -/
theorem C26_trigger_handler_witness :
    (PeriodicTask._trigger true (taskIn Task_TriggerReady))._state = Task_Scheduled ∧
    (PeriodicTask._trigger true (taskIn Task_TriggerReady)).trace =
      [Event.setIfEquals Task_Triggering Task_Rescheduling false,
       Event.setIfEquals Task_TriggerReady Task_Rescheduling true,
       Event.async none 0 2,
       Event.setIfEquals Task_Rescheduling Task_Scheduled true] ∧
    (PeriodicTask._trigger true (taskIn Task_Running))._state = Task_Running :=
  ⟨by rw [(C26_trigger_handler (taskIn Task_TriggerReady)).2.1 rfl],
   by rw [(C26_trigger_handler (taskIn Task_TriggerReady)).2.1 rfl]; rfl,
   by rw [(C26_trigger_handler (taskIn Task_Running)).2.2.2 (by decide) (by decide)]; rfl⟩

/-- C27, as amended: in each of the eight states, on a cell that nobody else changes,
`trigger()` returns within the first pass of its loop (fuel `0`, and the same result for
every fuel); it makes at most nine compare-and-set attempts (at most seven outside the
state Scheduled) and issues no yield, no sleep and no wait. -/
theorem C27_trigger_single_pass (fuel : Nat) (p : PeriodicTaskPrivate) :
    ∃ q evs, PeriodicTask.trigger 0 p = some q ∧ PeriodicTask.trigger fuel p = some q ∧
      q.trace = p.trace ++ evs ∧
      (evs.filter (fun e => e matches Event.setIfEquals _ _ _)).length ≤ 9 ∧
      (p._state ≠ Task_Scheduled →
        (evs.filter (fun e => e matches Event.setIfEquals _ _ _)).length ≤ 7) ∧
      ∀ e ∈ evs, e ≠ Event.yield ∧ (∀ ms, e ≠ Event.msleep ms) ∧ (∀ fut, e ≠ Event.wait fut) := by
  by_cases hs : p._state = Task_Scheduled
  · refine ⟨_, _, trigger_of_scheduled 0 p hs, trigger_of_scheduled fuel p hs, rfl, ?_, ?_, ?_⟩
    · simp
    · exact fun h => absurd hs h
    · intro e he
      simp only [List.mem_cons, List.mem_singleton, List.not_mem_nil, or_false] at he
      rcases he with rfl | rfl | rfl | rfl | rfl | rfl | rfl | rfl | rfl | rfl | rfl <;> simp
  · obtain ⟨evs, h1, h2, h3⟩ := trigger_of_other 0 p hs
    have hlen : (evs.filter (fun e => e matches Event.setIfEquals _ _ _)).length ≤ 7 :=
      le_trans (List.length_filter_le _ _) h2
    refine ⟨_, evs, h1, by rw [trigger_fuel_irrelevant fuel p, h1], rfl,
      le_trans hlen (by decide), fun _ => hlen, ?_⟩
    intro e he
    obtain ⟨s, ok, rfl⟩ := h3 e he
    simp

/-- C27, as amended, at a concrete input: `trigger()` on the sample task in state Running
returns in its first pass after at most seven compare-and-set attempts. -/
theorem C27_trigger_single_pass_witness :
    ∃ q evs, PeriodicTask.trigger 0 (taskIn Task_Running) = some q ∧
      q.trace = (taskIn Task_Running).trace ++ evs ∧
      (evs.filter (fun e => e matches Event.setIfEquals _ _ _)).length ≤ 7 := by
  obtain ⟨q, evs, h0, _, ht, _, h7, _⟩ := C27_trigger_single_pass 0 (taskIn Task_Running)
  exact ⟨q, evs, h0, ht, h7 (by decide)⟩

/-- C27, as stated, fails: on the scheduled sample task `trigger()` makes nine
compare-and-set attempts in its single pass, the seven of the first condition, the one
from Scheduled to Triggering and the one from Triggering to TriggerReady. -/
theorem C27_counterexample :
    ∃ q, PeriodicTask.trigger 0 scheduledTask = some q ∧
      (q.trace.filter (fun e => e matches Event.setIfEquals _ _ _)).length = 9 ∧
      ¬ (q.trace.filter (fun e => e matches Event.setIfEquals _ _ _)).length ≤ 8 :=
  ⟨_, trigger_of_scheduled 0 scheduledTask rfl, by decide, by decide⟩

/-- C28: the callback of a run returns normally and the state at that point is Stopping.
Then `_wrap` returns for every fuel with the state Stopped; after the sample is pushed, the
two compare-and-set attempts towards Rescheduling fail and the one from Stopping to Stopped
succeeds: no scheduling request is issued. -/
theorem C28_stop_during_callback (fuel : Nat) (tid : Int) (cb : CallbackRun)
    (p q0 r : PeriodicTaskPrivate) (compensate : Bool) (k : Nat) (now : Int) (cpu2 : Int × Int)
    (he : PeriodicTask._wrapEnter fuel tid p = some (Entered.invoking compensate q0))
    (hk : q0._callback = some k)
    (hres : cb.result = CallbackResult.finished now cpu2)
    (hr : cb.during (emit q0 (Event.callback k)) = r)
    (hst : r._state = Task_Stopping) :
    (PeriodicTask._wrap fuel tid cb p).map (fun q => (q._state, q.trace)) =
      some (Task_Stopped, r.trace ++
        [Event.push (now - cb.start) (cpu2.1 - cb.cpu.1) (cpu2.2 - cb.cpu.2),
         Event.setIfEquals Task_Running Task_Rescheduling false,
         Event.setIfEquals Task_TriggerReady Task_Rescheduling false,
         Event.setIfEquals Task_Stopping Task_Stopped true]) := by
  unfold PeriodicTask._wrap
  rw [he]
  simp only [hk]
  rw [hr, hres]
  unfold PeriodicTask._wrapLeave
  simp only
  have hs3 : (PeriodicTask.pushStats now (now - cb.start) (cpu2.1 - cb.cpu.1) (cpu2.2 - cb.cpu.2)
      { r with _tid := invalidThreadId })._state = Task_Stopping := by
    rw [pushStats_state]
    exact hst
  have ht3 := pushStats_trace now (now - cb.start) (cpu2.1 - cb.cpu.1) (cpu2.2 - cb.cpu.2)
      { r with _tid := invalidThreadId }
  generalize PeriodicTask.pushStats now (now - cb.start) (cpu2.1 - cb.cpu.1) (cpu2.2 - cb.cpu.2)
      { r with _tid := invalidThreadId } = p3 at hs3 ht3
  rw [yieldWhile_of_ne fuel _ p3 (by simp [hs3])]
  simp only
  rw [setIfEqualsAny_cons_of_ne p3 _ _ _ (by simp [hs3]),
    setIfEqualsAny_cons_of_ne _ _ _ _ (by simp [hs3])]
  simp only [setIfEqualsAny, Bool.false_eq_true, if_false]
  unfold setState
  rw [setStateSpin_of_eq fuel 0 _ _ _ (by simpa using hs3)]
  simp [ht3]

/-- C28 at a concrete input: during the callback of the scheduled sample task another
thread calls `asyncStop()`; `_wrap` ends in Stopped and schedules nothing. -/
theorem C28_stop_during_callback_witness :
    (PeriodicTask._wrap 0 3 stoppedRun scheduledTask).map (fun q => (q._state, q.trace)) =
      some (Task_Stopped,
        [Event.setIfEquals Task_Stopping Task_Stopped false,
         Event.setIfEquals Task_Scheduled Task_Running true,
         Event.callback 1,
         Event.setIfEquals Task_Stopped Task_Stopped false,
         Event.setIfEquals Task_Scheduled Task_Stopping false,
         Event.setIfEquals Task_Running Task_Stopping true,
         Event.cancel 1,
         Event.push 7 1 1,
         Event.setIfEquals Task_Running Task_Rescheduling false,
         Event.setIfEquals Task_TriggerReady Task_Rescheduling false,
         Event.setIfEquals Task_Stopping Task_Stopped true]) :=
  C28_stop_during_callback 0 3 stoppedRun scheduledTask
    { scheduledTask with
      _state := Task_Running
      _tid := 3
      trace := [Event.setIfEquals Task_Stopping Task_Stopped false,
        Event.setIfEquals Task_Scheduled Task_Running true] }
    _ false 1 17 (1, 1) (by rfl) rfl rfl rfl (by decide)

/-- C29: `isRunning()` and `isStopping()` return opposite values in every state;
`isRunning()` is false exactly in the states Stopped and Stopping, and so on a newly
constructed task. -/
theorem C29_isRunning_isStopping (p : PeriodicTaskPrivate) (name : String) (now : Int) :
    PeriodicTask.isRunning p = !PeriodicTask.isStopping p ∧
    (PeriodicTask.isRunning p = false ↔
      (p._state = Task_Stopped ∨ p._state = Task_Stopping)) ∧
    (PeriodicTask.new name now)._state = Task_Stopped ∧
    PeriodicTask.isRunning (PeriodicTask.new name now) = false := by
  refine ⟨?_, ?_, rfl, rfl⟩
  · unfold PeriodicTask.isRunning PeriodicTask.isStopping
    cases p._state <;> rfl
  · unfold PeriodicTask.isRunning
    cases p._state <;> simp

/-! ## Functors -/

/-- C30: for each arity from 0 to 9, with a message that returns values on read in the
order they were written and a `QI_FUNCTOR_ASSUME_NBR_PARAMS` that accepts a message holding
exactly the required number of parameters: `callVoidFunctor(f, p0, ...)` calls `f` with the
message holding the encoded arguments in declaration order, whatever `f` is; and with `f`
the void functor wrapping `fn`, the call reads all of them, leaving the message empty, and
applies `fn` once, to `p0, ...` in their original positions. -/
theorem C30_void_functor_arguments {V σ P0 P1 P2 P3 P4 P5 P6 P7 P8 : Type}
    [qi.serialize V P0] [qi.serialize V P1] [qi.serialize V P2] [qi.serialize V P3]
    [qi.serialize V P4] [qi.serialize V P5] [qi.serialize V P6] [qi.serialize V P7]
    [qi.serialize V P8]
    (QI_FUNCTOR_ASSUME_NBR_PARAMS : qi.Message V → Nat → Bool)
    (hassume : ∀ (msg : qi.Message V) (n : Nat), msg.data.length = n →
      QI_FUNCTOR_ASSUME_NBR_PARAMS msg n = true)
    (f : qi.Functor V σ) (w : σ)
    (p0 : P0) (p1 : P1) (p2 : P2) (p3 : P3) (p4 : P4) (p5 : P5) (p6 : P6) (p7 : P7) (p8 : P8)
    (fn0 : σ → σ)
    (fn1 : P0 → σ → σ)
    (fn2 : P0 → P1 → σ → σ)
    (fn3 : P0 → P1 → P2 → σ → σ)
    (fn4 : P0 → P1 → P2 → P3 → σ → σ)
    (fn5 : P0 → P1 → P2 → P3 → P4 → σ → σ)
    (fn6 : P0 → P1 → P2 → P3 → P4 → P5 → σ → σ)
    (fn7 : P0 → P1 → P2 → P3 → P4 → P5 → P6 → σ → σ)
    (fn8 : P0 → P1 → P2 → P3 → P4 → P5 → P6 → P7 → σ → σ)
    (fn9 : P0 → P1 → P2 → P3 → P4 → P5 → P6 → P7 → P8 → σ → σ) :
    qi.callVoidFunctor_0 f w =
      f.call { data := [] } { data := [] } w ∧
    qi.callVoidFunctor_0 (qi.Functor_0 QI_FUNCTOR_ASSUME_NBR_PARAMS fn0) w =
      some (fn0 w, { data := [] }, { data := [] }) ∧
    qi.callVoidFunctor_1 f p0 w =
      f.call { data := [qi.serialize.enc p0] } { data := [] } w ∧
    qi.callVoidFunctor_1 (qi.Functor_1 QI_FUNCTOR_ASSUME_NBR_PARAMS fn1) p0 w =
      some (fn1 p0 w, { data := [] }, { data := [] }) ∧
    qi.callVoidFunctor_2 f p0 p1 w =
      f.call { data := [qi.serialize.enc p0, qi.serialize.enc p1] } { data := [] } w ∧
    qi.callVoidFunctor_2 (qi.Functor_2 QI_FUNCTOR_ASSUME_NBR_PARAMS fn2) p0 p1 w =
      some (fn2 p0 p1 w, { data := [] }, { data := [] }) ∧
    qi.callVoidFunctor_3 f p0 p1 p2 w =
      f.call { data := [qi.serialize.enc p0, qi.serialize.enc p1, qi.serialize.enc p2] } { data := [] } w ∧
    qi.callVoidFunctor_3 (qi.Functor_3 QI_FUNCTOR_ASSUME_NBR_PARAMS fn3) p0 p1 p2 w =
      some (fn3 p0 p1 p2 w, { data := [] }, { data := [] }) ∧
    qi.callVoidFunctor_4 f p0 p1 p2 p3 w =
      f.call { data := [qi.serialize.enc p0, qi.serialize.enc p1, qi.serialize.enc p2,
        qi.serialize.enc p3] } { data := [] } w ∧
    qi.callVoidFunctor_4 (qi.Functor_4 QI_FUNCTOR_ASSUME_NBR_PARAMS fn4) p0 p1 p2 p3 w =
      some (fn4 p0 p1 p2 p3 w, { data := [] }, { data := [] }) ∧
    qi.callVoidFunctor_5 f p0 p1 p2 p3 p4 w =
      f.call { data := [qi.serialize.enc p0, qi.serialize.enc p1, qi.serialize.enc p2,
        qi.serialize.enc p3, qi.serialize.enc p4] } { data := [] } w ∧
    qi.callVoidFunctor_5 (qi.Functor_5 QI_FUNCTOR_ASSUME_NBR_PARAMS fn5) p0 p1 p2 p3 p4 w =
      some (fn5 p0 p1 p2 p3 p4 w, { data := [] }, { data := [] }) ∧
    qi.callVoidFunctor_6 f p0 p1 p2 p3 p4 p5 w =
      f.call { data := [qi.serialize.enc p0, qi.serialize.enc p1, qi.serialize.enc p2,
        qi.serialize.enc p3, qi.serialize.enc p4, qi.serialize.enc p5] } { data := [] } w ∧
    qi.callVoidFunctor_6 (qi.Functor_6 QI_FUNCTOR_ASSUME_NBR_PARAMS fn6) p0 p1 p2 p3 p4 p5 w =
      some (fn6 p0 p1 p2 p3 p4 p5 w, { data := [] }, { data := [] }) ∧
    qi.callVoidFunctor_7 f p0 p1 p2 p3 p4 p5 p6 w =
      f.call { data := [qi.serialize.enc p0, qi.serialize.enc p1, qi.serialize.enc p2,
        qi.serialize.enc p3, qi.serialize.enc p4, qi.serialize.enc p5,
        qi.serialize.enc p6] } { data := [] } w ∧
    qi.callVoidFunctor_7 (qi.Functor_7 QI_FUNCTOR_ASSUME_NBR_PARAMS fn7) p0 p1 p2 p3 p4 p5 p6 w =
      some (fn7 p0 p1 p2 p3 p4 p5 p6 w, { data := [] }, { data := [] }) ∧
    qi.callVoidFunctor_8 f p0 p1 p2 p3 p4 p5 p6 p7 w =
      f.call { data := [qi.serialize.enc p0, qi.serialize.enc p1, qi.serialize.enc p2,
        qi.serialize.enc p3, qi.serialize.enc p4, qi.serialize.enc p5,
        qi.serialize.enc p6, qi.serialize.enc p7] } { data := [] } w ∧
    qi.callVoidFunctor_8 (qi.Functor_8 QI_FUNCTOR_ASSUME_NBR_PARAMS fn8) p0 p1 p2 p3 p4 p5 p6 p7 w =
      some (fn8 p0 p1 p2 p3 p4 p5 p6 p7 w, { data := [] }, { data := [] }) ∧
    qi.callVoidFunctor_9 f p0 p1 p2 p3 p4 p5 p6 p7 p8 w =
      f.call { data := [qi.serialize.enc p0, qi.serialize.enc p1, qi.serialize.enc p2,
        qi.serialize.enc p3, qi.serialize.enc p4, qi.serialize.enc p5,
        qi.serialize.enc p6, qi.serialize.enc p7, qi.serialize.enc p8] } { data := [] } w ∧
    qi.callVoidFunctor_9 (qi.Functor_9 QI_FUNCTOR_ASSUME_NBR_PARAMS fn9) p0 p1 p2 p3 p4 p5 p6 p7 p8 w =
      some (fn9 p0 p1 p2 p3 p4 p5 p6 p7 p8 w, { data := [] }, { data := [] }) := by
  refine ⟨?_, ?_, ?_, ?_, ?_, ?_, ?_, ?_, ?_, ?_, ?_, ?_, ?_, ?_, ?_, ?_, ?_, ?_, ?_, ?_⟩
  · rfl
  · exact Functor_0_call QI_FUNCTOR_ASSUME_NBR_PARAMS hassume fn0 { data := [] } w
  · rfl
  · exact Functor_1_call QI_FUNCTOR_ASSUME_NBR_PARAMS hassume fn1 { data := [] } w p0
  · rfl
  · exact Functor_2_call QI_FUNCTOR_ASSUME_NBR_PARAMS hassume fn2 { data := [] } w p0 p1
  · rfl
  · exact Functor_3_call QI_FUNCTOR_ASSUME_NBR_PARAMS hassume fn3 { data := [] } w p0 p1 p2
  · rfl
  · exact Functor_4_call QI_FUNCTOR_ASSUME_NBR_PARAMS hassume fn4 { data := [] } w p0 p1 p2 p3
  · rfl
  · exact Functor_5_call QI_FUNCTOR_ASSUME_NBR_PARAMS hassume fn5 { data := [] } w p0 p1 p2 p3 p4
  · rfl
  · exact Functor_6_call QI_FUNCTOR_ASSUME_NBR_PARAMS hassume fn6 { data := [] } w p0 p1 p2 p3 p4 p5
  · rfl
  · exact Functor_7_call QI_FUNCTOR_ASSUME_NBR_PARAMS hassume fn7 { data := [] } w p0 p1 p2 p3 p4 p5 p6
  · rfl
  · exact Functor_8_call QI_FUNCTOR_ASSUME_NBR_PARAMS hassume fn8 { data := [] } w p0 p1 p2 p3 p4 p5 p6 p7
  · rfl
  · exact Functor_9_call QI_FUNCTOR_ASSUME_NBR_PARAMS hassume fn9 { data := [] } w p0 p1 p2 p3 p4 p5 p6 p7 p8

/-- C30 at concrete inputs: natural numbers serialized as themselves, the check
`exactCount`, and wrapped functions that append their argument list to a log. -/
theorem C30_void_functor_arguments_witness :
    qi.callVoidFunctor_0 (qi.Functor_0 exactCount (recordCall [])) [] =
      some ([[]], { data := [] }, { data := [] }) ∧
    qi.callVoidFunctor_2 (qi.Functor_2 exactCount (fun a0 a1 => recordCall [a0, a1])) 1 2 [] =
      some ([[1, 2]], { data := [] }, { data := [] }) ∧
    qi.callVoidFunctor_9 (qi.Functor_9 exactCount
        (fun a0 a1 a2 a3 a4 a5 a6 a7 a8 => recordCall [a0, a1, a2, a3, a4, a5, a6, a7, a8]))
        1 2 3 4 5 6 7 8 9 [] =
      some ([[1, 2, 3, 4, 5, 6, 7, 8, 9]], { data := [] }, { data := [] }) := by
  have hc : ∀ (msg : qi.Message Nat) (n : Nat), msg.data.length = n → exactCount msg n = true :=
    fun msg n hn => by simp [exactCount, hn]
  have h := @C30_void_functor_arguments Nat (List (List Nat)) Nat Nat Nat Nat Nat Nat Nat Nat Nat
    _ _ _ _ _ _ _ _ _ exactCount hc (qi.Functor_0 exactCount (recordCall [])) []
    1 2 3 4 5 6 7 8 9
    (recordCall [])
    (fun a0 => recordCall [a0])
    (fun a0 a1 => recordCall [a0, a1])
    (fun a0 a1 a2 => recordCall [a0, a1, a2])
    (fun a0 a1 a2 a3 => recordCall [a0, a1, a2, a3])
    (fun a0 a1 a2 a3 a4 => recordCall [a0, a1, a2, a3, a4])
    (fun a0 a1 a2 a3 a4 a5 => recordCall [a0, a1, a2, a3, a4, a5])
    (fun a0 a1 a2 a3 a4 a5 a6 => recordCall [a0, a1, a2, a3, a4, a5, a6])
    (fun a0 a1 a2 a3 a4 a5 a6 a7 => recordCall [a0, a1, a2, a3, a4, a5, a6, a7])
    (fun a0 a1 a2 a3 a4 a5 a6 a7 a8 => recordCall [a0, a1, a2, a3, a4, a5, a6, a7, a8])
  exact ⟨h.2.1, h.2.2.2.2.2.1, h.2.2.2.2.2.2.2.2.2.2.2.2.2.2.2.2.2.2.2⟩

/-! ## Endpoints of the directory, and its binary -/

/-- C21: for every directory state and every endpoint id that is not registered,
`registerEndpoint(id, ...)`, then any sequence of `registerService` and `registerTopic`
calls, then `unregisterEndpoint(id)` leave `listEndpoints()` as it was before, and no entry
of the service map or of the topic map with the value `id`. -/
theorem C21_register_unregister_endpoint
    (synthesize : EndpointContext → MachineContext → List String)
    (type : Int) (name id contextID machineID : String) (processID port : Int)
    (regs : List Registration) (m : MasterImpl)
    (hfresh : m._knownEndpoints.contains id = false) :
    MasterImpl.listEndpoints (MasterImpl.unregisterEndpoint id (applyRegistrations regs
      (MasterImpl.registerEndpoint synthesize type name id contextID machineID processID port m)))
      = MasterImpl.listEndpoints m ∧
    (∀ e ∈ (MasterImpl.unregisterEndpoint id (applyRegistrations regs
      (MasterImpl.registerEndpoint synthesize type name id contextID machineID processID port
        m)))._knownServices.entries, e.2 ≠ id) ∧
    (∀ e ∈ (MasterImpl.unregisterEndpoint id (applyRegistrations regs
      (MasterImpl.registerEndpoint synthesize type name id contextID machineID processID port
        m)))._knownTopics.entries, e.2 ≠ id) := by
  have hget : m._knownEndpoints.get id = none := by
    unfold MutexedNameLookup.contains at hfresh
    cases h : m._knownEndpoints.get id with
    | none => rfl
    | some v => simp [h] at hfresh
  refine ⟨?_, ?_, ?_⟩
  · unfold MasterImpl.listEndpoints MasterImpl.unregisterEndpoint
    simp only
    rw [applyRegistrations_endpoints]
    unfold MasterImpl.registerEndpoint
    split
    · rw [remove_of_absent _ id hget]
    · simp only
      rw [remove_set_of_absent _ id _ hget]
  · exact filterRemove_no_owner _ id
  · exact filterRemove_no_owner _ id

/-- C21 at a concrete input: the endpoint "e9" in the sample directory, with a service and
a topic registered for it in between. -/
theorem C21_register_unregister_endpoint_witness :
    sampleMasterWithMachine._knownEndpoints.contains "e9" = false ∧
    (applyRegistrations [Registration.service "s9" "e9", Registration.topic "t9" "e9"]
      (MasterImpl.registerEndpoint sampleSynthesize 0 "n" "e9" "ctx" "m1" 1 9000
        sampleMasterWithMachine))._knownServices.get "s9" = some "e9" ∧
    MasterImpl.listEndpoints (MasterImpl.unregisterEndpoint "e9"
      (applyRegistrations [Registration.service "s9" "e9", Registration.topic "t9" "e9"]
        (MasterImpl.registerEndpoint sampleSynthesize 0 "n" "e9" "ctx" "m1" 1 9000
          sampleMasterWithMachine))) = ["a", "b", "c"] ∧
    ∀ e ∈ (MasterImpl.unregisterEndpoint "e9"
      (applyRegistrations [Registration.service "s9" "e9", Registration.topic "t9" "e9"]
        (MasterImpl.registerEndpoint sampleSynthesize 0 "n" "e9" "ctx" "m1" 1 9000
          sampleMasterWithMachine)))._knownServices.entries, e.2 ≠ "e9" := by
  have h := C21_register_unregister_endpoint sampleSynthesize 0 "n" "e9" "ctx" "m1" 1 9000
    [Registration.service "s9" "e9", Registration.topic "t9" "e9"] sampleMasterWithMachine
    (by decide)
  exact ⟨by decide, by decide, h.1, h.2.1⟩

/-- C22: the exit code of the directory binary is 1 exactly when `listen` was called on the
parsed master address and failed, and 0 otherwise: on a parse error, with `--help`, and
after `join` has returned following a successful `listen`. With `--help` there is no call
of `listen`. -/
theorem C22_exit_code (parsed : Option VariablesMap) (listen : String → Bool) :
    ((qimaster.main parsed listen).1 = 1 ↔
      ∃ a, MainEvent.listen a ∈ (qimaster.main parsed listen).2 ∧ listen a = false) ∧
    ((qimaster.main parsed listen).1 ≠ 1 → (qimaster.main parsed listen).1 = 0) ∧
    (parsed = none → qimaster.main parsed listen = (0, [MainEvent.printUsage])) ∧
    (∀ vm, parsed = some vm → vm.helpCount ≠ 0 →
      qimaster.main parsed listen = (0, [MainEvent.printUsage])) ∧
    (∀ vm, parsed = some vm → vm.helpCount = 0 → vm.masterAddressCount = 1 →
      listen vm.masterAddress = true →
      qimaster.main parsed listen =
        (0, [MainEvent.listen vm.masterAddress, MainEvent.printReady, MainEvent.join])) ∧
    (∀ vm, parsed = some vm → vm.helpCount = 0 → vm.masterAddressCount = 1 →
      listen vm.masterAddress = false →
      qimaster.main parsed listen = (1, [MainEvent.listen vm.masterAddress])) := by
  refine ⟨?_, ?_, ?_, ?_, ?_, ?_⟩
  · cases parsed with
    | none => simp [qimaster.main]
    | some vm =>
      by_cases hh : vm.helpCount = 0 <;> by_cases hc : vm.masterAddressCount = 1 <;>
        cases hl : listen vm.masterAddress <;> simp [qimaster.main, hh, hc, hl]
  · cases parsed with
    | none => simp [qimaster.main]
    | some vm =>
      by_cases hh : vm.helpCount = 0 <;> by_cases hc : vm.masterAddressCount = 1 <;>
        cases hl : listen vm.masterAddress <;> simp [qimaster.main, hh, hc, hl]
  · intro h
    subst h
    rfl
  · intro vm h hh
    subst h
    simp [qimaster.main, hh]
  · intro vm h hh hc hl
    subst h
    simp [qimaster.main, hh, hc, hl]
  · intro vm h hh hc hl
    subst h
    simp [qimaster.main, hh, hc, hl]

/-- C22 at concrete inputs: the default address with a `listen` that fails, and with
`--help`. -/
theorem C22_exit_code_witness :
    qimaster.main (some (sampleVariables 0)) (fun _ => false) =
      (1, [MainEvent.listen "tcp://0.0.0.0:5555"]) ∧
    qimaster.main (some (sampleVariables 1)) (fun _ => false) = (0, [MainEvent.printUsage]) :=
  ⟨(C22_exit_code (some (sampleVariables 0)) (fun _ => false)).2.2.2.2.2 _ rfl rfl rfl rfl,
   (C22_exit_code (some (sampleVariables 1)) (fun _ => false)).2.2.2.1 _ rfl (by decide)⟩
